import Mathlib

/-!
# Library storage-box workflow

A shallow embedding of the storage workflow of the backend:

* `backend/models/Storage.js`, `backend/models/Request.js` (the two collections),
* `backend/routes/student.js`, handler `POST /request-storage`,
* `backend/routes/library.js`, handlers `POST /assign-storage` and
  `POST /release-storage`, together with `generateAccessCode`, and the read
  handlers `GET /storage-boxes` (which seeds boxes 1..500 into an empty pool),
  `GET /pending-requests` and `GET /statistics`.

Each handler is a pure function from the database before the call (and the values
the handler reads from its environment: the user collection, the clock, the
random source, the id given to a new document) to an `Outcome`: the HTTP
response, the database after the call and the socket events emitted, in order.
Handlers run one at a time, every `save()` succeeds and the socket server `req.io` is
attached to every request.  Two variants of assign-storage drop one of these assumptions
each: `assignStorageWith` lets a `save()` throw, `assignInterleaved` lets two calls
overlap.

Conventions.
* A collection is the list of its documents in insertion order; `findOne` /
  `findById` return the first match, `save()` writes the document back in place.
* A missing / `null` / `undefined` field is `none`.
* Dates are natural numbers (a clock reading).
* Request bodies are typed: `requestId` and `accessCode` are JSON strings,
  `boxNumber` is a JSON number; a string is falsy exactly when it is empty and a
  number exactly when it is `0`.
* The `_id` of a document is the 24 lower-case hexadecimal digits of its `ObjectId`.
  `findById` casts the string it is given to an `ObjectId`: a string of 24 hexadecimal
  digits, of either case, is cast to the `ObjectId` with these digits, and any other
  string makes the query throw (the cast of mongoose 7 and later; earlier versions also
  took a string of 12 characters).
* JavaScript numbers are IEEE 754 doubles.  The only fractions the handlers compute with are
  those of `generateAccessCode`; there each operation returns the double nearest to its
  exact result (`roundDouble`), and a double is a rational `r` with `roundDouble r = r`.
-/

namespace LibraryTokenisation

/-! ## Documents -/

/-- A MongoDB `ObjectId`, as the hexadecimal string that travels in JSON. -/
abbrev ObjectId := String

/-- A document of the user collection.  The model file is not among the sources; the
handlers read only `_id` and `email` of a user. -/
structure User where
  _id : ObjectId
  email : String
  deriving DecidableEq, Repr

/-- The `status` enum of `requestSchema`. -/
inductive Status where
  | pending
  | approved
  | rejected
  deriving DecidableEq, Repr

/-- A document of `requestSchema` (`models/Request.js`), with the schema defaults. -/
structure Request where
  _id : ObjectId
  studentId : ObjectId
  studentEmail : String
  status : Status := Status.pending
  assignedBox : Option Nat := none
  accessCode : Option String := none
  createdAt : Nat
  processedAt : Option Nat := none
  deriving DecidableEq, Repr

/-- A document of `storageSchema` (`models/Storage.js`), with the schema defaults. -/
structure Storage where
  boxNumber : Nat
  isOccupied : Bool := false
  occupiedBy : Option ObjectId := none
  accessCode : Option String := none
  occupiedAt : Option Nat := none
  deriving DecidableEq, Repr

/-- The two collections the workflow reads and writes. -/
structure Db where
  storages : List Storage
  requests : List Request
  deriving DecidableEq, Repr

/-! ## Responses and events -/

/-- The fields of a JSON response besides `message`. -/
inductive Payload where
  | empty
  | assigned (boxNumber : Nat) (studentEmail : String) (accessCode : Option String)
  | released (boxNumber : Nat) (studentEmail : String)
  | submitted (request : Request)
  deriving DecidableEq, Repr

/-- An HTTP response: `res.status(status).json(...)` with a `message` and the payload fields. -/
structure Response where
  status : Nat
  message : String
  payload : Payload
  deriving DecidableEq, Repr

/-- A socket event, `req.io.emit(name, data)`. -/
inductive Event where
  | newRequest (request : Request)
  | storageAssigned (studentId : ObjectId) (boxNumber : Nat) (accessCode : Option String)
      (occupiedAt : Option Nat)
  | storageReleased (studentId : ObjectId) (boxNumber : Nat)
  | storageUpdated (storage : Storage)
  deriving DecidableEq, Repr

/-- What one handler call does: its response, the database it leaves, the events it emits. -/
structure Outcome where
  response : Response
  db : Db
  events : List Event
  deriving DecidableEq, Repr

/-- A response that carries only a message; nothing is written, nothing is emitted. -/
def reject (db : Db) (status : Nat) (message : String) : Outcome :=
  { response := { status := status, message := message, payload := Payload.empty },
    db := db, events := [] }

/-- The `catch` branch of the handlers: status 500 with message `Server error` (the
`error` field, the text of the exception, is not modelled). -/
def serverError (db : Db) : Outcome :=
  reject db 500 "Server error"

/-! ## Collection primitives -/

/-- The effect of `doc.save()` on a collection: the stored document that `findOne` returned
(the first one satisfying `p`) is overwritten by `doc`. -/
def saveFirst {α : Type} (p : α → Bool) (doc : α) : List α → List α
  | [] => []
  | x :: xs => if p x then doc :: xs else x :: saveFirst p doc xs

/-- The query `Storage.findOne` by `boxNumber`. -/
def findBox (storages : List Storage) (boxNumber : Nat) : Option Storage :=
  storages.find? (fun s => s.boxNumber == boxNumber)

/-- A hexadecimal digit: `0`-`9`, `a`-`f` or `A`-`F`. -/
def isHexDigit (c : Char) : Bool :=
  (c.val ≥ 48 && c.val ≤ 57) || (c.val ≥ 97 && c.val ≤ 102) || (c.val ≥ 65 && c.val ≤ 70)

/-- The strings mongoose casts to an `ObjectId`: 24 hexadecimal digits. -/
def isObjectId (id : String) : Bool :=
  id.length == 24 && id.data.all isHexDigit

/-- The hexadecimal string of the `ObjectId` a string of 24 hexadecimal digits is cast to:
the same digits in lower case, the form in which an `_id` is stored. -/
def canonicalId (id : String) : ObjectId :=
  ⟨id.data.map Char.toLower⟩

/-- What `Request.findById(requestId)` does: it throws (a `CastError`) when the id cannot be
cast to an `ObjectId`, and otherwise resolves to the document found, or to `null`. -/
inductive Lookup where
  | castError
  | resolved (doc : Option Request)
  deriving DecidableEq, Repr

/-- The query `Request.findById(requestId)`: the id is cast first, then the first stored
request whose `_id` is the `ObjectId` it was cast to is looked up. -/
def findRequest (requests : List Request) (requestId : String) : Lookup :=
  if isObjectId requestId then
    Lookup.resolved (requests.find? (fun r => r._id == canonicalId requestId))
  else
    Lookup.castError

/-- The query `Storage.findOne` by `accessCode`, for a generated (string) code. -/
def findCode (storages : List Storage) (accessCode : String) : Option Storage :=
  storages.find? (fun s => s.accessCode == some accessCode)

/-- The filter of `Request.findOne` in `POST /request-storage`: the requests of
`studentId` with `status: 'pending'`. -/
def isPendingOf (studentId : ObjectId) (r : Request) : Bool :=
  r.studentId == studentId && r.status == Status.pending

/-- The filter of `Storage.findOne` in `POST /request-storage`: the boxes with
`occupiedBy: studentId` and `isOccupied: true`. -/
def isActiveOf (studentId : ObjectId) (s : Storage) : Bool :=
  s.occupiedBy == some studentId && s.isOccupied

/-- The document `populate` puts in place of a reference: the user with that id, or
`null` when there is none. -/
def populate (users : List User) (ref : Option ObjectId) : Option User :=
  ref.bind (fun id => users.find? (fun u => u._id == id))

/-- The boxes seeded by `GET /storage-boxes` into an empty collection:
one document with `boxNumber: i` and the schema defaults for each `i` from 1 to 500. -/
def initialBoxes : List Storage :=
  (List.range 500).map (fun i => { boxNumber := i + 1 })

/-- The database right after the boxes are seeded, before any request is made. -/
def initialDb : Db :=
  { storages := initialBoxes, requests := [] }

/-! ## Access codes -/

/-- The source's `generateAccessCode`:
`Math.floor(100000 + Math.random() * 900000).toString()`.
The random source is represented by the integer it selects: `draw` is the offset of the
floored value above `100000`, one of the `900000` possible ones
(`doubleCodeNumber` is the floored value as a function of the random double). -/
def generateAccessCode (draw : Fin 900000) : String :=
  toString (100000 + draw.val)

/-- The constant `maxAttempts` of `POST /assign-storage`. -/
def maxAttempts : Nat := 10

/-- The loop
`while (codeExists && attempts < maxAttempts)`
of `POST /assign-storage`, as a function of the loop variables
`accessCode`, `codeExists`, `attempts`; it returns `accessCode` and `attempts` at
loop exit.  `rand i` is the draw of the `i`-th call of the generator in this request.
The first argument bounds the number of iterations; `maxAttempts` is always enough
(`generateLoop_fuel`). -/
def generateLoop (storages : List Storage) (rand : Nat → Fin 900000) :
    Nat → Option String → Bool → Nat → Option String × Nat
  | 0, accessCode, _, attempts => (accessCode, attempts)
  | fuel + 1, accessCode, codeExists, attempts =>
    if codeExists && decide (attempts < maxAttempts) then
      let code := generateAccessCode (rand attempts)
      let existingStorage := findCode storages code
      generateLoop storages rand fuel (some code) existingStorage.isSome (attempts + 1)
    else
      (accessCode, attempts)

/-! ## Handlers -/

/-- The handler `POST /request-storage` of `routes/student.js`, for the authenticated
student `user` (`req.user`).  `newId` is the `_id` the driver gives the new document
and `now` the clock reading for `createdAt`; an `_id` already in the collection makes
the insert fail (duplicate key), which the handler reports as a server error. -/
def requestStorage (db : Db) (user : User) (newId : ObjectId) (now : Nat) : Outcome :=
  match db.requests.find? (isPendingOf user._id) with
  | some _ => reject db 400 "You already have a pending request"
  | none =>
    match db.storages.find? (isActiveOf user._id) with
    | some _ => reject db 400 "You already have an active storage"
    | none =>
      let request : Request :=
        { _id := newId, studentId := user._id, studentEmail := user.email, createdAt := now }
      if db.requests.any (fun r => r._id == newId) then serverError db
      else
        { response := { status := 201, message := "Storage request submitted successfully",
                        payload := Payload.submitted request },
          db := { db with requests := db.requests ++ [request] },
          events := [Event.newRequest request] }

/-- The handler `POST /assign-storage` of `routes/library.js`.
`users` is the user collection `populate('studentId')` reads, `rand` the random source,
`occupiedNow` and `processedNow` the two readings of `new Date()`.  A `findById` that
throws lands in the `catch` branch. -/
def assignStorage (db : Db) (users : List User) (rand : Nat → Fin 900000)
    (occupiedNow processedNow : Nat) (requestId : String) (boxNumber : Nat) : Outcome :=
  if requestId = "" ∨ boxNumber = 0 then
    reject db 400 "Request ID and box number are required"
  else
    match findRequest db.requests requestId with
    | Lookup.castError => serverError db
    | Lookup.resolved none => reject db 404 "Request not found"
    | Lookup.resolved (some request) =>
      if request.status ≠ Status.pending then
        reject db 400 "Request has already been processed"
      else
        match findBox db.storages boxNumber with
        | none => reject db 404 "Storage box not found"
        | some storage =>
          if storage.isOccupied then
            reject db 400 "Storage box is already occupied"
          else
            let loop := generateLoop db.storages rand maxAttempts none true 0
            let accessCode := loop.1
            let attempts := loop.2
            if attempts ≥ maxAttempts then
              reject db 500 "Failed to generate unique access code"
            else
              match populate users (some request.studentId) with
              | none => serverError db
              | some student =>
                let storage1 : Storage :=
                  { storage with
                    isOccupied := true, occupiedBy := some student._id,
                    accessCode := accessCode, occupiedAt := some occupiedNow }
                let request1 : Request :=
                  { request with
                    status := Status.approved, assignedBox := some boxNumber,
                    accessCode := accessCode, processedAt := some processedNow }
                { response := { status := 200, message := "Storage assigned successfully",
                                payload := Payload.assigned boxNumber request.studentEmail
                                  accessCode },
                  db := { storages :=
                            saveFirst (fun s => s.boxNumber == boxNumber) storage1 db.storages,
                          requests :=
                            saveFirst (fun r => r._id == canonicalId requestId) request1
                              db.requests },
                  events := [Event.storageAssigned student._id boxNumber accessCode
                               storage1.occupiedAt,
                             Event.storageUpdated storage1] }

/-- The handler `POST /release-storage` of `routes/library.js`.
`users` is the user collection `populate('occupiedBy', 'email')` reads. -/
def releaseStorage (db : Db) (users : List User) (boxNumber : Nat) (accessCode : String) :
    Outcome :=
  if boxNumber = 0 ∨ accessCode = "" then
    reject db 400 "Box number and access code are required"
  else
    match findBox db.storages boxNumber with
    | none => reject db 404 "Storage box not found"
    | some storage =>
      if !storage.isOccupied then
        reject db 400 "Storage box is not currently occupied"
      else if storage.accessCode ≠ some accessCode then
        reject db 400 "Invalid access code"
      else
        match populate users storage.occupiedBy with
        | none => serverError db
        | some occupant =>
          let studentId := occupant._id
          let studentEmail := occupant.email
          let storage1 : Storage :=
            { storage with
              isOccupied := false, occupiedBy := none, accessCode := none, occupiedAt := none }
          { response := { status := 200, message := "Storage released successfully",
                          payload := Payload.released boxNumber studentEmail },
            db := { db with
                    storages :=
                      saveFirst (fun s => s.boxNumber == boxNumber) storage1 db.storages },
            events := [Event.storageReleased studentId boxNumber,
                       Event.storageUpdated storage1] }

/-! ## Reachable databases -/

/-- The databases reached from the freshly seeded pool and the empty request collection by
handler calls run one after the other, with any arguments and any environment. -/
inductive Reachable : Db → Prop
  | init : Reachable initialDb
  | submit {db : Db} (user : User) (newId : ObjectId) (now : Nat) :
      Reachable db → Reachable (requestStorage db user newId now).db
  | assign {db : Db} (users : List User) (rand : Nat → Fin 900000)
      (occupiedNow processedNow : Nat) (requestId : String) (boxNumber : Nat) :
      Reachable db →
      Reachable (assignStorage db users rand occupiedNow processedNow requestId boxNumber).db
  | release {db : Db} (users : List User) (boxNumber : Nat) (accessCode : String) :
      Reachable db → Reachable (releaseStorage db users boxNumber accessCode).db

/-- The consistency conditions every reachable database meets (`wellFormed_of_reachable`):
a vacant box carries no occupant, code or date; an occupied box carries an occupant, a
generated code and a date; no code is stored on two boxes; and a student never has
more than one of: a pending request, an occupied box. -/
structure WellFormed (db : Db) : Prop where
  vacant : ∀ s ∈ db.storages, s.isOccupied = false →
    s.occupiedBy = none ∧ s.accessCode = none ∧ s.occupiedAt = none
  occupied : ∀ s ∈ db.storages, s.isOccupied = true →
    s.occupiedBy ≠ none ∧ (∃ draw, s.accessCode = some (generateAccessCode draw)) ∧
      s.occupiedAt ≠ none
  codes : db.storages.Pairwise (fun a b => ∀ c, a.accessCode = some c → b.accessCode ≠ some c)
  single : ∀ u, db.requests.countP (isPendingOf u) + db.storages.countP (isActiveOf u) ≤ 1

/-! ## Read endpoints -/

/-- A box as the read endpoints return it: the stored document, with `occupiedBy`
populated (`populate('occupiedBy', 'email')`). -/
structure PopulatedStorage where
  storage : Storage
  occupant : Option User
  deriving DecidableEq, Repr

/-- A request as `GET /pending-requests` returns it: the stored document, with `studentId`
populated (`populate('studentId', 'email')`). -/
structure PopulatedRequest where
  request : Request
  student : Option User
  deriving DecidableEq, Repr

/-- The population of one box document. -/
def populateStorage (users : List User) (s : Storage) : PopulatedStorage :=
  { storage := s, occupant := populate users s.occupiedBy }

/-- The population of one request document. -/
def populateRequest (users : List User) (r : Request) : PopulatedRequest :=
  { request := r, student := populate users (some r.studentId) }

/-- What `GET /storage-boxes` does: the JSON array it answers with and the database it
leaves. -/
structure Listing where
  boxes : List PopulatedStorage
  db : Db
  deriving DecidableEq, Repr

/-- The handler `GET /storage-boxes` of `routes/library.js`: `Storage.find` with no filter
and no sort returns the collection in its stored order; when it is empty the boxes 1..500
are inserted (`insertMany`) and the collection is read again. -/
def storageBoxes (db : Db) (users : List User) : Listing :=
  let storages := db.storages.map (populateStorage users)
  if storages.length = 0 then
    let db1 : Db := { db with storages := db.storages ++ initialBoxes }
    { boxes := db1.storages.map (populateStorage users), db := db1 }
  else
    { boxes := storages, db := db }

/-- The handler `GET /pending-requests` of `routes/library.js`: the requests with
`status: 'pending'`, sorted by `createdAt` descending.  The order the database gives
requests with equal dates is not fixed by the query; the model keeps their stored
order. -/
def pendingRequests (db : Db) (users : List User) : List PopulatedRequest :=
  ((db.requests.filter (fun r => r.status == Status.pending)).insertionSort
    (fun a b => a.createdAt ≥ b.createdAt)).map (populateRequest users)

/-- The JSON object `GET /statistics` answers with. -/
structure Statistics where
  totalBoxes : Int
  occupiedBoxes : Int
  availableBoxes : Int
  pendingRequests : Int
  deriving DecidableEq, Repr

/-- The handler `GET /statistics` of `routes/library.js`; the three `countDocuments` are
numbers and `availableBoxes` is their difference as JavaScript computes it. -/
def statistics (db : Db) : Statistics :=
  let totalBoxes : Int := db.storages.length
  let occupiedBoxes : Int := (db.storages.filter (fun s => s.isOccupied)).length
  let availableBoxes : Int := totalBoxes - occupiedBoxes
  let pendingRequests : Int :=
    (db.requests.filter (fun r => r.status == Status.pending)).length
  { totalBoxes := totalBoxes, occupiedBoxes := occupiedBoxes,
    availableBoxes := availableBoxes, pendingRequests := pendingRequests }

/-! ## Operations as data -/

/-- One call of a handler that can write, with everything it receives. -/
inductive Op where
  | submit (user : User) (newId : ObjectId) (now : Nat)
  | assign (users : List User) (rand : Nat → Fin 900000) (occupiedNow processedNow : Nat)
      (requestId : String) (boxNumber : Nat)
  | release (users : List User) (boxNumber : Nat) (accessCode : String)
  | listUnits (users : List User)

/-- The database a call leaves. -/
def perform (db : Db) : Op → Db
  | Op.submit user newId now => (requestStorage db user newId now).db
  | Op.assign users rand occupiedNow processedNow requestId boxNumber =>
    (assignStorage db users rand occupiedNow processedNow requestId boxNumber).db
  | Op.release users boxNumber accessCode => (releaseStorage db users boxNumber accessCode).db
  | Op.listUnits users => (storageBoxes db users).db

/-! ## The assign-storage handler in two phases -/

/-- What a call of `POST /assign-storage` holds once its reads are done (lines 53-97): the
request read at line 63 with its populated student, the box read at line 73 and the
generated code. -/
structure AssignPlan where
  request : Request
  student : Option User
  storage : Storage
  accessCode : Option String
  deriving DecidableEq, Repr

/-- The reads and checks of `POST /assign-storage` (lines 53-97): the response of the first
failed check, or the plan for the writes. -/
def assignRead (db : Db) (users : List User) (rand : Nat → Fin 900000)
    (requestId : String) (boxNumber : Nat) : Except Response AssignPlan :=
  if requestId = "" ∨ boxNumber = 0 then
    Except.error (reject db 400 "Request ID and box number are required").response
  else
    match findRequest db.requests requestId with
    | Lookup.castError => Except.error (serverError db).response
    | Lookup.resolved none => Except.error (reject db 404 "Request not found").response
    | Lookup.resolved (some request) =>
      if request.status ≠ Status.pending then
        Except.error (reject db 400 "Request has already been processed").response
      else
        match findBox db.storages boxNumber with
        | none => Except.error (reject db 404 "Storage box not found").response
        | some storage =>
          if storage.isOccupied then
            Except.error (reject db 400 "Storage box is already occupied").response
          else
            let loop := generateLoop db.storages rand maxAttempts none true 0
            let accessCode := loop.1
            let attempts := loop.2
            if attempts ≥ maxAttempts then
              Except.error (reject db 500 "Failed to generate unique access code").response
            else
              Except.ok { request := request,
                          student := populate users (some request.studentId),
                          storage := storage, accessCode := accessCode }

/-- The writes of `POST /assign-storage` (lines 99-134) applied to the database as it is
when they run.  `storageSaved` and `requestSaved` tell whether `storage.save()` (line 105)
and `request.save()` (line 112) succeed; a `save()` that throws lands in the `catch`
branch, and what was saved before it stays saved. -/
def assignCommit (storageSaved requestSaved : Bool) (db : Db) (plan : AssignPlan)
    (occupiedNow processedNow : Nat) (requestId : String) (boxNumber : Nat) : Outcome :=
  match plan.student with
  | none => serverError db
  | some student =>
    let storage1 : Storage :=
      { plan.storage with
        isOccupied := true, occupiedBy := some student._id,
        accessCode := plan.accessCode, occupiedAt := some occupiedNow }
    if !storageSaved then serverError db
    else
      let db1 : Db :=
        { db with
          storages := saveFirst (fun s => s.boxNumber == boxNumber) storage1 db.storages }
      let request1 : Request :=
        { plan.request with
          status := Status.approved, assignedBox := some boxNumber,
          accessCode := plan.accessCode, processedAt := some processedNow }
      if !requestSaved then serverError db1
      else
        { response := { status := 200, message := "Storage assigned successfully",
                        payload := Payload.assigned boxNumber plan.request.studentEmail
                          plan.accessCode },
          db := { db1 with
                  requests :=
                    saveFirst (fun r => r._id == canonicalId requestId) request1
                      db1.requests },
          events := [Event.storageAssigned student._id boxNumber plan.accessCode
                       storage1.occupiedAt,
                     Event.storageUpdated storage1] }

/-- The handler `POST /assign-storage` when a `save()` may throw: the reads, then the
writes.  With both saves succeeding it is `assignStorage` (`assignStorageWith_saved`). -/
def assignStorageWith (storageSaved requestSaved : Bool) (db : Db) (users : List User)
    (rand : Nat → Fin 900000) (occupiedNow processedNow : Nat) (requestId : String)
    (boxNumber : Nat) : Outcome :=
  match assignRead db users rand requestId boxNumber with
  | Except.error response => { response := response, db := db, events := [] }
  | Except.ok plan =>
    assignCommit storageSaved requestSaved db plan occupiedNow processedNow requestId
      boxNumber

/-- Two calls of `POST /assign-storage` in flight together, scheduled so that both finish
their reads before either writes: the first call reads, the second call reads (the same
database), the first call writes, the second call writes.  The result is the outcome of
each call; the database the second outcome carries is the final one. -/
def assignInterleaved (db : Db) (users : List User)
    (randA : Nat → Fin 900000) (occupiedNowA processedNowA : Nat) (requestIdA : String)
    (boxNumberA : Nat)
    (randB : Nat → Fin 900000) (occupiedNowB processedNowB : Nat) (requestIdB : String)
    (boxNumberB : Nat) : Outcome × Outcome :=
  let readA := assignRead db users randA requestIdA boxNumberA
  let readB := assignRead db users randB requestIdB boxNumberB
  let outA : Outcome :=
    match readA with
    | Except.error response => { response := response, db := db, events := [] }
    | Except.ok plan =>
      assignCommit true true db plan occupiedNowA processedNowA requestIdA boxNumberA
  let outB : Outcome :=
    match readB with
    | Except.error response => { response := response, db := outA.db, events := [] }
    | Except.ok plan =>
      assignCommit true true outA.db plan occupiedNowB processedNowB requestIdB boxNumberB
  (outA, outB)

/-! ## Databases together with the user collection -/

/-- The database together with the user collection the handlers populate from. -/
structure World where
  db : Db
  users : List User

/-- The worlds reached from the seeded pool, the empty request collection and any user
collection by handler calls run one after the other, each reading the user collection as
it is; between calls a user may be registered (`routes/auth.js`), and no handler of the
backend removes one. -/
inductive Run : World → Prop
  | init (users : List User) : Run { db := initialDb, users := users }
  | register {w : World} (user : User) :
      Run w → Run { db := w.db, users := w.users ++ [user] }
  | submit {w : World} (user : User) (newId : ObjectId) (now : Nat) :
      Run w → Run { db := (requestStorage w.db user newId now).db, users := w.users }
  | assign {w : World} (rand : Nat → Fin 900000) (occupiedNow processedNow : Nat)
      (requestId : String) (boxNumber : Nat) :
      Run w →
      Run { db := (assignStorage w.db w.users rand occupiedNow processedNow requestId
                    boxNumber).db,
            users := w.users }
  | release {w : World} (boxNumber : Nat) (accessCode : String) :
      Run w → Run { db := (releaseStorage w.db w.users boxNumber accessCode).db,
                    users := w.users }

/-! ## The code number, in exact and in double arithmetic -/

/-- The number `floor(100000 + 900000 * r)` for a random value `r`, in exact (rational)
arithmetic: the number the specification names.  What the source computes is
`doubleCodeNumber`. -/
def codeNumber (r : ℚ) : Nat :=
  (Rat.floor (100000 + 900000 * r)).toNat

/-- The integer nearest to a rational, the even one when two are equally near. -/
def roundHalfEven (t : ℚ) : ℤ :=
  if t - ⌊t⌋ < 1 / 2 then ⌊t⌋
  else if 1 / 2 < t - ⌊t⌋ then ⌊t⌋ + 1
  else if ⌊t⌋ % 2 = 0 then ⌊t⌋ else ⌊t⌋ + 1

/-- The exponent of the spacing of the IEEE 754 doubles around `q > 0`: 52 below the
exponent of `q`, and never below the spacing of the subnormal doubles. -/
def ulpExponent (q : ℚ) : ℤ :=
  max (Int.log 2 q - 52) (-1074)

/-- The IEEE 754 double a JavaScript operation returns when its exact result is `q`: the
multiple of the spacing nearest to `q`, the even multiple on a tie.  Only results `0 ≤ q`
below the overflow threshold occur in the source; a `q ≤ 0` is sent to `0`. -/
def roundDouble (q : ℚ) : ℚ :=
  if q ≤ 0 then 0 else (roundHalfEven (q / 2 ^ ulpExponent q) : ℚ) * 2 ^ ulpExponent q

/-- The number `Math.floor(100000 + Math.random() * 900000)` of `generateAccessCode` when
`Math.random()` returns the double `r`: the product is rounded, then the sum. -/
def doubleCodeNumber (r : ℚ) : Nat :=
  (Rat.floor (roundDouble (100000 + roundDouble (r * 900000)))).toNat

/-- The draw `generateAccessCode` works with when `Math.random()` returns the double `r`:
the offset of the floored value above `100000`. -/
def drawOfRandom (r : ℚ) : Fin 900000 :=
  ⟨(doubleCodeNumber r - 100000) % 900000, Nat.mod_lt _ (by decide)⟩

/-- The double `123183457807755 / 2 ^ 52`, about `0.02735`. -/
def sampleRandom : ℚ := 123183457807755 / 4503599627370496

/-! ## Sample data -/

/-- A student. -/
def alice : User := { _id := "65a0000000000000000000a1", email := "alice@example.org" }

/-- Another student. -/
def bob : User := { _id := "65a0000000000000000000b2", email := "bob@example.org" }

/-- A random source whose first draw gives the code `123456` and every later draw `134567`. -/
def sampleRand : Nat → Fin 900000 :=
  fun i => if i = 0 then 23456 else 34567

/-- A random source whose first nine draws give the code `123456` and every later draw
`134567`. -/
def tenthRand : Nat → Fin 900000 :=
  fun i => if i < 9 then 23456 else 34567

/-- The seeded database after `alice` and `bob` have each submitted a request. -/
def requestedDb : Db :=
  (requestStorage (requestStorage initialDb alice "65a000000000000000000001" 1).db bob "65a000000000000000000002" 2).db

/-- The database `requestedDb` after the request of `alice` got box 7 (code `123456`). -/
def occupiedDb : Db :=
  (assignStorage requestedDb [alice, bob] sampleRand 3 4 "65a000000000000000000001" 7).db

/-- The database `occupiedDb` after the request of `bob` got box 9 (code `134567`, the
second candidate, the first one being held by box 7). -/
def fullDb : Db :=
  (assignStorage occupiedDb [alice, bob] sampleRand 5 6 "65a000000000000000000002" 9).db

/-- The sample database `occupiedDb` with the user collection it was built with. -/
def occupiedWorld : World :=
  { db := occupiedDb, users := [alice, bob] }



/-! ## Lemmas on the collection primitives -/

theorem mem_saveFirst {α : Type} (p : α → Bool) (doc : α) (l : List α) (x : α)
    (h : x ∈ saveFirst p doc l) : x = doc ∨ x ∈ l := by
  induction l with
  | nil => simp [saveFirst] at h
  | cons y ys ih =>
    unfold saveFirst at h
    split at h
    · rcases List.mem_cons.1 h with h1 | h1
      · exact Or.inl h1
      · exact Or.inr (List.mem_cons_of_mem _ h1)
    · rcases List.mem_cons.1 h with h1 | h1
      · exact Or.inr (h1 ▸ List.mem_cons_self _ _)
      · rcases ih h1 with h2 | h2
        · exact Or.inl h2
        · exact Or.inr (List.mem_cons_of_mem _ h2)

theorem saveFirst_length {α : Type} (p : α → Bool) (doc : α) (l : List α) :
    (saveFirst p doc l).length = l.length := by
  induction l with
  | nil => rfl
  | cons y ys ih =>
    unfold saveFirst
    split <;> simp [ih]

theorem find_saveFirst {α : Type} (p : α → Bool) (doc : α) (l : List α) (x : α)
    (hx : l.find? p = some x) (hd : p doc = true) :
    (saveFirst p doc l).find? p = some doc := by
  induction l with
  | nil => simp at hx
  | cons y ys ih =>
    unfold saveFirst
    by_cases hy : p y = true
    · simp [hy, hd]
    · have hy2 : p y = false := by simpa using hy
      rw [List.find?_cons_of_neg _ hy] at hx
      simp only [hy2, Bool.false_eq_true, if_false]
      rw [List.find?_cons_of_neg _ hy]
      exact ih hx

theorem pairwise_saveFirst {α : Type} (R : α → α → Prop) (p : α → Bool) (doc : α)
    (l : List α) (hl : l.Pairwise R) (hd : ∀ x ∈ l, R doc x ∧ R x doc) :
    (saveFirst p doc l).Pairwise R := by
  induction l with
  | nil => simp [saveFirst]
  | cons y ys ih =>
    have hy := List.pairwise_cons.1 hl
    unfold saveFirst
    split
    · exact List.pairwise_cons.2
        ⟨fun z hz => (hd z (List.mem_cons_of_mem _ hz)).1, hy.2⟩
    · refine List.pairwise_cons.2 ⟨fun z hz => ?_, ih hy.2 ?_⟩
      · rcases mem_saveFirst p doc ys z hz with h1 | h1
        · exact h1 ▸ (hd y (List.mem_cons_self _ _)).2
        · exact hy.1 z h1
      · exact fun x hx => hd x (List.mem_cons_of_mem _ hx)

theorem countP_saveFirst {α : Type} (p q : α → Bool) (doc x : α) (l : List α)
    (hx : l.find? p = some x) :
    (saveFirst p doc l).countP q + (if q x = true then 1 else 0)
      = l.countP q + (if q doc = true then 1 else 0) := by
  induction l with
  | nil => simp at hx
  | cons y ys ih =>
    unfold saveFirst
    by_cases hy : p y = true
    · rw [List.find?_cons_of_pos _ hy] at hx
      have hxy : y = x := by simpa using hx
      subst hxy
      simp only [hy, if_true, List.countP_cons]
      omega
    · rw [List.find?_cons_of_neg _ hy] at hx
      have hy2 : p y = false := by simpa using hy
      simp only [hy2, Bool.false_eq_true, if_false, List.countP_cons]
      have := ih hx
      omega

theorem countP_eq_zero_of_find_none {α : Type} (q : α → Bool) (l : List α)
    (h : l.find? q = none) : l.countP q = 0 := by
  rw [List.countP_eq_zero]
  intro a ha
  have := List.find?_eq_none.1 h a ha
  simpa using this

/-! ## Lemmas on the code-generation loop -/

theorem generateLoop_false (storages : List Storage) (rand : Nat → Fin 900000) (fuel : Nat)
    (code : Option String) (attempts : Nat) :
    generateLoop storages rand fuel code false attempts = (code, attempts) := by
  cases fuel <;> simp [generateLoop]

/-- One more iteration than `maxAttempts - attempts` never changes the result of the
loop: the bound on iterations in `generateLoop` does not cut the source's loop short. -/
theorem generateLoop_fuel (storages : List Storage) (rand : Nat → Fin 900000) (fuel : Nat) :
    ∀ (code : Option String) (codeExists : Bool) (attempts : Nat),
      maxAttempts ≤ attempts + fuel →
      generateLoop storages rand (fuel + 1) code codeExists attempts
        = generateLoop storages rand fuel code codeExists attempts := by
  induction fuel with
  | zero =>
    intro code codeExists attempts h
    have : ¬ attempts < maxAttempts := by omega
    simp [generateLoop, this]
  | succ n ih =>
    intro code codeExists attempts h
    rw [generateLoop]
    conv_rhs => rw [generateLoop]
    rw [ih _ _ _ (by omega)]

/-- The loop started on `attempts` made so far, with at least `maxAttempts - attempts`
iterations allowed: it leaves fewer than `maxAttempts` attempts exactly when one of the
candidates `attempts, ..., maxAttempts - 2` meets no stored code, and then it returns
the first such candidate. -/
theorem generateLoop_spec (storages : List Storage) (rand : Nat → Fin 900000) (fuel : Nat) :
    ∀ (code : Option String) (attempts : Nat),
      maxAttempts ≤ attempts + fuel → attempts ≤ maxAttempts →
      ((∀ j, attempts ≤ j → j + 1 < maxAttempts →
          findCode storages (generateAccessCode (rand j)) ≠ none) ∧
        (generateLoop storages rand fuel code true attempts).2 = maxAttempts) ∨
      (∃ i, attempts ≤ i ∧ i + 1 < maxAttempts ∧
        findCode storages (generateAccessCode (rand i)) = none ∧
        (∀ j, attempts ≤ j → j < i →
          findCode storages (generateAccessCode (rand j)) ≠ none) ∧
        generateLoop storages rand fuel code true attempts
          = (some (generateAccessCode (rand i)), i + 1)) := by
  induction fuel with
  | zero =>
    intro code attempts h1 h2
    left
    refine ⟨fun j hj hj2 => ?_, ?_⟩
    · omega
    · simp only [generateLoop]; omega
  | succ n ih =>
    intro code attempts h1 h2
    by_cases hlt : attempts < maxAttempts
    · rw [generateLoop]
      simp only [Bool.true_and, hlt, decide_True, if_true]
      cases hfind : findCode storages (generateAccessCode (rand attempts)) with
      | none =>
        simp only [Option.isSome_none, generateLoop_false]
        by_cases h9 : attempts + 1 < maxAttempts
        · right
          exact ⟨attempts, le_refl _, h9, hfind, fun j hj hj2 => by omega, rfl⟩
        · left
          refine ⟨fun j hj hj2 => by omega, ?_⟩
          show attempts + 1 = maxAttempts
          omega
      | some s =>
        simp only [Option.isSome_some]
        rcases ih (some (generateAccessCode (rand attempts))) (attempts + 1)
            (by omega) (by omega) with ⟨hall, hres⟩ | ⟨i, hi1, hi2, hi3, hi4, hres⟩
        · left
          refine ⟨fun j hj hj2 => ?_, hres⟩
          rcases Nat.eq_or_lt_of_le hj with h0 | h0
          · subst h0; rw [hfind]; simp
          · exact hall j h0 hj2
        · right
          refine ⟨i, by omega, hi2, hi3, fun j hj hj2 => ?_, hres⟩
          rcases Nat.eq_or_lt_of_le hj with h0 | h0
          · subst h0; rw [hfind]; simp
          · exact hi4 j h0 hj2
    · left
      have : attempts = maxAttempts := by omega
      refine ⟨fun j hj hj2 => by omega, ?_⟩
      rw [generateLoop]
      simp [hlt, this]

/-! ## Case analysis of the handlers -/

theorem populate_id (users : List User) (id : ObjectId) (u : User)
    (h : populate users (some id) = some u) : u._id = id := by
  simp only [populate, Option.some_bind] at h
  have := List.find?_some h
  simpa using this

theorem findRequest_find (requests : List Request) (requestId : String) (request : Request)
    (h : findRequest requests requestId = Lookup.resolved (some request)) :
    requests.find? (fun r => r._id == canonicalId requestId) = some request := by
  unfold findRequest at h
  split at h
  · exact Lookup.resolved.inj h
  · cases h

theorem findRequest_cast (requests : List Request) (requestId : String) (doc : Option Request)
    (h : findRequest requests requestId = Lookup.resolved doc) :
    isObjectId requestId = true := by
  unfold findRequest at h
  split at h
  · assumption
  · cases h

theorem findRequest_of_find (requests : List Request) (requestId : String)
    (doc : Option Request) (hcast : isObjectId requestId = true)
    (h : requests.find? (fun r => r._id == canonicalId requestId) = doc) :
    findRequest requests requestId = Lookup.resolved doc := by
  unfold findRequest
  rw [if_pos hcast, h]

theorem findRequest_id (requests : List Request) (requestId : String) (request : Request)
    (h : findRequest requests requestId = Lookup.resolved (some request)) :
    request._id = canonicalId requestId := by
  have := List.find?_some (findRequest_find _ _ _ h)
  simpa using this

theorem findRequest_saveFirst (requests : List Request) (requestId : String)
    (request doc : Request)
    (h : findRequest requests requestId = Lookup.resolved (some request))
    (hd : doc._id = canonicalId requestId) :
    findRequest (saveFirst (fun r => r._id == canonicalId requestId) doc requests) requestId
      = Lookup.resolved (some doc) :=
  findRequest_of_find _ _ _ (findRequest_cast _ _ _ h)
    (find_saveFirst (fun r : Request => r._id == canonicalId requestId) doc requests request
      (findRequest_find _ _ _ h) (by simpa using hd))

/-- A call of `POST /assign-storage` either answers with an error, writing and emitting
nothing, or passes every check and performs the two writes. -/
theorem assignStorage_cases (db : Db) (users : List User) (rand : Nat → Fin 900000)
    (occupiedNow processedNow : Nat) (requestId : String) (boxNumber : Nat) :
    ((assignStorage db users rand occupiedNow processedNow requestId boxNumber).db = db ∧
      (assignStorage db users rand occupiedNow processedNow requestId boxNumber).events = [] ∧
      (assignStorage db users rand occupiedNow processedNow requestId boxNumber).response.status
        ≠ 200) ∨
    (∃ request storage i,
      requestId ≠ "" ∧ boxNumber ≠ 0 ∧
      findRequest db.requests requestId = Lookup.resolved (some request) ∧ request.status = Status.pending ∧
      findBox db.storages boxNumber = some storage ∧ storage.isOccupied = false ∧
      i + 1 < maxAttempts ∧
      findCode db.storages (generateAccessCode (rand i)) = none ∧
      (∀ j, j < i → findCode db.storages (generateAccessCode (rand j)) ≠ none) ∧
      (∃ student, populate users (some request.studentId) = some student) ∧
      assignStorage db users rand occupiedNow processedNow requestId boxNumber =
        { response := { status := 200, message := "Storage assigned successfully",
                        payload := Payload.assigned boxNumber request.studentEmail
                          (some (generateAccessCode (rand i))) },
          db := { storages := saveFirst (fun s => s.boxNumber == boxNumber)
                    { storage with
                      isOccupied := true, occupiedBy := some request.studentId,
                      accessCode := some (generateAccessCode (rand i)),
                      occupiedAt := some occupiedNow } db.storages,
                  requests := saveFirst (fun r => r._id == canonicalId requestId)
                    { request with
                      status := Status.approved, assignedBox := some boxNumber,
                      accessCode := some (generateAccessCode (rand i)),
                      processedAt := some processedNow } db.requests },
          events := [Event.storageAssigned request.studentId boxNumber
                       (some (generateAccessCode (rand i))) (some occupiedNow),
                     Event.storageUpdated
                       { storage with
                         isOccupied := true, occupiedBy := some request.studentId,
                         accessCode := some (generateAccessCode (rand i)),
                         occupiedAt := some occupiedNow }] }) := by
  unfold assignStorage
  split
  · left; simp [reject]
  · rename_i hguard
    split
    · left; simp [serverError, reject]
    · left; simp [reject]
    · rename_i request hreq
      split
      · left; simp [reject]
      · rename_i hstatus
        split
        · left; simp [reject]
        · rename_i storage hbox
          split
          · left; simp [reject]
          · rename_i hocc
            rcases generateLoop_spec db.storages rand maxAttempts none 0 (by omega)
                (Nat.zero_le _) with ⟨_, hres⟩ | ⟨i, _, hi2, hi3, hi4, hres⟩
            · left
              simp [hres, reject]
            · simp only [hres]
              split
              · rename_i hge
                exact absurd hge (by simp only [ge_iff_le]; omega)
              · split
                · left; simp [serverError, reject]
                · rename_i student hstudent
                  right
                  have hid := populate_id users request.studentId student hstudent
                  refine ⟨request, storage, i, ?_, ?_, hreq, ?_, hbox, ?_, hi2, hi3,
                    fun j hj => hi4 j (Nat.zero_le _) hj, ⟨student, hstudent⟩, ?_⟩
                  · exact fun h => hguard (Or.inl h)
                  · exact fun h => hguard (Or.inr h)
                  · simpa using hstatus
                  · simpa using hocc
                  · simp [hid]

/-- A call of `POST /release-storage` either answers with an error, writing and emitting
nothing, or passes every check and vacates the box. -/
theorem releaseStorage_cases (db : Db) (users : List User) (boxNumber : Nat)
    (accessCode : String) :
    ((releaseStorage db users boxNumber accessCode).db = db ∧
      (releaseStorage db users boxNumber accessCode).events = [] ∧
      (releaseStorage db users boxNumber accessCode).response.status ≠ 200) ∨
    (∃ storage occupant,
      boxNumber ≠ 0 ∧ accessCode ≠ "" ∧
      findBox db.storages boxNumber = some storage ∧ storage.isOccupied = true ∧
      storage.accessCode = some accessCode ∧
      populate users storage.occupiedBy = some occupant ∧
      releaseStorage db users boxNumber accessCode =
        { response := { status := 200, message := "Storage released successfully",
                        payload := Payload.released boxNumber occupant.email },
          db := { storages := saveFirst (fun s => s.boxNumber == boxNumber)
                    { storage with
                      isOccupied := false, occupiedBy := none, accessCode := none,
                      occupiedAt := none } db.storages,
                  requests := db.requests },
          events := [Event.storageReleased occupant._id boxNumber,
                     Event.storageUpdated
                       { storage with
                         isOccupied := false, occupiedBy := none, accessCode := none,
                         occupiedAt := none }] }) := by
  unfold releaseStorage
  split
  · left; simp [reject]
  · rename_i hguard
    split
    · left; simp [reject]
    · rename_i storage hbox
      split
      · left; simp [reject]
      · rename_i hocc
        split
        · left; simp [reject]
        · rename_i hcode
          split
          · left; simp [serverError, reject]
          · rename_i occupant hpop
            right
            refine ⟨storage, occupant, fun h => hguard (Or.inl h), fun h => hguard (Or.inr h),
              hbox, by simpa using hocc, by simpa using hcode, hpop, rfl⟩

/-- A call of `POST /request-storage` either answers with an error, writing and emitting
nothing, or appends one pending request for a student without pending request or box. -/
theorem requestStorage_cases (db : Db) (user : User) (newId : ObjectId) (now : Nat) :
    ((requestStorage db user newId now).db = db ∧
      (requestStorage db user newId now).events = [] ∧
      (requestStorage db user newId now).response.status ≠ 201) ∨
    (db.requests.find? (isPendingOf user._id) = none ∧
      db.storages.find? (isActiveOf user._id) = none ∧
      (∀ r ∈ db.requests, r._id ≠ newId) ∧
      requestStorage db user newId now =
        { response := { status := 201, message := "Storage request submitted successfully",
                        payload := Payload.submitted
                          { _id := newId, studentId := user._id, studentEmail := user.email,
                            createdAt := now } },
          db := { storages := db.storages,
                  requests := db.requests ++
                    [{ _id := newId, studentId := user._id, studentEmail := user.email,
                       createdAt := now }] },
          events := [Event.newRequest
                       { _id := newId, studentId := user._id, studentEmail := user.email,
                         createdAt := now }] }) := by
  unfold requestStorage
  split
  · left; simp [reject]
  · rename_i hpending
    split
    · left; simp [reject]
    · rename_i hactive
      split
      · left; simp [serverError, reject]
      · rename_i hdup
        right
        refine ⟨hpending, hactive, ?_, rfl⟩
        intro r hr heq
        apply hdup
        simp only [List.any_eq_true]
        exact ⟨r, hr, by simpa using heq⟩

/-! ## The consistency conditions are invariant -/

theorem pairwise_of_no_code (l : List Storage) (h : ∀ s ∈ l, s.accessCode = none) :
    l.Pairwise (fun a b => ∀ c, a.accessCode = some c → b.accessCode ≠ some c) := by
  induction l with
  | nil => exact List.Pairwise.nil
  | cons y ys ih =>
    refine List.pairwise_cons.2 ⟨fun z hz c hc => ?_, ih fun s hs => h s (List.mem_cons_of_mem _ hs)⟩
    rw [h y (List.mem_cons_self _ _)] at hc
    cases hc

theorem initialDb_storages : initialDb.storages = initialBoxes := by
  simp only [initialDb]

theorem mem_initialBoxes (s : Storage) (h : s ∈ initialDb.storages) :
    s.isOccupied = false ∧ s.occupiedBy = none ∧ s.accessCode = none ∧ s.occupiedAt = none := by
  rw [initialDb_storages] at h
  unfold initialBoxes at h
  rw [List.mem_map] at h
  obtain ⟨i, _, rfl⟩ := h
  exact ⟨rfl, rfl, rfl, rfl⟩

theorem wellFormed_init : WellFormed initialDb where
  vacant := fun s hs _ => (mem_initialBoxes s hs).2
  occupied := fun s hs h => by
    rw [(mem_initialBoxes s hs).1] at h
    cases h
  codes := pairwise_of_no_code _ fun s hs => (mem_initialBoxes s hs).2.2.1
  single := fun u => by
    have h : initialDb.storages.countP (isActiveOf u) = 0 := by
      rw [List.countP_eq_zero]
      intro s hs
      simp [isActiveOf, (mem_initialBoxes s hs).1]
    rw [h]
    have h2 : initialDb.requests = [] := by simp only [initialDb]
    rw [h2]
    simp

theorem wellFormed_requestStorage (db : Db) (user : User) (newId : ObjectId) (now : Nat)
    (h : WellFormed db) : WellFormed (requestStorage db user newId now).db := by
  rcases requestStorage_cases db user newId now with ⟨hdb, _, _⟩ | ⟨hp, ha, _, hout⟩
  · rw [hdb]; exact h
  · rw [hout]
    refine ⟨h.vacant, h.occupied, h.codes, fun u => ?_⟩
    simp only [List.countP_append, List.countP_cons, List.countP_nil, Nat.zero_add]
    by_cases hu : user._id = u
    · subst hu
      rw [countP_eq_zero_of_find_none _ _ hp, countP_eq_zero_of_find_none _ _ ha]
      split <;> omega
    · have hq : isPendingOf u
          { _id := newId, studentId := user._id, studentEmail := user.email,
            createdAt := now } = false := by
        simp [isPendingOf, hu]
      rw [hq]
      simpa using h.single u

theorem wellFormed_assignStorage (db : Db) (users : List User) (rand : Nat → Fin 900000)
    (occupiedNow processedNow : Nat) (requestId : String) (boxNumber : Nat)
    (h : WellFormed db) :
    WellFormed (assignStorage db users rand occupiedNow processedNow requestId boxNumber).db := by
  rcases assignStorage_cases db users rand occupiedNow processedNow requestId boxNumber with
    ⟨hdb, _, _⟩ | ⟨request, storage, i, _, _, hreq, hst, hbox, hocc, _, hfree, _, _, hout⟩
  · rw [hdb]; exact h
  · rw [hout]
    have hnone : ∀ x ∈ db.storages, x.accessCode ≠ some (generateAccessCode (rand i)) := by
      intro x hx
      have := List.find?_eq_none.1 hfree x hx
      simpa using this
    refine ⟨fun s hs hv => ?_, fun s hs ho => ?_, ?_, fun u => ?_⟩
    · rcases mem_saveFirst _ _ _ _ hs with h1 | h1
      · rw [h1] at hv; cases hv
      · exact h.vacant s h1 hv
    · rcases mem_saveFirst _ _ _ _ hs with h1 | h1
      · rw [h1]
        exact ⟨by simp, ⟨rand i, rfl⟩, by simp⟩
      · exact h.occupied s h1 ho
    · refine pairwise_saveFirst _ _ _ _ h.codes fun x hx => ⟨fun c hc => ?_, fun c hc hd => ?_⟩
      · have hc2 : generateAccessCode (rand i) = c := by simpa using hc
        rw [← hc2]
        exact hnone x hx
      · have hc2 : generateAccessCode (rand i) = c := by simpa using hd
        rw [← hc2] at hc
        exact hnone x hx hc
    · have h1 := countP_saveFirst (fun r : Request => r._id == canonicalId requestId) (isPendingOf u)
        { request with
          status := Status.approved, assignedBox := some boxNumber,
          accessCode := some (generateAccessCode (rand i)),
          processedAt := some processedNow } request db.requests (findRequest_find _ _ _ hreq)
      have h2 := countP_saveFirst (fun s : Storage => s.boxNumber == boxNumber) (isActiveOf u)
        { storage with
          isOccupied := true, occupiedBy := some request.studentId,
          accessCode := some (generateAccessCode (rand i)),
          occupiedAt := some occupiedNow } storage db.storages hbox
      have h3 := h.single u
      simp only [isPendingOf, isActiveOf, hst, hocc, Bool.and_false, Bool.and_true,
        Bool.false_eq_true, if_false, Nat.add_zero, beq_self_eq_true,
        show (Status.approved == Status.pending) = false from rfl] at h1 h2
      have h4 : (some request.studentId == some u) = (request.studentId == u) := by
        by_cases hu : request.studentId = u <;> simp [hu]
      rw [h4] at h2
      simp only [isPendingOf, isActiveOf] at h3 ⊢
      split at h1 <;> split at h2 <;> first | omega | contradiction

theorem wellFormed_releaseStorage (db : Db) (users : List User) (boxNumber : Nat)
    (accessCode : String) (h : WellFormed db) :
    WellFormed (releaseStorage db users boxNumber accessCode).db := by
  rcases releaseStorage_cases db users boxNumber accessCode with
    ⟨hdb, _, _⟩ | ⟨storage, occupant, _, _, hbox, hocc, hcode, _, hout⟩
  · rw [hdb]; exact h
  · rw [hout]
    refine ⟨fun s hs hv => ?_, fun s hs ho => ?_, ?_, fun u => ?_⟩
    · rcases mem_saveFirst _ _ _ _ hs with h1 | h1
      · rw [h1]; exact ⟨rfl, rfl, rfl⟩
      · exact h.vacant s h1 hv
    · rcases mem_saveFirst _ _ _ _ hs with h1 | h1
      · rw [h1] at ho; cases ho
      · exact h.occupied s h1 ho
    · refine pairwise_saveFirst _ _ _ _ h.codes fun x hx => ⟨fun c hc => ?_, fun c hc hd => ?_⟩
      · cases hc
      · cases hd
    · have h2 := countP_saveFirst (fun s : Storage => s.boxNumber == boxNumber) (isActiveOf u)
        { storage with
          isOccupied := false, occupiedBy := none, accessCode := none,
          occupiedAt := none } storage db.storages hbox
      have h3 := h.single u
      simp only [isActiveOf, Bool.and_false, Bool.false_eq_true, if_false,
        Nat.add_zero] at h2
      simp only [isActiveOf] at h3 ⊢
      split at h2 <;> omega

/-- Every reachable database is well formed. -/
theorem wellFormed_of_reachable (db : Db) (h : Reachable db) : WellFormed db := by
  induction h with
  | init => exact wellFormed_init
  | submit user newId now _ ih => exact wellFormed_requestStorage _ user newId now ih
  | assign users rand occupiedNow processedNow requestId boxNumber _ ih =>
    exact wellFormed_assignStorage _ users rand occupiedNow processedNow requestId boxNumber ih
  | release users boxNumber accessCode _ ih =>
    exact wellFormed_releaseStorage _ users boxNumber accessCode ih

/-! ## Reachability of the sample databases -/

theorem reachable_requestedDb : Reachable requestedDb :=
  Reachable.submit bob "65a000000000000000000002" 2 (Reachable.submit alice "65a000000000000000000001" 1 Reachable.init)

theorem reachable_occupiedDb : Reachable occupiedDb :=
  Reachable.assign [alice, bob] sampleRand 3 4 "65a000000000000000000001" 7 reachable_requestedDb

theorem reachable_fullDb : Reachable fullDb :=
  Reachable.assign [alice, bob] sampleRand 5 6 "65a000000000000000000002" 9 reachable_occupiedDb

/-! ## Invariants of the pool and the ledger -/

/-- C1: in every database reachable from the seeded pool and the empty request collection
by calls of request-storage, assign-storage and release-storage, two different occupied
boxes never carry the same `accessCode`. -/
theorem occupied_codes_distinct (db : Db) (h : Reachable db) :
    db.storages.Pairwise
      (fun a b => a.isOccupied = true → b.isOccupied = true → a.accessCode ≠ b.accessCode) := by
  have hw := wellFormed_of_reachable db h
  refine List.Pairwise.imp_of_mem ?_ hw.codes
  intro a b ha _ hab hoa _ heq
  obtain ⟨draw, hd⟩ := (hw.occupied a ha hoa).2.1
  exact hab _ hd (heq ▸ hd)

/-- Witness of C1 on the sample database with two occupied boxes. -/
theorem occupied_codes_distinct_witness :
    Reachable fullDb ∧
    fullDb.storages.Pairwise
      (fun a b => a.isOccupied = true → b.isOccupied = true → a.accessCode ≠ b.accessCode) :=
  ⟨reachable_fullDb, occupied_codes_distinct fullDb reachable_fullDb⟩

/-- C2: in every reachable database, a box with `isOccupied = false` has `occupiedBy = null`
and `accessCode = null`. -/
theorem vacant_box_is_blank (db : Db) (h : Reachable db) :
    ∀ s ∈ db.storages, s.isOccupied = false → s.occupiedBy = none ∧ s.accessCode = none := by
  intro s hs hv
  have := (wellFormed_of_reachable db h).vacant s hs hv
  exact ⟨this.1, this.2.1⟩

/-- Witness of C2 on the sample database with one occupied box. -/
theorem vacant_box_is_blank_witness :
    Reachable occupiedDb ∧
    ∀ s ∈ occupiedDb.storages, s.isOccupied = false →
      s.occupiedBy = none ∧ s.accessCode = none :=
  ⟨reachable_occupiedDb, vacant_box_is_blank occupiedDb reachable_occupiedDb⟩

/-- C3: in every reachable database, each student has at most one request with status
`pending` and is the occupant of at most one occupied box. -/
theorem one_pending_one_box (db : Db) (h : Reachable db) (studentId : ObjectId) :
    (db.requests.filter
        (fun r => decide (r.studentId = studentId ∧ r.status = Status.pending))).length ≤ 1 ∧
    (db.storages.filter
        (fun s => decide (s.isOccupied = true ∧ s.occupiedBy = some studentId))).length ≤ 1 := by
  have hs := (wellFormed_of_reachable db h).single studentId
  have h1 : (fun r : Request => decide (r.studentId = studentId ∧ r.status = Status.pending))
      = isPendingOf studentId := by
    funext r
    rw [Bool.eq_iff_iff]
    simp [isPendingOf]
  have h2 : (fun s : Storage => decide (s.isOccupied = true ∧ s.occupiedBy = some studentId))
      = isActiveOf studentId := by
    funext s
    rw [Bool.eq_iff_iff]
    simp [isActiveOf, and_comm]
  rw [h1, h2, ← List.countP_eq_length_filter, ← List.countP_eq_length_filter]
  omega

/-- Witness of C3 on the sample database where `alice` holds a box and `bob` has a
pending request. -/
theorem one_pending_one_box_witness :
    Reachable occupiedDb ∧
    (occupiedDb.requests.filter
        (fun r => decide (r.studentId = "65a0000000000000000000b2" ∧ r.status = Status.pending))).length ≤ 1 ∧
    (occupiedDb.storages.filter
        (fun s => decide (s.isOccupied = true ∧ s.occupiedBy = some "65a0000000000000000000b2"))).length ≤ 1 :=
  ⟨reachable_occupiedDb, one_pending_one_box occupiedDb reachable_occupiedDb "65a0000000000000000000b2"⟩

/-! ## Generated codes -/

theorem toDigits_ne_nil (n : Nat) : Nat.toDigits 10 n ≠ [] := by
  unfold Nat.toDigits
  rw [Nat.toDigitsCore]
  split
  · simp
  · intro h
    have hlen := Nat.toDigitsCore_lens_eq 10 n (n / 10) (Nat.digitChar (n % 10)) []
    rw [h] at hlen
    simp at hlen

/-- A generated access code is never the empty string. -/
theorem generateAccessCode_ne_empty (draw : Fin 900000) : generateAccessCode draw ≠ "" := by
  intro h
  have h2 : (Nat.toDigits 10 (100000 + draw.val)).asString = "" := h
  have h3 : (Nat.toDigits 10 (100000 + draw.val)).asString.data = [] := by rw [h2]
  exact toDigits_ne_nil _ h3

/-! ## The assign-storage handler -/

/-- The cast of `findById` at work: the id of the request of `alice` written with an
upper-case digit finds that request, and `r1` cannot be cast. -/
theorem findRequest_samples :
    findRequest requestedDb.requests "65A000000000000000000001"
      = Lookup.resolved (some
          { _id := "65a000000000000000000001", studentId := "65a0000000000000000000a1",
            studentEmail := "alice@example.org", createdAt := 1 }) ∧
    findRequest requestedDb.requests "r1" = Lookup.castError := by
  set_option maxRecDepth 1000000 in
  exact ⟨by decide, by decide⟩

/-- C4 (fails as stated): an unknown `requestId` is not always answered by
404 `Request not found`.  With `boxNumber` 0 the input check answers 400 before the request
is looked up; and for the id `r1`, which is not the 24 hexadecimal digits of an `ObjectId`,
`findById` throws and the answer is 500 `Server error`, here with the free box 7. -/
theorem assign_unknown_request_box_zero :
    findRequest initialDb.requests "65a000000000000000000001" = Lookup.resolved none ∧
    (assignStorage initialDb [alice] sampleRand 3 4 "65a000000000000000000001" 0).response
      = { status := 400, message := "Request ID and box number are required",
          payload := Payload.empty } ∧
    (assignStorage initialDb [alice] sampleRand 3 4 "65a000000000000000000001" 0).response
      ≠ { status := 404, message := "Request not found", payload := Payload.empty } ∧
    initialDb.requests.find? (fun r => r._id == "r1") = none ∧
    (assignStorage initialDb [alice] sampleRand 3 4 "r1" 7).response
      = { status := 500, message := "Server error", payload := Payload.empty } := by
  set_option maxRecDepth 1000000 in
  exact ⟨by decide, by decide, by decide, by decide, by decide⟩

/-- C4 (amended): assign-storage first rejects an empty `requestId` or a `boxNumber` 0 with
400 `Request ID and box number are required`.  A non-empty `requestId` that is not the 24
hexadecimal digits of an `ObjectId` makes `findById` throw, and the call is answered
500 `Server error`, whatever the non-zero box.  Otherwise it checks, in this order and answering
with the first failure: the request exists (404 `Request not found`, whatever the box),
its status is `pending` (400 `Request has already been processed`, whether the box exists
or not), the box exists (404 `Storage box not found`), the box is not occupied
(400 `Storage box is already occupied`).  When all four hold the answer is 200 or 500. -/
theorem assign_checks_in_order (db : Db) (users : List User) (rand : Nat → Fin 900000)
    (occupiedNow processedNow : Nat) (requestId : String) (boxNumber : Nat) :
    ((requestId = "" ∨ boxNumber = 0) ∧
      assignStorage db users rand occupiedNow processedNow requestId boxNumber
        = reject db 400 "Request ID and box number are required") ∨
    (requestId ≠ "" ∧ boxNumber ≠ 0 ∧ isObjectId requestId = false ∧
      findRequest db.requests requestId = Lookup.castError ∧
      assignStorage db users rand occupiedNow processedNow requestId boxNumber
        = serverError db) ∨
    (requestId ≠ "" ∧ boxNumber ≠ 0 ∧ isObjectId requestId = true ∧
      findRequest db.requests requestId = Lookup.resolved none ∧
      assignStorage db users rand occupiedNow processedNow requestId boxNumber
        = reject db 404 "Request not found") ∨
    (∃ request, requestId ≠ "" ∧ boxNumber ≠ 0 ∧
      findRequest db.requests requestId = Lookup.resolved (some request) ∧
      request.status ≠ Status.pending ∧
      assignStorage db users rand occupiedNow processedNow requestId boxNumber
        = reject db 400 "Request has already been processed") ∨
    (∃ request, requestId ≠ "" ∧ boxNumber ≠ 0 ∧
      findRequest db.requests requestId = Lookup.resolved (some request) ∧
      request.status = Status.pending ∧
      findBox db.storages boxNumber = none ∧
      assignStorage db users rand occupiedNow processedNow requestId boxNumber
        = reject db 404 "Storage box not found") ∨
    (∃ request storage, requestId ≠ "" ∧ boxNumber ≠ 0 ∧
      findRequest db.requests requestId = Lookup.resolved (some request) ∧
      request.status = Status.pending ∧
      findBox db.storages boxNumber = some storage ∧ storage.isOccupied = true ∧
      assignStorage db users rand occupiedNow processedNow requestId boxNumber
        = reject db 400 "Storage box is already occupied") ∨
    (∃ request storage, requestId ≠ "" ∧ boxNumber ≠ 0 ∧
      findRequest db.requests requestId = Lookup.resolved (some request) ∧
      request.status = Status.pending ∧
      findBox db.storages boxNumber = some storage ∧ storage.isOccupied = false ∧
      ((assignStorage db users rand occupiedNow processedNow requestId boxNumber).response.status
          = 200 ∨
        (assignStorage db users rand occupiedNow processedNow requestId boxNumber).response.status
          = 500)) := by
  by_cases hguard : requestId = "" ∨ boxNumber = 0
  · left
    exact ⟨hguard, by simp [assignStorage, hguard]⟩
  · right
    have hid : requestId ≠ "" := fun h => hguard (Or.inl h)
    have hbox : boxNumber ≠ 0 := fun h => hguard (Or.inr h)
    cases hreq : findRequest db.requests requestId with
    | castError =>
      left
      have hcast : isObjectId requestId = false := by
        unfold findRequest at hreq
        split at hreq
        · cases hreq
        · simpa using ‹¬ isObjectId requestId = true›
      exact ⟨hid, hbox, hcast, rfl, by simp [assignStorage, hguard, hreq]⟩
    | resolved doc =>
      right
      cases doc with
      | none =>
        left
        exact ⟨hid, hbox, findRequest_cast _ _ _ hreq, rfl,
          by simp [assignStorage, hguard, hreq]⟩
      | some request =>
        right
        by_cases hst : request.status = Status.pending
        · right
          cases hfind : findBox db.storages boxNumber with
          | none =>
            left
            exact ⟨request, hid, hbox, rfl, hst, rfl,
              by simp [assignStorage, hguard, hreq, hst, hfind]⟩
          | some storage =>
            right
            cases hocc : storage.isOccupied with
            | true =>
              left
              exact ⟨request, storage, hid, hbox, rfl, hst, rfl, hocc,
                by simp [assignStorage, hguard, hreq, hst, hfind, hocc]⟩
            | false =>
              right
              refine ⟨request, storage, hid, hbox, rfl, hst, rfl, hocc, ?_⟩
              simp only [assignStorage, hguard, hreq, hst, hfind, hocc, if_false, ne_eq,
                not_true_eq_false, Bool.false_eq_true]
              split
              · right; rfl
              · split
                · right; rfl
                · left; rfl
        · left
          exact ⟨request, hid, hbox, rfl, hst, by simp [assignStorage, hguard, hreq, hst]⟩

/-- C5: a successful assign-storage (status 200) of request `requestId` to box `boxNumber`
found the request pending and the box not occupied; it returns a generated code `c` and
leaves the box with `isOccupied = true`, `occupiedBy` the request's student,
`accessCode = c` and an `occupiedAt` date, and the request with `status = approved`,
`assignedBox = boxNumber`, `accessCode = c` and a `processedAt` date. -/
theorem assign_success_effect (db : Db) (users : List User) (rand : Nat → Fin 900000)
    (occupiedNow processedNow : Nat) (requestId : String) (boxNumber : Nat)
    (request : Request) (storage : Storage)
    (hreq : findRequest db.requests requestId = Lookup.resolved (some request))
    (hbox : findBox db.storages boxNumber = some storage)
    (hok : (assignStorage db users rand occupiedNow processedNow requestId
      boxNumber).response.status = 200) :
    request.status = Status.pending ∧ storage.isOccupied = false ∧
    ∃ i, i < maxAttempts ∧
      (assignStorage db users rand occupiedNow processedNow requestId boxNumber).response.payload
        = Payload.assigned boxNumber request.studentEmail
            (some (generateAccessCode (rand i))) ∧
      findBox (assignStorage db users rand occupiedNow processedNow requestId
          boxNumber).db.storages boxNumber
        = some { boxNumber := storage.boxNumber, isOccupied := true,
                 occupiedBy := some request.studentId,
                 accessCode := some (generateAccessCode (rand i)),
                 occupiedAt := some occupiedNow } ∧
      findRequest (assignStorage db users rand occupiedNow processedNow requestId
          boxNumber).db.requests requestId
        = Lookup.resolved (some
               { _id := request._id, studentId := request.studentId,
                 studentEmail := request.studentEmail, status := Status.approved,
                 assignedBox := some boxNumber,
                 accessCode := some (generateAccessCode (rand i)),
                 createdAt := request.createdAt, processedAt := some processedNow }) := by
  rcases assignStorage_cases db users rand occupiedNow processedNow requestId boxNumber with
    ⟨_, _, hne⟩ | ⟨request1, storage1, i, _, _, hreq1, hst1, hbox1, hocc1, hi, _, _, _, hout⟩
  · exact absurd hok hne
  · rw [hreq] at hreq1
    rw [hbox] at hbox1
    cases hreq1
    cases hbox1
    have hb : storage.boxNumber = boxNumber := by
      have := List.find?_some hbox
      simpa using this
    have hr : request._id = canonicalId requestId := findRequest_id _ _ _ hreq
    refine ⟨hst1, hocc1, i, by omega, ?_, ?_, ?_⟩
    · rw [hout]
    · rw [hout]
      exact find_saveFirst _ _ _ _ hbox (by simpa using hb)
    · rw [hout]
      exact findRequest_saveFirst _ _ _ _ hreq hr

/-- Witness of C5: the request of `alice` in `requestedDb` is assigned box 7. -/
theorem assign_success_effect_witness :
    (assignStorage requestedDb [alice, bob] sampleRand 3 4 "65a000000000000000000001" 7).response.status = 200 ∧
    ∃ i, i < maxAttempts ∧
      (assignStorage requestedDb [alice, bob] sampleRand 3 4 "65a000000000000000000001" 7).response.payload
        = Payload.assigned 7 "alice@example.org" (some (generateAccessCode (sampleRand i))) ∧
      findBox (assignStorage requestedDb [alice, bob] sampleRand 3 4 "65a000000000000000000001" 7).db.storages 7
        = some { boxNumber := 7, isOccupied := true, occupiedBy := some "65a0000000000000000000a1",
                 accessCode := some (generateAccessCode (sampleRand i)),
                 occupiedAt := some 3 } ∧
      findRequest (assignStorage requestedDb [alice, bob] sampleRand 3 4 "65a000000000000000000001" 7).db.requests
          "65a000000000000000000001"
        = Lookup.resolved (some
               { _id := "65a000000000000000000001", studentId := "65a0000000000000000000a1", studentEmail := "alice@example.org",
                 status := Status.approved, assignedBox := some 7,
                 accessCode := some (generateAccessCode (sampleRand i)),
                 createdAt := 1, processedAt := some 4 }) :=
  ⟨by set_option maxRecDepth 1000000 in decide,
   (assign_success_effect requestedDb [alice, bob] sampleRand 3 4 "65a000000000000000000001" 7
      { _id := "65a000000000000000000001", studentId := "65a0000000000000000000a1", studentEmail := "alice@example.org", createdAt := 1 }
      { boxNumber := 7 }
      (by set_option maxRecDepth 1000000 in decide)
      (by set_option maxRecDepth 1000000 in decide)
      (by set_option maxRecDepth 1000000 in decide)).2.2⟩

/-- The retry loop of assign-storage, once the four checks have passed: the handler answers
500 `Failed to generate unique access code` exactly when each of the first
`maxAttempts - 1` candidates is held by some box. -/
theorem assignStorage_exhausted_iff (db : Db) (users : List User) (rand : Nat → Fin 900000)
    (occupiedNow processedNow : Nat) (requestId : String) (boxNumber : Nat)
    (request : Request) (storage : Storage)
    (hid : requestId ≠ "") (hnum : boxNumber ≠ 0)
    (hreq : findRequest db.requests requestId = Lookup.resolved (some request))
    (hpending : request.status = Status.pending)
    (hbox : findBox db.storages boxNumber = some storage)
    (hfree : storage.isOccupied = false) :
    assignStorage db users rand occupiedNow processedNow requestId boxNumber
        = reject db 500 "Failed to generate unique access code" ↔
      ∀ i, i + 1 < maxAttempts → findCode db.storages (generateAccessCode (rand i)) ≠ none := by
  have hguard : ¬ (requestId = "" ∨ boxNumber = 0) := fun h => h.elim hid hnum
  constructor
  · intro hfail
    rcases assignStorage_cases db users rand occupiedNow processedNow requestId boxNumber with
      ⟨_, _, _⟩ | ⟨_, _, i, _, _, _, _, _, _, _, _, _, _, hout⟩
    · rcases generateLoop_spec db.storages rand maxAttempts none 0 (by omega)
          (Nat.zero_le _) with ⟨hall, _⟩ | ⟨i, _, hi2, _, _, hres⟩
      · exact fun i hi => hall i (Nat.zero_le _) hi
      · exfalso
        have hlt : ¬ maxAttempts ≤ i + 1 := by omega
        simp only [assignStorage, hguard, hreq, hpending, hbox, hfree, hres, if_false, ne_eq,
          not_true_eq_false, Bool.false_eq_true, ge_iff_le, hlt] at hfail
        split at hfail
        · simp [serverError, reject] at hfail
        · simp [reject] at hfail
    · rw [hout] at hfail
      simp [reject] at hfail
  · intro hall
    rcases generateLoop_spec db.storages rand maxAttempts none 0 (by omega)
        (Nat.zero_le _) with ⟨_, hres⟩ | ⟨i, _, hi2, hi3, _, _⟩
    · simp [assignStorage, hguard, hreq, hpending, hbox, hfree, hres]
    · exact absurd hi3 (hall i hi2)

/-- C6 (the code at the failing input): in `occupiedDb` the request of `bob` is pending and
box 9 is vacant; the first nine candidates are the code held by box 7 and the tenth
candidate is held by no box, yet assign-storage answers
500 `Failed to generate unique access code`. -/
theorem assign_tenth_candidate_unused :
    findRequest occupiedDb.requests "65a000000000000000000002"
      = Lookup.resolved (some
             { _id := "65a000000000000000000002", studentId := "65a0000000000000000000b2", studentEmail := "bob@example.org",
               createdAt := 2 }) ∧
    findBox occupiedDb.storages 9 = some { boxNumber := 9 } ∧
    (∀ i, i < 9 → findCode occupiedDb.storages (generateAccessCode (tenthRand i)) ≠ none) ∧
    findCode occupiedDb.storages (generateAccessCode (tenthRand 9)) = none ∧
    (assignStorage occupiedDb [alice, bob] tenthRand 5 6 "65a000000000000000000002" 9).response
      = { status := 500, message := "Failed to generate unique access code",
          payload := Payload.empty } := by
  set_option maxRecDepth 1000000 in
  exact ⟨by decide, by decide, by decide, by decide, by decide⟩

/-! ## The release-storage handler -/

/-- C7 (fails as stated): box 7 of the seeded pool exists and is not occupied, but
release-storage with an empty code is not answered by
400 `Storage box is not currently occupied`; the input check answers first. -/
theorem release_empty_code_vacant_box :
    findBox initialDb.storages 7 = some { boxNumber := 7 } ∧
    (releaseStorage initialDb [alice] 7 "").response
      = { status := 400, message := "Box number and access code are required",
          payload := Payload.empty } ∧
    (releaseStorage initialDb [alice] 7 "").response
      ≠ { status := 400, message := "Storage box is not currently occupied",
          payload := Payload.empty } := by
  set_option maxRecDepth 1000000 in
  exact ⟨by decide, by decide, by decide⟩

/-- C7 (amended): release-storage first rejects a `boxNumber` 0 or an empty code with
400 `Box number and access code are required`.  Otherwise it answers
404 `Storage box not found` if no box has that number; else
400 `Storage box is not currently occupied` if the box is not occupied; else
400 `Invalid access code` if the presented code is not the stored one; else, when the
occupant of the box is a known user, it succeeds with 200, and when it is not, the answer
is 500 `Server error`.  No other outcome occurs. -/
theorem release_checks_in_order (db : Db) (users : List User) (boxNumber : Nat)
    (accessCode : String) :
    ((boxNumber = 0 ∨ accessCode = "") ∧
      releaseStorage db users boxNumber accessCode
        = reject db 400 "Box number and access code are required") ∨
    (boxNumber ≠ 0 ∧ accessCode ≠ "" ∧ findBox db.storages boxNumber = none ∧
      releaseStorage db users boxNumber accessCode = reject db 404 "Storage box not found") ∨
    (∃ storage, boxNumber ≠ 0 ∧ accessCode ≠ "" ∧
      findBox db.storages boxNumber = some storage ∧ storage.isOccupied = false ∧
      releaseStorage db users boxNumber accessCode
        = reject db 400 "Storage box is not currently occupied") ∨
    (∃ storage, boxNumber ≠ 0 ∧ accessCode ≠ "" ∧
      findBox db.storages boxNumber = some storage ∧ storage.isOccupied = true ∧
      storage.accessCode ≠ some accessCode ∧
      releaseStorage db users boxNumber accessCode = reject db 400 "Invalid access code") ∨
    (∃ storage, boxNumber ≠ 0 ∧ accessCode ≠ "" ∧
      findBox db.storages boxNumber = some storage ∧ storage.isOccupied = true ∧
      storage.accessCode = some accessCode ∧ populate users storage.occupiedBy = none ∧
      releaseStorage db users boxNumber accessCode = serverError db) ∨
    (∃ storage occupant, boxNumber ≠ 0 ∧ accessCode ≠ "" ∧
      findBox db.storages boxNumber = some storage ∧ storage.isOccupied = true ∧
      storage.accessCode = some accessCode ∧
      populate users storage.occupiedBy = some occupant ∧
      (releaseStorage db users boxNumber accessCode).response
        = { status := 200, message := "Storage released successfully",
            payload := Payload.released boxNumber occupant.email }) := by
  by_cases hguard : boxNumber = 0 ∨ accessCode = ""
  · left
    exact ⟨hguard, by simp [releaseStorage, hguard]⟩
  · right
    have hnum : boxNumber ≠ 0 := fun h => hguard (Or.inl h)
    have hcode : accessCode ≠ "" := fun h => hguard (Or.inr h)
    cases hfind : findBox db.storages boxNumber with
    | none =>
      left
      exact ⟨hnum, hcode, rfl, by simp [releaseStorage, hguard, hfind]⟩
    | some storage =>
      right
      cases hocc : storage.isOccupied with
      | false =>
        left
        exact ⟨storage, hnum, hcode, rfl, hocc, by simp [releaseStorage, hguard, hfind, hocc]⟩
      | true =>
        right
        by_cases hc : storage.accessCode = some accessCode
        · right
          cases hpop : populate users storage.occupiedBy with
          | none =>
            left
            exact ⟨storage, hnum, hcode, rfl, hocc, hc, hpop,
              by simp [releaseStorage, hguard, hfind, hocc, hc, hpop]⟩
          | some occupant =>
            right
            exact ⟨storage, occupant, hnum, hcode, rfl, hocc, hc, hpop,
              by simp [releaseStorage, hguard, hfind, hocc, hc, hpop]⟩
        · left
          exact ⟨storage, hnum, hcode, rfl, hocc, hc,
            by simp [releaseStorage, hguard, hfind, hocc, hc]⟩

/-- C8 (fails as stated): box 7 of `occupiedDb` is occupied with code `123456`; the empty
code differs from it, but release-storage does not answer 400 `Invalid access code`. -/
theorem release_empty_code_occupied_box :
    findBox occupiedDb.storages 7
      = some { boxNumber := 7, isOccupied := true, occupiedBy := some "65a0000000000000000000a1",
               accessCode := some "123456", occupiedAt := some 3 } ∧
    (releaseStorage occupiedDb [alice, bob] 7 "").response
      = { status := 400, message := "Box number and access code are required",
          payload := Payload.empty } ∧
    (releaseStorage occupiedDb [alice, bob] 7 "").response
      ≠ { status := 400, message := "Invalid access code", payload := Payload.empty } := by
  set_option maxRecDepth 1000000 in
  exact ⟨by decide, by decide, by decide⟩

/-- C8 (amended): for every occupied box (with a number other than 0) and every non-empty
presented code different from the stored `accessCode`, release-storage answers
400 `Invalid access code`, leaves the whole database as it was (the box keeps
`isOccupied`, `occupiedBy`, `accessCode`, `occupiedAt`; no other box or request changes)
and emits no event. -/
theorem release_wrong_code (db : Db) (users : List User) (boxNumber : Nat)
    (accessCode : String) (storage : Storage)
    (hnum : boxNumber ≠ 0) (hcode : accessCode ≠ "")
    (hbox : findBox db.storages boxNumber = some storage)
    (hocc : storage.isOccupied = true)
    (hwrong : storage.accessCode ≠ some accessCode) :
    (releaseStorage db users boxNumber accessCode).response
      = { status := 400, message := "Invalid access code", payload := Payload.empty } ∧
    (releaseStorage db users boxNumber accessCode).db = db ∧
    (releaseStorage db users boxNumber accessCode).events = [] ∧
    findBox (releaseStorage db users boxNumber accessCode).db.storages boxNumber
      = some storage := by
  have hguard : ¬ (boxNumber = 0 ∨ accessCode = "") := fun h => h.elim hnum hcode
  have hout : releaseStorage db users boxNumber accessCode
      = reject db 400 "Invalid access code" := by
    simp [releaseStorage, hguard, hbox, hocc, hwrong]
  rw [hout]
  exact ⟨rfl, rfl, rfl, hbox⟩

/-- Witness of C8: box 7 of `occupiedDb` holds code `123456`; code `654321` is refused. -/
theorem release_wrong_code_witness :
    (releaseStorage occupiedDb [alice, bob] 7 "654321").response
      = { status := 400, message := "Invalid access code", payload := Payload.empty } ∧
    (releaseStorage occupiedDb [alice, bob] 7 "654321").db = occupiedDb ∧
    (releaseStorage occupiedDb [alice, bob] 7 "654321").events = [] ∧
    findBox (releaseStorage occupiedDb [alice, bob] 7 "654321").db.storages 7
      = some { boxNumber := 7, isOccupied := true, occupiedBy := some "65a0000000000000000000a1",
               accessCode := some "123456", occupiedAt := some 3 } :=
  release_wrong_code occupiedDb [alice, bob] 7 "654321"
    { boxNumber := 7, isOccupied := true, occupiedBy := some "65a0000000000000000000a1",
      accessCode := some "123456", occupiedAt := some 3 }
    (by decide) (by decide)
    (by set_option maxRecDepth 1000000 in decide)
    (by decide) (by decide)

/-- C9: in every reachable database where assign-storage of request `requestId` to box
`boxNumber` succeeds and returns code `c`, a release-storage of that box with `c` right
after it succeeds and leaves the box exactly as it was before the assign: not occupied,
with `occupiedBy`, `accessCode` and `occupiedAt` all null; the request stays `approved`
with `assignedBox = boxNumber` and `accessCode = c`. -/
theorem assign_then_release (db : Db) (users : List User) (rand : Nat → Fin 900000)
    (occupiedNow processedNow : Nat) (requestId : String) (boxNumber : Nat)
    (hreach : Reachable db)
    (hok : (assignStorage db users rand occupiedNow processedNow requestId
      boxNumber).response.status = 200) :
    ∃ request storage c,
      findRequest db.requests requestId = Lookup.resolved (some request) ∧
      findBox db.storages boxNumber = some storage ∧
      (assignStorage db users rand occupiedNow processedNow requestId boxNumber).response.payload
        = Payload.assigned boxNumber request.studentEmail (some c) ∧
      (releaseStorage
          (assignStorage db users rand occupiedNow processedNow requestId boxNumber).db
          users boxNumber c).response.status = 200 ∧
      findBox (releaseStorage
          (assignStorage db users rand occupiedNow processedNow requestId boxNumber).db
          users boxNumber c).db.storages boxNumber = some storage ∧
      storage.isOccupied = false ∧ storage.occupiedBy = none ∧ storage.accessCode = none ∧
      storage.occupiedAt = none ∧
      findRequest (releaseStorage
          (assignStorage db users rand occupiedNow processedNow requestId boxNumber).db
          users boxNumber c).db.requests requestId
        = Lookup.resolved (some
               { _id := request._id, studentId := request.studentId,
                 studentEmail := request.studentEmail, status := Status.approved,
                 assignedBox := some boxNumber, accessCode := some c,
                 createdAt := request.createdAt, processedAt := some processedNow }) := by
  rcases assignStorage_cases db users rand occupiedNow processedNow requestId boxNumber with
    ⟨_, _, hne⟩ | ⟨request, storage, i, _, hnum, hreq, _, hbox, hocc, _, _, _,
      ⟨student, hstudent⟩, hout⟩
  · exact absurd hok hne
  · have hb : storage.boxNumber = boxNumber := by
      have := List.find?_some hbox
      simpa using this
    have hr : request._id = canonicalId requestId := findRequest_id _ _ _ hreq
    have hblank := (wellFormed_of_reachable db hreach).vacant storage
      (List.mem_of_find?_eq_some hbox) hocc
    have hcode := generateAccessCode_ne_empty (rand i)
    have hguard : ¬ (boxNumber = 0 ∨ generateAccessCode (rand i) = "") :=
      fun h => h.elim hnum hcode
    have hfind1 := find_saveFirst (fun s : Storage => s.boxNumber == boxNumber)
      { storage with
        isOccupied := true, occupiedBy := some request.studentId,
        accessCode := some (generateAccessCode (rand i)),
        occupiedAt := some occupiedNow } db.storages storage hbox (by simpa using hb)
    have hfind2 := find_saveFirst (fun s : Storage => s.boxNumber == boxNumber)
      { storage with
        isOccupied := false, occupiedBy := none, accessCode := none, occupiedAt := none }
      _ _ hfind1 (by simpa using hb)
    have hfind3 := findRequest_saveFirst db.requests requestId request
      { request with
        status := Status.approved, assignedBox := some boxNumber,
        accessCode := some (generateAccessCode (rand i)),
        processedAt := some processedNow } hreq hr
    have hsame : ({ storage with
        isOccupied := false, occupiedBy := none, accessCode := none,
        occupiedAt := none } : Storage) = storage := by
      cases storage
      simp only [Storage.mk.injEq, true_and]
      simp only at hocc hblank
      exact ⟨hocc.symm, hblank.1.symm, hblank.2.1.symm, hblank.2.2.symm⟩
    refine ⟨request, storage, generateAccessCode (rand i), hreq, hbox, by rw [hout], ?_, ?_,
      hocc, hblank.1, hblank.2.1, hblank.2.2, ?_⟩
    · rw [hout]
      simp only [releaseStorage, hguard, findBox, hfind1, if_false, Bool.not_true,
        Bool.false_eq_true, ne_eq, not_true_eq_false, hstudent]
    · rw [hout]
      simp only [releaseStorage, hguard, findBox, hfind1, if_false, Bool.not_true,
        Bool.false_eq_true, ne_eq, not_true_eq_false, hstudent]
      rw [← hsame]
      exact hfind2
    · rw [hout]
      simp only [releaseStorage, hguard, findBox, hfind1, if_false, Bool.not_true,
        Bool.false_eq_true, ne_eq, not_true_eq_false, hstudent]
      exact hfind3

/-- Witness of C9: in `requestedDb` the request of `alice` is assigned box 7 and the box
is released right after with the returned code. -/
theorem assign_then_release_witness :
    Reachable requestedDb ∧
    ∃ request storage c,
      findRequest requestedDb.requests "65a000000000000000000001" = Lookup.resolved (some request) ∧
      findBox requestedDb.storages 7 = some storage ∧
      (assignStorage requestedDb [alice, bob] sampleRand 3 4 "65a000000000000000000001" 7).response.payload
        = Payload.assigned 7 request.studentEmail (some c) ∧
      (releaseStorage (assignStorage requestedDb [alice, bob] sampleRand 3 4 "65a000000000000000000001" 7).db
          [alice, bob] 7 c).response.status = 200 ∧
      findBox (releaseStorage (assignStorage requestedDb [alice, bob] sampleRand 3 4 "65a000000000000000000001" 7).db
          [alice, bob] 7 c).db.storages 7 = some storage ∧
      storage.isOccupied = false ∧ storage.occupiedBy = none ∧ storage.accessCode = none ∧
      storage.occupiedAt = none ∧
      findRequest (releaseStorage
          (assignStorage requestedDb [alice, bob] sampleRand 3 4 "65a000000000000000000001" 7).db
          [alice, bob] 7 c).db.requests "65a000000000000000000001"
        = Lookup.resolved (some
               { _id := request._id, studentId := request.studentId,
                 studentEmail := request.studentEmail, status := Status.approved,
                 assignedBox := some 7, accessCode := some c,
                 createdAt := request.createdAt, processedAt := some 4 }) :=
  ⟨reachable_requestedDb,
   assign_then_release requestedDb [alice, bob] sampleRand 3 4 "65a000000000000000000001" 7 reachable_requestedDb
     (by set_option maxRecDepth 1000000 in decide)⟩

/-- C10: release-storage, whether it succeeds or fails, leaves the request collection as it
was: no request is added, removed or changed. -/
theorem release_keeps_requests (db : Db) (users : List User) (boxNumber : Nat)
    (accessCode : String) :
    (releaseStorage db users boxNumber accessCode).db.requests = db.requests := by
  rcases releaseStorage_cases db users boxNumber accessCode with
    ⟨hdb, _, _⟩ | ⟨_, _, _, _, _, _, _, _, hout⟩
  · rw [hdb]
  · rw [hout]

/-! ## More lemmas on the collection primitives -/

theorem saveFirst_getElem {α : Type} (p : α → Bool) (doc : α) (l : List α) :
    ∀ (i : Nat) (x : α), l[i]? = some x →
      (saveFirst p doc l)[i]? = some x ∨
        ((saveFirst p doc l)[i]? = some doc ∧ l.find? p = some x) := by
  induction l with
  | nil => intro i x h; simp at h
  | cons y ys ih =>
    intro i x h
    unfold saveFirst
    by_cases hy : p y = true
    · simp only [hy, if_true]
      cases i with
      | zero =>
        right
        have hxy : y = x := by simpa using h
        subst hxy
        exact ⟨by simp, by simp [hy]⟩
      | succ j =>
        left
        simpa using h
    · have hy2 : p y = false := by simpa using hy
      simp only [hy2, Bool.false_eq_true, if_false]
      cases i with
      | zero => left; simpa using h
      | succ j =>
        have hj : ys[j]? = some x := by simpa using h
        rcases ih j x hj with h1 | ⟨h1, h2⟩
        · left; simpa using h1
        · right
          refine ⟨by simpa using h1, ?_⟩
          rw [List.find?_cons_of_neg _ hy]
          exact h2

theorem saveFirst_getElem_of_not {α : Type} (p : α → Bool) (doc : α) (l : List α)
    (i : Nat) (x : α) (h : l[i]? = some x) (hx : p x = false) :
    (saveFirst p doc l)[i]? = some x := by
  rcases saveFirst_getElem p doc l i x h with h1 | ⟨_, h2⟩
  · exact h1
  · have := List.find?_some h2
    rw [hx] at this
    cases this

theorem map_saveFirst {α β : Type} (p : α → Bool) (f : α → β) (doc : α) (l : List α)
    (h : ∀ x, p x = true → f x = f doc) :
    (saveFirst p doc l).map f = l.map f := by
  induction l with
  | nil => rfl
  | cons y ys ih =>
    unfold saveFirst
    by_cases hy : p y = true
    · simp [hy, h y hy]
    · have hy2 : p y = false := by simpa using hy
      simp [hy2, ih]

theorem find_saveFirst_other {α : Type} (p q : α → Bool) (doc : α) (l : List α)
    (hpq : ∀ x, p x = true → q x = false) (hd : q doc = false) :
    (saveFirst p doc l).find? q = l.find? q := by
  induction l with
  | nil => rfl
  | cons y ys ih =>
    unfold saveFirst
    by_cases hy : p y = true
    · have hqy : q y = false := hpq y hy
      simp [hy, hqy, hd, List.find?_cons]
    · have hy2 : p y = false := by simpa using hy
      simp only [hy2, Bool.false_eq_true, if_false, List.find?_cons, ih]

theorem saveFirst_of_find_none {α : Type} (p : α → Bool) (doc : α) (l : List α)
    (h : l.find? p = none) : saveFirst p doc l = l := by
  induction l with
  | nil => rfl
  | cons y ys ih =>
    unfold saveFirst
    by_cases hy : p y = true
    · rw [List.find?_cons_of_pos _ hy] at h
      cases h
    · rw [List.find?_cons_of_neg _ hy] at h
      have hy2 : p y = false := by simpa using hy
      simp [hy2, ih h]

/-! ## The format of a generated code -/

theorem digitChar_isDigit : ∀ k, k < 10 → (Nat.digitChar k).isDigit = true := by
  decide

theorem digitChar_ne_zero : ∀ k, k < 10 → 1 ≤ k → Nat.digitChar k ≠ '0' := by
  decide

theorem toDigitsCore_step (fuel n : Nat) (ds : List Char) :
    Nat.toDigitsCore 10 (fuel + 1) n ds
      = if n / 10 = 0 then Nat.digitChar (n % 10) :: ds
        else Nat.toDigitsCore 10 fuel (n / 10) (Nat.digitChar (n % 10) :: ds) := by
  rw [Nat.toDigitsCore]

theorem toDigits_six (n : Nat) (h1 : 100000 ≤ n) (h2 : n < 1000000) :
    Nat.toDigits 10 n
      = [Nat.digitChar (n / 100000), Nat.digitChar (n / 10000 % 10),
         Nat.digitChar (n / 1000 % 10), Nat.digitChar (n / 100 % 10),
         Nat.digitChar (n / 10 % 10), Nat.digitChar (n % 10)] := by
  obtain ⟨m, rfl⟩ : ∃ m, n = m + 5 := ⟨n - 5, by omega⟩
  unfold Nat.toDigits
  have e1 : (m + 5) / 10 ≠ 0 := by omega
  have e2 : (m + 5) / 10 / 10 ≠ 0 := by omega
  have e3 : (m + 5) / 10 / 10 / 10 ≠ 0 := by omega
  have e4 : (m + 5) / 10 / 10 / 10 / 10 ≠ 0 := by omega
  have e5 : (m + 5) / 10 / 10 / 10 / 10 / 10 ≠ 0 := by omega
  have e6 : (m + 5) / 10 / 10 / 10 / 10 / 10 / 10 = 0 := by omega
  rw [show m + 5 + 1 = m + 1 + 1 + 1 + 1 + 1 + 1 from rfl]
  rw [toDigitsCore_step, if_neg e1, toDigitsCore_step, if_neg e2, toDigitsCore_step, if_neg e3,
    toDigitsCore_step, if_neg e4, toDigitsCore_step, if_neg e5, toDigitsCore_step, if_pos e6]
  have d1 : (m + 5) / 10 / 10 / 10 / 10 / 10 % 10 = (m + 5) / 100000 := by omega
  have d2 : (m + 5) / 10 / 10 / 10 / 10 % 10 = (m + 5) / 10000 % 10 := by omega
  have d3 : (m + 5) / 10 / 10 / 10 % 10 = (m + 5) / 1000 % 10 := by omega
  have d4 : (m + 5) / 10 / 10 % 10 = (m + 5) / 100 % 10 := by omega
  rw [d1, d2, d3, d4]

/-- The characters of a generated code: six decimal digits, the first one not `0`. -/
theorem generateAccessCode_data (draw : Fin 900000) :
    (generateAccessCode draw).data
      = [Nat.digitChar ((100000 + draw.val) / 100000),
         Nat.digitChar ((100000 + draw.val) / 10000 % 10),
         Nat.digitChar ((100000 + draw.val) / 1000 % 10),
         Nat.digitChar ((100000 + draw.val) / 100 % 10),
         Nat.digitChar ((100000 + draw.val) / 10 % 10),
         Nat.digitChar ((100000 + draw.val) % 10)] := by
  have h := toDigits_six (100000 + draw.val) (by omega) (by have := draw.isLt; omega)
  show (Nat.toDigits 10 (100000 + draw.val)).asString.data = _
  rw [h]
  rfl

/-- A generated code has exactly six characters, all decimal digits, the first not `0`. -/
theorem generateAccessCode_format (draw : Fin 900000) :
    (generateAccessCode draw).length = 6 ∧
    (∀ c ∈ (generateAccessCode draw).data, c.isDigit = true) ∧
    (generateAccessCode draw).data.head? ≠ some '0' := by
  have hd := generateAccessCode_data draw
  have hlt := draw.isLt
  refine ⟨?_, ?_, ?_⟩
  · show (generateAccessCode draw).data.length = 6
    rw [hd]
    rfl
  · intro c hc
    rw [hd] at hc
    simp only [List.mem_cons, List.mem_singleton, List.not_mem_nil, or_false] at hc
    rcases hc with h | h | h | h | h | h <;> rw [h] <;> apply digitChar_isDigit <;> omega
  · rw [hd]
    simp only [List.head?_cons, ne_eq, Option.some.injEq]
    exact digitChar_ne_zero _ (by omega) (by omega)

/-! ## Replies and events -/

theorem findBox_boxNumber (storages : List Storage) (boxNumber : Nat) (storage : Storage)
    (h : findBox storages boxNumber = some storage) : storage.boxNumber = boxNumber := by
  have := List.find?_some h
  simpa using this

theorem populate_ref (users : List User) (ref : Option ObjectId) (u : User)
    (h : populate users ref = some u) : ref = some u._id := by
  cases ref with
  | none => simp [populate] at h
  | some id => rw [populate_id users id u h]

theorem releaseStorage_invalid_code (db : Db) (users : List User) (boxNumber : Nat)
    (accessCode : String) (storage : Storage)
    (hnum : boxNumber ≠ 0) (hcode : accessCode ≠ "")
    (hbox : findBox db.storages boxNumber = some storage)
    (hocc : storage.isOccupied = true)
    (hwrong : storage.accessCode ≠ some accessCode) :
    releaseStorage db users boxNumber accessCode = reject db 400 "Invalid access code" := by
  have hguard : ¬ (boxNumber = 0 ∨ accessCode = "") := fun h => h.elim hnum hcode
  simp [releaseStorage, hguard, hbox, hocc, hwrong]

/-- C21: take two databases that differ only in the `accessCode` stored on an occupied box,
and a presented code different from both stored codes.  Release-storage of that box with the
presented code answers with the same response in both and emits no event in either; unless
the input check rejects the call, the response is 400 `Invalid access code`. -/
theorem wrong_code_reply_hides_code (db : Db) (users : List User) (boxNumber : Nat)
    (storage : Storage) (otherCode presented : String)
    (hbox : findBox db.storages boxNumber = some storage)
    (hocc : storage.isOccupied = true)
    (hstored : storage.accessCode ≠ some presented)
    (hother : otherCode ≠ presented) :
    (releaseStorage db users boxNumber presented).response
      = (releaseStorage
          { db with
            storages := saveFirst (fun s => s.boxNumber == boxNumber)
              { storage with accessCode := some otherCode } db.storages }
          users boxNumber presented).response ∧
    (releaseStorage db users boxNumber presented).events = [] ∧
    (releaseStorage
        { db with
          storages := saveFirst (fun s => s.boxNumber == boxNumber)
            { storage with accessCode := some otherCode } db.storages }
        users boxNumber presented).events = [] ∧
    (boxNumber = 0 ∨ presented = "" ∨
      (releaseStorage db users boxNumber presented).response
        = { status := 400, message := "Invalid access code", payload := Payload.empty }) := by
  by_cases hguard : boxNumber = 0 ∨ presented = ""
  · refine ⟨?_, ?_, ?_, ?_⟩
    · simp [releaseStorage, hguard, reject]
    · simp [releaseStorage, hguard, reject]
    · simp [releaseStorage, hguard, reject]
    · rcases hguard with h | h
      · exact Or.inl h
      · exact Or.inr (Or.inl h)
  · have hnum : boxNumber ≠ 0 := fun h => hguard (Or.inl h)
    have hcode : presented ≠ "" := fun h => hguard (Or.inr h)
    have hb := findBox_boxNumber _ _ _ hbox
    have hfind2 : findBox (saveFirst (fun s => s.boxNumber == boxNumber)
        { storage with accessCode := some otherCode } db.storages) boxNumber
        = some { storage with accessCode := some otherCode } :=
      find_saveFirst (fun s : Storage => s.boxNumber == boxNumber) _ db.storages storage hbox
        (by simpa using hb)
    have h1 := releaseStorage_invalid_code db users boxNumber presented storage hnum hcode
      hbox hocc hstored
    have h2 := releaseStorage_invalid_code
      { db with
        storages := saveFirst (fun s => s.boxNumber == boxNumber)
          { storage with accessCode := some otherCode } db.storages }
      users boxNumber presented { storage with accessCode := some otherCode } hnum hcode
      hfind2 hocc (by simpa using hother)
    rw [h1, h2]
    exact ⟨rfl, rfl, rfl, Or.inr (Or.inr rfl)⟩

/-- Witness of C21: box 7 of `occupiedDb`, with its code `123456` or with `111111` in its
place, refuses the code `654321` with the same response. -/
theorem wrong_code_reply_hides_code_witness :
    (releaseStorage occupiedDb [alice, bob] 7 "654321").response
      = (releaseStorage
          { occupiedDb with
            storages := saveFirst (fun s => s.boxNumber == 7)
              { boxNumber := 7, isOccupied := true, occupiedBy := some "65a0000000000000000000a1",
                accessCode := some "111111", occupiedAt := some 3 } occupiedDb.storages }
          [alice, bob] 7 "654321").response ∧
    (releaseStorage occupiedDb [alice, bob] 7 "654321").events = [] ∧
    (releaseStorage
        { occupiedDb with
          storages := saveFirst (fun s => s.boxNumber == 7)
            { boxNumber := 7, isOccupied := true, occupiedBy := some "65a0000000000000000000a1",
              accessCode := some "111111", occupiedAt := some 3 } occupiedDb.storages }
        [alice, bob] 7 "654321").events = [] ∧
    ((7 : Nat) = 0 ∨ "654321" = "" ∨
      (releaseStorage occupiedDb [alice, bob] 7 "654321").response
        = { status := 400, message := "Invalid access code", payload := Payload.empty }) :=
  wrong_code_reply_hides_code occupiedDb [alice, bob] 7
    { boxNumber := 7, isOccupied := true, occupiedBy := some "65a0000000000000000000a1",
      accessCode := some "123456", occupiedAt := some 3 } "111111" "654321"
    (by set_option maxRecDepth 1000000 in decide) (by decide) (by decide) (by decide)

/-- C22: a successful assign-storage emits exactly two events, in this order:
`storage-assigned` with the student of the request, the box number, the generated code and
the `occupiedAt` of the box, then `storage-updated` with the box as it is stored after the
assignment.  A successful release-storage emits exactly two events, in this order:
`storage-released` with the occupant the box held before the release and the box number,
then `storage-updated` with the vacated box (`isOccupied = false`) as it is stored. -/
theorem success_events (db : Db) (users : List User) (rand : Nat → Fin 900000)
    (occupiedNow processedNow : Nat) (requestId : String) (boxNumber : Nat)
    (db2 : Db) (users2 : List User) (boxNumber2 : Nat) (accessCode : String)
    (hassign : (assignStorage db users rand occupiedNow processedNow requestId
      boxNumber).response.status = 200)
    (hrelease : (releaseStorage db2 users2 boxNumber2 accessCode).response.status = 200) :
    (∃ request storage code,
      findRequest db.requests requestId = Lookup.resolved (some request) ∧
      findBox db.storages boxNumber = some storage ∧
      (assignStorage db users rand occupiedNow processedNow requestId boxNumber).response.payload
        = Payload.assigned boxNumber request.studentEmail (some code) ∧
      (assignStorage db users rand occupiedNow processedNow requestId boxNumber).events
        = [Event.storageAssigned request.studentId boxNumber (some code) (some occupiedNow),
           Event.storageUpdated
             { boxNumber := storage.boxNumber, isOccupied := true,
               occupiedBy := some request.studentId, accessCode := some code,
               occupiedAt := some occupiedNow }] ∧
      findBox (assignStorage db users rand occupiedNow processedNow requestId
          boxNumber).db.storages boxNumber
        = some { boxNumber := storage.boxNumber, isOccupied := true,
                 occupiedBy := some request.studentId, accessCode := some code,
                 occupiedAt := some occupiedNow }) ∧
    (∃ storage occupantId,
      findBox db2.storages boxNumber2 = some storage ∧
      storage.occupiedBy = some occupantId ∧
      (releaseStorage db2 users2 boxNumber2 accessCode).events
        = [Event.storageReleased occupantId boxNumber2,
           Event.storageUpdated
             { boxNumber := storage.boxNumber, isOccupied := false, occupiedBy := none,
               accessCode := none, occupiedAt := none }] ∧
      findBox (releaseStorage db2 users2 boxNumber2 accessCode).db.storages boxNumber2
        = some { boxNumber := storage.boxNumber, isOccupied := false, occupiedBy := none,
                 accessCode := none, occupiedAt := none }) := by
  constructor
  · rcases assignStorage_cases db users rand occupiedNow processedNow requestId boxNumber with
      ⟨_, _, hne⟩ | ⟨request, storage, i, _, _, hreq, _, hbox, _, _, _, _, _, hout⟩
    · exact absurd hassign hne
    · have hb := findBox_boxNumber _ _ _ hbox
      refine ⟨request, storage, generateAccessCode (rand i), hreq, hbox, ?_, ?_, ?_⟩
      · rw [hout]
      · rw [hout]
      · rw [hout]
        exact find_saveFirst _ _ _ _ hbox (by simpa using hb)
  · rcases releaseStorage_cases db2 users2 boxNumber2 accessCode with
      ⟨_, _, hne⟩ | ⟨storage, occupant, _, _, hbox, _, _, hpop, hout⟩
    · exact absurd hrelease hne
    · have hb := findBox_boxNumber _ _ _ hbox
      refine ⟨storage, occupant._id, hbox, populate_ref _ _ _ hpop, ?_, ?_⟩
      · rw [hout]
      · rw [hout]
        exact find_saveFirst _ _ _ _ hbox (by simpa using hb)

/-- Witness of C22: the assignment of box 7 to the request of `alice` in `requestedDb`, and
the release of box 7 of `occupiedDb` with its code. -/
theorem success_events_witness :
    (∃ request storage code,
      findRequest requestedDb.requests "65a000000000000000000001" = Lookup.resolved (some request) ∧
      findBox requestedDb.storages 7 = some storage ∧
      (assignStorage requestedDb [alice, bob] sampleRand 3 4 "65a000000000000000000001" 7).response.payload
        = Payload.assigned 7 request.studentEmail (some code) ∧
      (assignStorage requestedDb [alice, bob] sampleRand 3 4 "65a000000000000000000001" 7).events
        = [Event.storageAssigned request.studentId 7 (some code) (some 3),
           Event.storageUpdated
             { boxNumber := storage.boxNumber, isOccupied := true,
               occupiedBy := some request.studentId, accessCode := some code,
               occupiedAt := some 3 }] ∧
      findBox (assignStorage requestedDb [alice, bob] sampleRand 3 4 "65a000000000000000000001" 7).db.storages 7
        = some { boxNumber := storage.boxNumber, isOccupied := true,
                 occupiedBy := some request.studentId, accessCode := some code,
                 occupiedAt := some 3 }) ∧
    (∃ storage occupantId,
      findBox occupiedDb.storages 7 = some storage ∧
      storage.occupiedBy = some occupantId ∧
      (releaseStorage occupiedDb [alice, bob] 7 "123456").events
        = [Event.storageReleased occupantId 7,
           Event.storageUpdated
             { boxNumber := storage.boxNumber, isOccupied := false, occupiedBy := none,
               accessCode := none, occupiedAt := none }] ∧
      findBox (releaseStorage occupiedDb [alice, bob] 7 "123456").db.storages 7
        = some { boxNumber := storage.boxNumber, isOccupied := false, occupiedBy := none,
                 accessCode := none, occupiedAt := none }) :=
  success_events requestedDb [alice, bob] sampleRand 3 4 "65a000000000000000000001" 7 occupiedDb [alice, bob] 7
    "123456" (by set_option maxRecDepth 1000000 in decide)
    (by set_option maxRecDepth 1000000 in decide)

/-- C23 (fails as stated): the id `r1` is the id of no request, yet assigning it the free
box 7 is not answered by a response that names the unknown request: `r1` is not the 24
hexadecimal digits of an `ObjectId`, `findById` throws, and the answer is
500 `Server error`.  Nothing is written and no event is emitted. -/
theorem assign_uncastable_id_not_named :
    requestedDb.requests.find? (fun r => r._id == "r1") = none ∧
    findRequest requestedDb.requests "r1" = Lookup.castError ∧
    findBox requestedDb.storages 7 = some { boxNumber := 7 } ∧
    (assignStorage requestedDb [alice, bob] sampleRand 3 4 "r1" 7).response
      = { status := 500, message := "Server error", payload := Payload.empty } ∧
    (assignStorage requestedDb [alice, bob] sampleRand 3 4 "r1" 7).response
      ≠ { status := 404, message := "Request not found", payload := Payload.empty } ∧
    (assignStorage requestedDb [alice, bob] sampleRand 3 4 "r1" 7).db = requestedDb ∧
    (assignStorage requestedDb [alice, bob] sampleRand 3 4 "r1" 7).events = [] := by
  set_option maxRecDepth 1000000 in
  exact ⟨by decide, by decide, by decide, by decide, by decide, by decide, by decide⟩

/-- C23 (amended): when assign-storage does not succeed, nothing is written and no event is
emitted, and the response is that of the check that failed: the input check, the unknown
request (for an id that can be cast to an `ObjectId`), the request that is not pending,
the unknown box, the occupied box, the exhausted code generation; or it is
500 `Server error`, for a request id that cannot be cast and for a request whose student
is not a known user. -/
theorem assign_failure_writes_nothing (db : Db) (users : List User)
    (rand : Nat → Fin 900000) (occupiedNow processedNow : Nat) (requestId : String)
    (boxNumber : Nat)
    (hfail : (assignStorage db users rand occupiedNow processedNow requestId
      boxNumber).response.status ≠ 200) :
    (assignStorage db users rand occupiedNow processedNow requestId boxNumber).db = db ∧
    (assignStorage db users rand occupiedNow processedNow requestId boxNumber).events = [] ∧
    (((requestId = "" ∨ boxNumber = 0) ∧
        (assignStorage db users rand occupiedNow processedNow requestId boxNumber).response
          = { status := 400, message := "Request ID and box number are required",
              payload := Payload.empty }) ∨
      (isObjectId requestId = false ∧
        findRequest db.requests requestId = Lookup.castError ∧
        (assignStorage db users rand occupiedNow processedNow requestId boxNumber).response
          = { status := 500, message := "Server error", payload := Payload.empty }) ∨
      (findRequest db.requests requestId = Lookup.resolved none ∧
        (assignStorage db users rand occupiedNow processedNow requestId boxNumber).response
          = { status := 404, message := "Request not found", payload := Payload.empty }) ∨
      (∃ request, findRequest db.requests requestId = Lookup.resolved (some request) ∧
        request.status ≠ Status.pending ∧
        (assignStorage db users rand occupiedNow processedNow requestId boxNumber).response
          = { status := 400, message := "Request has already been processed",
              payload := Payload.empty }) ∨
      (findBox db.storages boxNumber = none ∧
        (assignStorage db users rand occupiedNow processedNow requestId boxNumber).response
          = { status := 404, message := "Storage box not found", payload := Payload.empty }) ∨
      (∃ storage, findBox db.storages boxNumber = some storage ∧ storage.isOccupied = true ∧
        (assignStorage db users rand occupiedNow processedNow requestId boxNumber).response
          = { status := 400, message := "Storage box is already occupied",
              payload := Payload.empty }) ∨
      ((∀ i, i + 1 < maxAttempts →
          findCode db.storages (generateAccessCode (rand i)) ≠ none) ∧
        (assignStorage db users rand occupiedNow processedNow requestId boxNumber).response
          = { status := 500, message := "Failed to generate unique access code",
              payload := Payload.empty }) ∨
      (∃ request, findRequest db.requests requestId = Lookup.resolved (some request) ∧
        populate users (some request.studentId) = none ∧
        (assignStorage db users rand occupiedNow processedNow requestId boxNumber).response
          = { status := 500, message := "Server error", payload := Payload.empty })) := by
  have hframe : (assignStorage db users rand occupiedNow processedNow requestId boxNumber).db
        = db ∧
      (assignStorage db users rand occupiedNow processedNow requestId boxNumber).events
        = [] := by
    rcases assignStorage_cases db users rand occupiedNow processedNow requestId boxNumber with
      ⟨h1, h2, _⟩ | ⟨_, _, _, _, _, _, _, _, _, _, _, _, _, hout⟩
    · exact ⟨h1, h2⟩
    · rw [hout] at hfail
      exact absurd rfl hfail
  refine ⟨hframe.1, hframe.2, ?_⟩
  by_cases hguard : requestId = "" ∨ boxNumber = 0
  · left
    exact ⟨hguard, by simp [assignStorage, hguard, reject]⟩
  · right
    have hid : requestId ≠ "" := fun h => hguard (Or.inl h)
    have hnum : boxNumber ≠ 0 := fun h => hguard (Or.inr h)
    cases hreq : findRequest db.requests requestId with
    | castError =>
      left
      have hcast : isObjectId requestId = false := by
        unfold findRequest at hreq
        split at hreq
        · cases hreq
        · simpa using ‹¬ isObjectId requestId = true›
      exact ⟨hcast, rfl, by simp [assignStorage, hguard, hreq, serverError, reject]⟩
    | resolved doc =>
      right
      cases doc with
      | none =>
        left
        exact ⟨rfl, by simp [assignStorage, hguard, hreq, reject]⟩
      | some request =>
        right
        by_cases hst : request.status = Status.pending
        · right
          cases hfind : findBox db.storages boxNumber with
          | none =>
            left
            exact ⟨rfl, by simp [assignStorage, hguard, hreq, hst, hfind, reject]⟩
          | some storage =>
            right
            cases hocc : storage.isOccupied with
            | true =>
              left
              exact ⟨storage, rfl, hocc,
                by simp [assignStorage, hguard, hreq, hst, hfind, hocc, reject]⟩
            | false =>
              right
              by_cases hge : (generateLoop db.storages rand maxAttempts none true 0).2
                  ≥ maxAttempts
              · left
                have hex : assignStorage db users rand occupiedNow processedNow requestId
                    boxNumber = reject db 500 "Failed to generate unique access code" := by
                  simp [assignStorage, hguard, hreq, hst, hfind, hocc, hge]
                refine ⟨(assignStorage_exhausted_iff db users rand occupiedNow processedNow
                  requestId boxNumber request storage hid hnum hreq hst hfind hocc).1 hex, ?_⟩
                rw [hex]
                rfl
              · right
                cases hpop : populate users (some request.studentId) with
                | none =>
                  refine ⟨request, rfl, hpop, ?_⟩
                  simp [assignStorage, hguard, hreq, hst, hfind, hocc, hge, hpop, serverError,
                    reject]
                | some student =>
                  exfalso
                  apply hfail
                  simp [assignStorage, hguard, hreq, hst, hfind, hocc, hge, hpop]
        · left
          exact ⟨request, rfl, hst, by simp [assignStorage, hguard, hreq, hst, reject]⟩

/-- Witness of C23: in `occupiedDb` the request of `alice` is approved; assigning it again
is refused and writes nothing. -/
theorem assign_failure_writes_nothing_witness :
    (assignStorage occupiedDb [alice, bob] sampleRand 5 6 "65a000000000000000000001" 9).response.status = 400 ∧
    (assignStorage occupiedDb [alice, bob] sampleRand 5 6 "65a000000000000000000001" 9).db = occupiedDb ∧
    (assignStorage occupiedDb [alice, bob] sampleRand 5 6 "65a000000000000000000001" 9).events = [] :=
  ⟨by set_option maxRecDepth 1000000 in decide,
   (assign_failure_writes_nothing occupiedDb [alice, bob] sampleRand 5 6 "65a000000000000000000001" 9
      (by set_option maxRecDepth 1000000 in decide)).1,
   (assign_failure_writes_nothing occupiedDb [alice, bob] sampleRand 5 6 "65a000000000000000000001" 9
      (by set_option maxRecDepth 1000000 in decide)).2.1⟩

/-! ## The pool keeps its boxes -/

theorem boxNumbers_initial : initialBoxes.map (fun s => s.boxNumber) = List.range' 1 500 := by
  unfold initialBoxes
  rw [List.map_map, List.range'_eq_map_range]
  apply List.map_congr_left
  intro i _
  simp [Nat.add_comm]

theorem boxNumbers_requestStorage (db : Db) (user : User) (newId : ObjectId) (now : Nat) :
    (requestStorage db user newId now).db.storages = db.storages := by
  rcases requestStorage_cases db user newId now with ⟨hdb, _, _⟩ | ⟨_, _, _, hout⟩
  · rw [hdb]
  · rw [hout]

theorem boxNumbers_assignStorage (db : Db) (users : List User) (rand : Nat → Fin 900000)
    (occupiedNow processedNow : Nat) (requestId : String) (boxNumber : Nat) :
    (assignStorage db users rand occupiedNow processedNow requestId boxNumber).db.storages.map
        (fun s => s.boxNumber)
      = db.storages.map (fun s => s.boxNumber) := by
  rcases assignStorage_cases db users rand occupiedNow processedNow requestId boxNumber with
    ⟨hdb, _, _⟩ | ⟨_, storage, _, _, _, _, _, hbox, _, _, _, _, _, hout⟩
  · rw [hdb]
  · rw [hout]
    have hb := findBox_boxNumber _ _ _ hbox
    apply map_saveFirst
    intro x hx
    have hx2 : x.boxNumber = boxNumber := by simpa using hx
    simp [hx2, hb]

theorem boxNumbers_releaseStorage (db : Db) (users : List User) (boxNumber : Nat)
    (accessCode : String) :
    (releaseStorage db users boxNumber accessCode).db.storages.map (fun s => s.boxNumber)
      = db.storages.map (fun s => s.boxNumber) := by
  rcases releaseStorage_cases db users boxNumber accessCode with
    ⟨hdb, _, _⟩ | ⟨storage, _, _, _, hbox, _, _, _, hout⟩
  · rw [hdb]
  · rw [hout]
    have hb := findBox_boxNumber _ _ _ hbox
    apply map_saveFirst
    intro x hx
    have hx2 : x.boxNumber = boxNumber := by simpa using hx
    simp [hx2, hb]

theorem boxNumbers_of_reachable (db : Db) (h : Reachable db) :
    db.storages.map (fun s => s.boxNumber) = List.range' 1 500 := by
  induction h with
  | init => rw [initialDb_storages]; exact boxNumbers_initial
  | submit user newId now _ ih => rw [boxNumbers_requestStorage]; exact ih
  | assign users rand occupiedNow processedNow requestId boxNumber _ ih =>
    rw [boxNumbers_assignStorage]; exact ih
  | release users boxNumber accessCode _ ih => rw [boxNumbers_releaseStorage]; exact ih

/-- C24: in every database reached from the seeded pool by request-storage, assign-storage
and release-storage, the box numbers are, in the stored order, exactly 1, 2, ..., 500: no
box is created, deleted or renumbered, each number is on exactly one box and the pool
counts 500 boxes. -/
theorem pool_numbers_constant (db : Db) (h : Reachable db) :
    db.storages.map (fun s => s.boxNumber) = List.range' 1 500 ∧
    db.storages.length = 500 ∧
    (db.storages.map (fun s => s.boxNumber)).Nodup ∧
    (∀ n, (∃ s ∈ db.storages, s.boxNumber = n) ↔ 1 ≤ n ∧ n ≤ 500) := by
  have hmap := boxNumbers_of_reachable db h
  refine ⟨hmap, ?_, ?_, ?_⟩
  · have := congrArg List.length hmap
    simpa using this
  · rw [hmap]
    exact List.nodup_range' 1 500
  · intro n
    have hmem : n ∈ db.storages.map (fun s => s.boxNumber) ↔ n ∈ List.range' 1 500 := by
      rw [hmap]
    rw [List.mem_map, List.mem_range'_1] at hmem
    rw [hmem]
    omega

/-- Witness of C24 on the sample database with two occupied boxes. -/
theorem pool_numbers_constant_witness :
    fullDb.storages.map (fun s => s.boxNumber) = List.range' 1 500 ∧
    fullDb.storages.length = 500 ∧
    (fullDb.storages.map (fun s => s.boxNumber)).Nodup ∧
    (∀ n, (∃ s ∈ fullDb.storages, s.boxNumber = n) ↔ 1 ≤ n ∧ n ≤ 500) :=
  pool_numbers_constant fullDb reachable_fullDb

/-- C25: a successful assign-storage of request `requestId` to box `boxNumber` leaves every
box with another number and every request with another id as it was, where it was, and
changes no box number and no request id; a successful release-storage of box `boxNumber2`
leaves every box with another number as it was, changes no box number and leaves the
request collection as it was. -/
theorem success_changes_only_target (db : Db) (users : List User) (rand : Nat → Fin 900000)
    (occupiedNow processedNow : Nat) (requestId : String) (boxNumber : Nat)
    (db2 : Db) (users2 : List User) (boxNumber2 : Nat) (accessCode : String)
    (hassign : (assignStorage db users rand occupiedNow processedNow requestId
      boxNumber).response.status = 200)
    (hrelease : (releaseStorage db2 users2 boxNumber2 accessCode).response.status = 200) :
    ((∀ (i : Nat) (s : Storage), db.storages[i]? = some s → s.boxNumber ≠ boxNumber →
        (assignStorage db users rand occupiedNow processedNow requestId
          boxNumber).db.storages[i]? = some s) ∧
      (∀ (i : Nat) (r : Request), db.requests[i]? = some r → r._id ≠ canonicalId requestId →
        (assignStorage db users rand occupiedNow processedNow requestId
          boxNumber).db.requests[i]? = some r) ∧
      (assignStorage db users rand occupiedNow processedNow requestId
          boxNumber).db.storages.map (fun s => s.boxNumber)
        = db.storages.map (fun s => s.boxNumber) ∧
      (assignStorage db users rand occupiedNow processedNow requestId
          boxNumber).db.requests.map (fun r => r._id)
        = db.requests.map (fun r => r._id)) ∧
    ((∀ (i : Nat) (s : Storage), db2.storages[i]? = some s → s.boxNumber ≠ boxNumber2 →
        (releaseStorage db2 users2 boxNumber2 accessCode).db.storages[i]? = some s) ∧
      (releaseStorage db2 users2 boxNumber2 accessCode).db.storages.map
          (fun s => s.boxNumber)
        = db2.storages.map (fun s => s.boxNumber) ∧
      (releaseStorage db2 users2 boxNumber2 accessCode).db.requests = db2.requests) := by
  constructor
  · rcases assignStorage_cases db users rand occupiedNow processedNow requestId boxNumber with
      ⟨_, _, hne⟩ | ⟨request, storage, i, _, _, hreq, _, hbox, _, _, _, _, _, hout⟩
    · exact absurd hassign hne
    · have hr := findRequest_id _ _ _ hreq
      refine ⟨fun j s hs hn => ?_, fun j r hj hn => ?_,
        boxNumbers_assignStorage db users rand occupiedNow processedNow requestId boxNumber,
        ?_⟩
      · rw [hout]
        exact saveFirst_getElem_of_not _ _ _ j s hs (by simpa using hn)
      · rw [hout]
        exact saveFirst_getElem_of_not _ _ _ j r hj (by simpa using hn)
      · rw [hout]
        apply map_saveFirst
        intro x hx
        have hx2 : x._id = canonicalId requestId := by simpa using hx
        simp [hx2, hr]
  · rcases releaseStorage_cases db2 users2 boxNumber2 accessCode with
      ⟨_, _, hne⟩ | ⟨storage, occupant, _, _, hbox, _, _, _, hout⟩
    · exact absurd hrelease hne
    · refine ⟨fun j s hs hn => ?_,
        boxNumbers_releaseStorage db2 users2 boxNumber2 accessCode, ?_⟩
      · rw [hout]
        exact saveFirst_getElem_of_not _ _ _ j s hs (by simpa using hn)
      · rw [hout]

/-- Witness of C25: the assignment of box 7 to the request of `alice` in `requestedDb`, and
the release of box 7 of `occupiedDb` with its code. -/
theorem success_changes_only_target_witness :
    ((∀ (i : Nat) (s : Storage), requestedDb.storages[i]? = some s → s.boxNumber ≠ 7 →
        (assignStorage requestedDb [alice, bob] sampleRand 3 4 "65a000000000000000000001" 7).db.storages[i]?
          = some s) ∧
      (∀ (i : Nat) (r : Request), requestedDb.requests[i]? = some r → r._id ≠ canonicalId "65a000000000000000000001" →
        (assignStorage requestedDb [alice, bob] sampleRand 3 4 "65a000000000000000000001" 7).db.requests[i]?
          = some r) ∧
      (assignStorage requestedDb [alice, bob] sampleRand 3 4 "65a000000000000000000001" 7).db.storages.map
          (fun s => s.boxNumber)
        = requestedDb.storages.map (fun s => s.boxNumber) ∧
      (assignStorage requestedDb [alice, bob] sampleRand 3 4 "65a000000000000000000001" 7).db.requests.map
          (fun r => r._id)
        = requestedDb.requests.map (fun r => r._id)) ∧
    ((∀ (i : Nat) (s : Storage), occupiedDb.storages[i]? = some s → s.boxNumber ≠ 7 →
        (releaseStorage occupiedDb [alice, bob] 7 "123456").db.storages[i]? = some s) ∧
      (releaseStorage occupiedDb [alice, bob] 7 "123456").db.storages.map
          (fun s => s.boxNumber)
        = occupiedDb.storages.map (fun s => s.boxNumber) ∧
      (releaseStorage occupiedDb [alice, bob] 7 "123456").db.requests
        = occupiedDb.requests) :=
  success_changes_only_target requestedDb [alice, bob] sampleRand 3 4 "65a000000000000000000001" 7 occupiedDb
    [alice, bob] 7 "123456" (by set_option maxRecDepth 1000000 in decide)
    (by set_option maxRecDepth 1000000 in decide)

/-! ## Occupants are known users -/

theorem populate_append (users extra : List User) (ref : Option ObjectId)
    (h : populate users ref ≠ none) : populate (users ++ extra) ref ≠ none := by
  cases ref with
  | none => simp [populate] at h
  | some id =>
    simp only [populate, Option.some_bind] at h ⊢
    cases hfind : users.find? (fun u => u._id == id) with
    | none => exact absurd hfind h
    | some u =>
      rw [List.find?_append, hfind]
      simp

theorem reachable_of_run (w : World) (h : Run w) : Reachable w.db := by
  induction h with
  | init users => exact Reachable.init
  | register user _ ih => exact ih
  | submit user newId now _ ih => exact Reachable.submit user newId now ih
  | assign rand occupiedNow processedNow requestId boxNumber _ ih =>
    exact Reachable.assign _ rand occupiedNow processedNow requestId boxNumber ih
  | release boxNumber accessCode _ ih => exact Reachable.release _ boxNumber accessCode ih

/-- In every reachable world the occupant of an occupied box is a user of the collection. -/
theorem occupant_known_of_run (w : World) (h : Run w) :
    ∀ s ∈ w.db.storages, s.isOccupied = true → populate w.users s.occupiedBy ≠ none := by
  induction h with
  | init users =>
    intro s hs hocc
    rw [(mem_initialBoxes s hs).1] at hocc
    cases hocc
  | register user _ ih =>
    intro s hs hocc
    exact populate_append _ _ _ (ih s hs hocc)
  | submit user newId now _ ih =>
    intro s hs hocc
    have hs2 : s ∈ (requestStorage _ user newId now).db.storages := hs
    rw [boxNumbers_requestStorage] at hs2
    exact ih s hs2 hocc
  | @assign w rand occupiedNow processedNow requestId boxNumber _ ih =>
    intro s hs hocc
    have hs2 : s ∈ (assignStorage w.db w.users rand occupiedNow processedNow requestId
      boxNumber).db.storages := hs
    show populate w.users s.occupiedBy ≠ none
    rcases assignStorage_cases w.db w.users rand occupiedNow processedNow requestId
        boxNumber with
      ⟨hdb, _, _⟩ | ⟨request, storage, i, _, _, _, _, _, _, _, _, _, ⟨student, hst⟩, hout⟩
    · rw [hdb] at hs2
      exact ih s hs2 hocc
    · rw [hout] at hs2
      rcases mem_saveFirst _ _ _ _ hs2 with h1 | h1
      · rw [h1]
        show populate w.users (some request.studentId) ≠ none
        rw [hst]
        simp
      · exact ih s h1 hocc
  | @release w boxNumber accessCode _ ih =>
    intro s hs hocc
    have hs2 : s ∈ (releaseStorage w.db w.users boxNumber accessCode).db.storages := hs
    show populate w.users s.occupiedBy ≠ none
    rcases releaseStorage_cases w.db w.users boxNumber accessCode with
      ⟨hdb, _, _⟩ | ⟨storage, occupant, _, _, _, _, _, _, hout⟩
    · rw [hdb] at hs2
      exact ih s hs2 hocc
    · rw [hout] at hs2
      rcases mem_saveFirst _ _ _ _ hs2 with h1 | h1
      · rw [h1] at hocc
        cases hocc
      · exact ih s h1 hocc

theorem run_occupiedWorld : Run occupiedWorld := by
  have h0 : Run { db := initialDb, users := [alice, bob] } := Run.init [alice, bob]
  have h1 := Run.submit alice "65a000000000000000000001" 1 h0
  dsimp only at h1
  have h2 := Run.submit bob "65a000000000000000000002" 2 h1
  dsimp only at h2
  have h3 := Run.assign sampleRand 3 4 "65a000000000000000000001" 7 h2
  dsimp only at h3
  exact h3

/-- C26: in every world reached from the seeded pool by request-storage, assign-storage and
release-storage (users may register in between, none is removed), every occupied box has
an occupant, who is a user of the collection, an access code of six decimal digits and an
`occupiedAt` date; hence in release-storage the read of the occupant after the code check
always finds the occupant, and release-storage never answers with the internal fault. -/
theorem occupied_box_complete (w : World) (h : Run w) :
    (∀ s ∈ w.db.storages, s.isOccupied = true →
      s.occupiedBy ≠ none ∧ populate w.users s.occupiedBy ≠ none ∧
      (∃ code, s.accessCode = some code ∧ code.length = 6 ∧
        ∀ c ∈ code.data, c.isDigit = true) ∧
      s.occupiedAt ≠ none) ∧
    (∀ (boxNumber : Nat) (accessCode : String),
      (releaseStorage w.db w.users boxNumber accessCode).response.status ≠ 500) := by
  have hw := wellFormed_of_reachable w.db (reachable_of_run w h)
  have hknown := occupant_known_of_run w h
  constructor
  · intro s hs hocc
    obtain ⟨h1, ⟨draw, h2⟩, h3⟩ := hw.occupied s hs hocc
    have hf := generateAccessCode_format draw
    exact ⟨h1, hknown s hs hocc, ⟨_, h2, hf.1, hf.2.1⟩, h3⟩
  · intro boxNumber accessCode
    unfold releaseStorage
    split
    · simp [reject]
    · split
      · simp [reject]
      · rename_i storage hbox
        split
        · simp [reject]
        · rename_i hocc
          split
          · simp [reject]
          · split
            · rename_i hpop
              exact absurd hpop
                (hknown storage (List.mem_of_find?_eq_some hbox) (by simpa using hocc))
            · simp

/-- Witness of C26 on the sample world where `alice` holds box 7. -/
theorem occupied_box_complete_witness :
    (∀ s ∈ occupiedWorld.db.storages, s.isOccupied = true →
      s.occupiedBy ≠ none ∧ populate occupiedWorld.users s.occupiedBy ≠ none ∧
      (∃ code, s.accessCode = some code ∧ code.length = 6 ∧
        ∀ c ∈ code.data, c.isDigit = true) ∧
      s.occupiedAt ≠ none) ∧
    (∀ (boxNumber : Nat) (accessCode : String),
      (releaseStorage occupiedWorld.db occupiedWorld.users boxNumber
        accessCode).response.status ≠ 500) :=
  occupied_box_complete occupiedWorld run_occupiedWorld

/-! ## The request-storage handler -/

theorem find_isPendingOf_none (requests : List Request) (studentId : ObjectId) :
    requests.find? (isPendingOf studentId) = none ↔
      ¬ ∃ r ∈ requests, r.studentId = studentId ∧ r.status = Status.pending := by
  rw [List.find?_eq_none]
  constructor
  · rintro h ⟨r, hr, h1, h2⟩
    exact h r hr (by simp [isPendingOf, h1, h2])
  · intro h r hr hp
    apply h
    refine ⟨r, hr, ?_⟩
    simpa [isPendingOf] using hp

theorem find_isActiveOf_none (storages : List Storage) (studentId : ObjectId) :
    storages.find? (isActiveOf studentId) = none ↔
      ¬ ∃ s ∈ storages, s.occupiedBy = some studentId ∧ s.isOccupied = true := by
  rw [List.find?_eq_none]
  constructor
  · rintro h ⟨s, hs, h1, h2⟩
    exact h s hs (by simp [isActiveOf, h1, h2])
  · intro h s hs hp
    apply h
    refine ⟨s, hs, ?_⟩
    simpa [isActiveOf] using hp

/-- C11: request-storage is rejected with a conflict (400 `You already have a pending
request` or 400 `You already have an active storage`) if and only if the student already
has a pending request or is the occupant of an occupied box; a rejected call leaves the
request collection and the boxes as they were and emits nothing. -/
theorem submit_conflict_iff (db : Db) (user : User) (newId : ObjectId) (now : Nat) :
    (((requestStorage db user newId now).response
          = { status := 400, message := "You already have a pending request",
              payload := Payload.empty } ∨
        (requestStorage db user newId now).response
          = { status := 400, message := "You already have an active storage",
              payload := Payload.empty }) ↔
      ((∃ r ∈ db.requests, r.studentId = user._id ∧ r.status = Status.pending) ∨
        (∃ s ∈ db.storages, s.occupiedBy = some user._id ∧ s.isOccupied = true))) ∧
    (((∃ r ∈ db.requests, r.studentId = user._id ∧ r.status = Status.pending) ∧
        requestStorage db user newId now
          = reject db 400 "You already have a pending request") ∨
      ((¬ ∃ r ∈ db.requests, r.studentId = user._id ∧ r.status = Status.pending) ∧
        (∃ s ∈ db.storages, s.occupiedBy = some user._id ∧ s.isOccupied = true) ∧
        requestStorage db user newId now
          = reject db 400 "You already have an active storage") ∨
      ((¬ ∃ r ∈ db.requests, r.studentId = user._id ∧ r.status = Status.pending) ∧
        (¬ ∃ s ∈ db.storages, s.occupiedBy = some user._id ∧ s.isOccupied = true) ∧
        (requestStorage db user newId now).response.status ≠ 400)) := by
  cases hp : db.requests.find? (isPendingOf user._id) with
  | some r =>
    have hex : ∃ r ∈ db.requests, r.studentId = user._id ∧ r.status = Status.pending := by
      by_contra hne
      rw [(find_isPendingOf_none _ _).2 hne] at hp
      cases hp
    have hout : requestStorage db user newId now
        = reject db 400 "You already have a pending request" := by
      simp [requestStorage, hp]
    refine ⟨⟨fun _ => Or.inl hex, fun _ => Or.inl ?_⟩, Or.inl ⟨hex, hout⟩⟩
    rw [hout]
    rfl
  | none =>
    have hnp := (find_isPendingOf_none _ _).1 hp
    cases ha : db.storages.find? (isActiveOf user._id) with
    | some s =>
      have hex : ∃ s ∈ db.storages, s.occupiedBy = some user._id ∧ s.isOccupied = true := by
        by_contra hne
        rw [(find_isActiveOf_none _ _).2 hne] at ha
        cases ha
      have hout : requestStorage db user newId now
          = reject db 400 "You already have an active storage" := by
        simp [requestStorage, hp, ha]
      refine ⟨⟨fun _ => Or.inr hex, fun _ => Or.inr ?_⟩, Or.inr (Or.inl ⟨hnp, hex, hout⟩)⟩
      rw [hout]
      rfl
    | none =>
      have hna := (find_isActiveOf_none _ _).1 ha
      have hst : (requestStorage db user newId now).response.status ≠ 400 := by
        simp only [requestStorage, hp, ha]
        split <;> simp [serverError, reject]
      refine ⟨⟨fun h => ?_, fun h => ?_⟩, Or.inr (Or.inr ⟨hnp, hna, hst⟩)⟩
      · rcases h with h | h <;> rw [h] at hst <;> exact absurd rfl hst
      · rcases h with h | h
        · exact absurd h hnp
        · exact absurd h hna

/-- C12: when the student has no pending request and no occupied box (and the `_id` given to
the new document is not yet in the collection), request-storage appends exactly one
request, with `studentId` the caller, `studentEmail` the caller's email, `status = pending`
and `assignedBox`, `accessCode`, `processedAt` all null; the requests already stored and
the boxes are unchanged, and one `new-request` event carrying that request is emitted. -/
theorem submit_creates_request (db : Db) (user : User) (newId : ObjectId) (now : Nat)
    (hpending : ¬ ∃ r ∈ db.requests, r.studentId = user._id ∧ r.status = Status.pending)
    (hactive : ¬ ∃ s ∈ db.storages, s.occupiedBy = some user._id ∧ s.isOccupied = true)
    (hfresh : ∀ r ∈ db.requests, r._id ≠ newId) :
    (requestStorage db user newId now).db.requests
      = db.requests ++
          [{ _id := newId, studentId := user._id, studentEmail := user.email,
             status := Status.pending, assignedBox := none, accessCode := none,
             createdAt := now, processedAt := none }] ∧
    (requestStorage db user newId now).db.storages = db.storages ∧
    (requestStorage db user newId now).events
      = [Event.newRequest
          { _id := newId, studentId := user._id, studentEmail := user.email,
            status := Status.pending, assignedBox := none, accessCode := none,
            createdAt := now, processedAt := none }] ∧
    (requestStorage db user newId now).response
      = { status := 201, message := "Storage request submitted successfully",
          payload := Payload.submitted
            { _id := newId, studentId := user._id, studentEmail := user.email,
              status := Status.pending, assignedBox := none, accessCode := none,
              createdAt := now, processedAt := none } } := by
  have hp := (find_isPendingOf_none _ _).2 hpending
  have ha := (find_isActiveOf_none _ _).2 hactive
  have hdup : db.requests.any (fun r => r._id == newId) = false := by
    rw [List.any_eq_false]
    intro r hr
    simpa using hfresh r hr
  simp [requestStorage, hp, ha, hdup]

/-- Witness of C12: `bob` submits a request after `alice` did. -/
theorem submit_creates_request_witness :
    (requestStorage (requestStorage initialDb alice "65a000000000000000000001" 1).db bob "65a000000000000000000002" 2).db.requests
      = (requestStorage initialDb alice "65a000000000000000000001" 1).db.requests ++
          [{ _id := "65a000000000000000000002", studentId := "65a0000000000000000000b2", studentEmail := "bob@example.org",
             status := Status.pending, assignedBox := none, accessCode := none,
             createdAt := 2, processedAt := none }] ∧
    (requestStorage (requestStorage initialDb alice "65a000000000000000000001" 1).db bob "65a000000000000000000002" 2).db.storages
      = (requestStorage initialDb alice "65a000000000000000000001" 1).db.storages ∧
    (requestStorage (requestStorage initialDb alice "65a000000000000000000001" 1).db bob "65a000000000000000000002" 2).events
      = [Event.newRequest
          { _id := "65a000000000000000000002", studentId := "65a0000000000000000000b2", studentEmail := "bob@example.org",
            status := Status.pending, assignedBox := none, accessCode := none,
            createdAt := 2, processedAt := none }] ∧
    (requestStorage (requestStorage initialDb alice "65a000000000000000000001" 1).db bob "65a000000000000000000002" 2).response
      = { status := 201, message := "Storage request submitted successfully",
          payload := Payload.submitted
            { _id := "65a000000000000000000002", studentId := "65a0000000000000000000b2", studentEmail := "bob@example.org",
              status := Status.pending, assignedBox := none, accessCode := none,
              createdAt := 2, processedAt := none } } :=
  submit_creates_request (requestStorage initialDb alice "65a000000000000000000001" 1).db bob "65a000000000000000000002" 2
    (by set_option maxRecDepth 1000000 in decide)
    (by set_option maxRecDepth 1000000 in decide)
    (by set_option maxRecDepth 1000000 in decide)

/-! ## Requests that have been processed -/

theorem storageBoxes_requests (db : Db) (users : List User) :
    (storageBoxes db users).db.requests = db.requests := by
  unfold storageBoxes
  simp only
  split <;> rfl

theorem perform_request (db : Db) (op : Op) (i : Nat) (r : Request)
    (hr : db.requests[i]? = some r) :
    (perform db op).requests[i]? = some r ∨
      (r.status = Status.pending ∧
        ∃ r1, (perform db op).requests[i]? = some r1 ∧ r1.status = Status.approved) := by
  cases op with
  | submit user newId now =>
    left
    show (requestStorage db user newId now).db.requests[i]? = some r
    rcases requestStorage_cases db user newId now with ⟨hdb, _, _⟩ | ⟨_, _, _, hout⟩
    · rw [hdb]; exact hr
    · rw [hout]
      have hlt : i < db.requests.length := by
        rcases Nat.lt_or_ge i db.requests.length with h | h
        · exact h
        · rw [List.getElem?_eq_none h] at hr
          cases hr
      show (db.requests ++ _)[i]? = some r
      rw [List.getElem?_append_left hlt]
      exact hr
  | assign users rand occupiedNow processedNow requestId boxNumber =>
    show (assignStorage db users rand occupiedNow processedNow requestId
        boxNumber).db.requests[i]? = some r ∨ _
    rcases assignStorage_cases db users rand occupiedNow processedNow requestId boxNumber with
      ⟨hdb, _, _⟩ | ⟨request, _, k, _, _, hreq, hst, _, _, _, _, _, _, hout⟩
    · left; rw [hdb]; exact hr
    · rcases saveFirst_getElem (fun x : Request => x._id == canonicalId requestId)
          { request with
            status := Status.approved, assignedBox := some boxNumber,
            accessCode := some (generateAccessCode (rand k)),
            processedAt := some processedNow } db.requests i r hr with h1 | ⟨h1, h2⟩
      · left
        rw [hout]
        exact h1
      · right
        have heq : request = r := by
          have h3 : db.requests.find? (fun x : Request => x._id == canonicalId requestId)
              = some request := findRequest_find _ _ _ hreq
          rw [h2] at h3
          exact (Option.some.inj h3).symm
        refine ⟨heq ▸ hst,
          { request with
            status := Status.approved, assignedBox := some boxNumber,
            accessCode := some (generateAccessCode (rand k)),
            processedAt := some processedNow }, ?_, rfl⟩
        show (assignStorage db users rand occupiedNow processedNow requestId
          boxNumber).db.requests[i]? = _
        rw [hout]
        exact h1
  | release users boxNumber accessCode =>
    left
    show (releaseStorage db users boxNumber accessCode).db.requests[i]? = some r
    rcases releaseStorage_cases db users boxNumber accessCode with
      ⟨hdb, _, _⟩ | ⟨_, _, _, _, _, _, _, _, hout⟩
    · rw [hdb]; exact hr
    · rw [hout]; exact hr
  | listUnits users =>
    left
    show (storageBoxes db users).db.requests[i]? = some r
    rw [storageBoxes_requests]
    exact hr

/-- C13 (fails as stated): the request of `alice` in `occupiedDb` is approved, but a second
assign of it with `boxNumber` 0 is not refused with 400 `Request has already been processed`; the
input check answers first. -/
theorem second_assign_box_zero :
    findRequest occupiedDb.requests "65a000000000000000000001"
      = Lookup.resolved (some
             { _id := "65a000000000000000000001", studentId := "65a0000000000000000000a1", studentEmail := "alice@example.org",
               status := Status.approved, assignedBox := some 7,
               accessCode := some "123456", createdAt := 1, processedAt := some 4 }) ∧
    (assignStorage occupiedDb [alice, bob] sampleRand 5 6 "65a000000000000000000001" 0).response
      = { status := 400, message := "Request ID and box number are required",
          payload := Payload.empty } ∧
    (assignStorage occupiedDb [alice, bob] sampleRand 5 6 "65a000000000000000000001" 0).response
      ≠ { status := 400, message := "Request has already been processed",
          payload := Payload.empty } := by
  set_option maxRecDepth 1000000 in
  exact ⟨by decide, by decide, by decide⟩

/-- C13 (amended): for every operation (request-storage, assign-storage, release-storage,
the listing of the boxes) a stored request either stays as it is or was pending and is now
approved; so a request whose status is not `pending` is identical after every operation,
never returns to `pending` and is written at most once.  Assigning such a request again
never succeeds: the call is refused with 400 `Request has already been processed`, or, when
the request id is empty or the box number is 0, by the input check with
400 `Request ID and box number are required`. -/
theorem processed_request_is_final (db : Db) (i : Nat) (r : Request)
    (hr : db.requests[i]? = some r) :
    (∀ op : Op,
      (perform db op).requests[i]? = some r ∨
        (r.status = Status.pending ∧
          ∃ r1, (perform db op).requests[i]? = some r1 ∧ r1.status = Status.approved)) ∧
    (r.status ≠ Status.pending → ∀ op : Op, (perform db op).requests[i]? = some r) ∧
    (r.status ≠ Status.pending →
      ∀ (users : List User) (rand : Nat → Fin 900000) (occupiedNow processedNow : Nat)
        (requestId : String) (boxNumber : Nat),
        findRequest db.requests requestId = Lookup.resolved (some r) →
        ((requestId = "" ∨ boxNumber = 0) ∧
          assignStorage db users rand occupiedNow processedNow requestId boxNumber
            = reject db 400 "Request ID and box number are required") ∨
        (requestId ≠ "" ∧ boxNumber ≠ 0 ∧
          assignStorage db users rand occupiedNow processedNow requestId boxNumber
            = reject db 400 "Request has already been processed")) := by
  refine ⟨fun op => perform_request db op i r hr, fun hnp op => ?_, ?_⟩
  · rcases perform_request db op i r hr with h | ⟨h, _⟩
    · exact h
    · exact absurd h hnp
  · intro hnp users rand occupiedNow processedNow requestId boxNumber hfind
    by_cases hguard : requestId = "" ∨ boxNumber = 0
    · left
      exact ⟨hguard, by simp [assignStorage, hguard]⟩
    · right
      exact ⟨fun h => hguard (Or.inl h), fun h => hguard (Or.inr h),
        by simp [assignStorage, hguard, hfind, hnp]⟩

/-- Witness of C13: the approved request of `alice`, first in the request collection of
`occupiedDb`. -/
theorem processed_request_is_final_witness :
    (∀ op : Op,
      (perform occupiedDb op).requests[0]?
          = some { _id := "65a000000000000000000001", studentId := "65a0000000000000000000a1", studentEmail := "alice@example.org",
                   status := Status.approved, assignedBox := some 7,
                   accessCode := some "123456", createdAt := 1, processedAt := some 4 } ∨
        (Status.approved = Status.pending ∧
          ∃ r1, (perform occupiedDb op).requests[0]? = some r1 ∧
            r1.status = Status.approved)) ∧
    (Status.approved ≠ Status.pending → ∀ op : Op,
      (perform occupiedDb op).requests[0]?
        = some { _id := "65a000000000000000000001", studentId := "65a0000000000000000000a1", studentEmail := "alice@example.org",
                 status := Status.approved, assignedBox := some 7,
                 accessCode := some "123456", createdAt := 1, processedAt := some 4 }) ∧
    (Status.approved ≠ Status.pending →
      ∀ (users : List User) (rand : Nat → Fin 900000) (occupiedNow processedNow : Nat)
        (requestId : String) (boxNumber : Nat),
        findRequest occupiedDb.requests requestId
          = Lookup.resolved (some
                 { _id := "65a000000000000000000001", studentId := "65a0000000000000000000a1", studentEmail := "alice@example.org",
                   status := Status.approved, assignedBox := some 7,
                   accessCode := some "123456", createdAt := 1, processedAt := some 4 }) →
        ((requestId = "" ∨ boxNumber = 0) ∧
          assignStorage occupiedDb users rand occupiedNow processedNow requestId boxNumber
            = reject occupiedDb 400 "Request ID and box number are required") ∨
        (requestId ≠ "" ∧ boxNumber ≠ 0 ∧
          assignStorage occupiedDb users rand occupiedNow processedNow requestId boxNumber
            = reject occupiedDb 400 "Request has already been processed")) :=
  processed_request_is_final occupiedDb 0
    { _id := "65a000000000000000000001", studentId := "65a0000000000000000000a1", studentEmail := "alice@example.org",
      status := Status.approved, assignedBox := some 7,
      accessCode := some "123456", createdAt := 1, processedAt := some 4 }
    (by set_option maxRecDepth 1000000 in decide)

/-! ## Writes that fail, calls that overlap -/

/-- With both saves succeeding, the two-phase handler is the handler. -/
theorem assignStorageWith_saved (db : Db) (users : List User) (rand : Nat → Fin 900000)
    (occupiedNow processedNow : Nat) (requestId : String) (boxNumber : Nat) :
    assignStorageWith true true db users rand occupiedNow processedNow requestId boxNumber
      = assignStorage db users rand occupiedNow processedNow requestId boxNumber := by
  by_cases hguard : requestId = "" ∨ boxNumber = 0
  · simp [assignStorageWith, assignRead, assignStorage, hguard, reject]
  · cases hreq : findRequest db.requests requestId with
    | castError =>
      simp [assignStorageWith, assignRead, assignStorage, hguard, hreq, serverError, reject]
    | resolved doc =>
    cases doc with
    | none => simp [assignStorageWith, assignRead, assignStorage, hguard, hreq, reject]
    | some request =>
      by_cases hst : request.status = Status.pending
      · cases hfind : findBox db.storages boxNumber with
        | none =>
          simp [assignStorageWith, assignRead, assignStorage, hguard, hreq, hst, hfind, reject]
        | some storage =>
          cases hocc : storage.isOccupied with
          | true =>
            simp [assignStorageWith, assignRead, assignStorage, hguard, hreq, hst, hfind,
              hocc, reject]
          | false =>
            by_cases hge : (generateLoop db.storages rand maxAttempts none true 0).2
                ≥ maxAttempts
            · simp [assignStorageWith, assignRead, assignStorage, hguard, hreq, hst, hfind,
                hocc, hge, reject]
            · cases hpop : populate users (some request.studentId) with
              | none =>
                simp [assignStorageWith, assignRead, assignCommit, assignStorage, hguard,
                  hreq, hst, hfind, hocc, hge, hpop]
              | some student =>
                simp [assignStorageWith, assignRead, assignCommit, assignStorage, hguard,
                  hreq, hst, hfind, hocc, hge, hpop]
      · simp [assignStorageWith, assignRead, assignStorage, hguard, hreq, hst, reject]

/-- The outcomes of the handler when a save may throw, by which save throws. -/
theorem assignStorageWith_cases (storageSaved requestSaved : Bool) (db : Db)
    (users : List User) (rand : Nat → Fin 900000) (occupiedNow processedNow : Nat)
    (requestId : String) (boxNumber : Nat) :
    ((assignStorageWith storageSaved requestSaved db users rand occupiedNow processedNow
        requestId boxNumber).db = db ∧
      (assignStorageWith storageSaved requestSaved db users rand occupiedNow processedNow
        requestId boxNumber).events = [] ∧
      (assignStorageWith storageSaved requestSaved db users rand occupiedNow processedNow
        requestId boxNumber).response.status ≠ 200) ∨
    (storageSaved = true ∧ requestSaved = true ∧
      (assignStorage db users rand occupiedNow processedNow requestId
        boxNumber).response.status = 200 ∧
      assignStorageWith storageSaved requestSaved db users rand occupiedNow processedNow
          requestId boxNumber
        = assignStorage db users rand occupiedNow processedNow requestId boxNumber) ∨
    (storageSaved = true ∧ requestSaved = false ∧
      (assignStorage db users rand occupiedNow processedNow requestId
        boxNumber).response.status = 200 ∧
      assignStorageWith storageSaved requestSaved db users rand occupiedNow processedNow
          requestId boxNumber
        = serverError
            { storages := (assignStorage db users rand occupiedNow processedNow requestId
                boxNumber).db.storages,
              requests := db.requests }) := by
  by_cases hok : (assignStorage db users rand occupiedNow processedNow requestId
      boxNumber).response.status = 200
  · cases storageSaved with
    | false =>
      left
      by_cases hguard : requestId = "" ∨ boxNumber = 0
      · simp [assignStorageWith, assignRead, hguard, reject]
      · cases hreq : findRequest db.requests requestId with
        | castError =>
          simp [assignStorageWith, assignRead, hguard, hreq, serverError, reject]
        | resolved doc =>
        cases doc with
        | none => simp [assignStorageWith, assignRead, hguard, hreq, reject]
        | some request =>
          by_cases hst : request.status = Status.pending
          · cases hfind : findBox db.storages boxNumber with
            | none => simp [assignStorageWith, assignRead, hguard, hreq, hst, hfind, reject]
            | some storage =>
              cases hocc : storage.isOccupied with
              | true =>
                simp [assignStorageWith, assignRead, hguard, hreq, hst, hfind, hocc, reject]
              | false =>
                by_cases hge : (generateLoop db.storages rand maxAttempts none true 0).2
                    ≥ maxAttempts
                · simp [assignStorageWith, assignRead, hguard, hreq, hst, hfind, hocc, hge,
                    reject]
                · cases hpop : populate users (some request.studentId) with
                  | none =>
                    simp [assignStorageWith, assignRead, assignCommit, hguard, hreq, hst,
                      hfind, hocc, hge, hpop, serverError, reject]
                  | some student =>
                    simp [assignStorageWith, assignRead, assignCommit, hguard, hreq, hst,
                      hfind, hocc, hge, hpop, serverError, reject]
          · simp [assignStorageWith, assignRead, hguard, hreq, hst, reject]
    | true =>
      cases requestSaved with
      | true =>
        right; left
        exact ⟨rfl, rfl, hok, assignStorageWith_saved db users rand occupiedNow processedNow
          requestId boxNumber⟩
      | false =>
        right; right
        refine ⟨rfl, rfl, hok, ?_⟩
        rcases assignStorage_cases db users rand occupiedNow processedNow requestId
            boxNumber with
          ⟨_, _, hne⟩ | ⟨request, storage, i, hid, hnum, hreq, hst, hbox, hocc, hi, hfree, hall,
            ⟨student, hstudent⟩, hout⟩
        · exact absurd hok hne
        · have hguard : ¬ (requestId = "" ∨ boxNumber = 0) := fun h => h.elim hid hnum
          have hid2 := populate_id users request.studentId student hstudent
          rcases generateLoop_spec db.storages rand maxAttempts none 0 (by omega)
              (Nat.zero_le _) with ⟨hcol, _⟩ | ⟨j, _, hj2, hj3, hj4, hres⟩
          · exact absurd hfree (hcol i (Nat.zero_le _) hi)
          · have hij : j = i := by
              rcases Nat.lt_trichotomy j i with h | h | h
              · exact absurd hj3 (hall j h)
              · exact h
              · exact absurd hfree (hj4 i (Nat.zero_le _) h)
            subst hij
            have hlt : ¬ maxAttempts ≤ j + 1 := by omega
            rw [hout]
            simp [assignStorageWith, assignRead, assignCommit, hguard, hreq, hst, hbox, hocc,
              hres, hlt, hstudent, hid2, serverError, reject]
  · left
    have h1 := assignStorageWith_saved db users rand occupiedNow processedNow requestId
      boxNumber
    rcases assignStorage_cases db users rand occupiedNow processedNow requestId boxNumber with
      ⟨hdb, hev, hne⟩ | ⟨_, _, _, _, _, _, _, _, _, _, _, _, _, hout⟩
    · by_cases hguard : requestId = "" ∨ boxNumber = 0
      · simp [assignStorageWith, assignRead, hguard, reject]
      · cases hreq : findRequest db.requests requestId with
        | castError =>
          simp [assignStorageWith, assignRead, hguard, hreq, serverError, reject]
        | resolved doc =>
        cases doc with
        | none => simp [assignStorageWith, assignRead, hguard, hreq, reject]
        | some request =>
          by_cases hst : request.status = Status.pending
          · cases hfind : findBox db.storages boxNumber with
            | none => simp [assignStorageWith, assignRead, hguard, hreq, hst, hfind, reject]
            | some storage =>
              cases hocc : storage.isOccupied with
              | true =>
                simp [assignStorageWith, assignRead, hguard, hreq, hst, hfind, hocc, reject]
              | false =>
                by_cases hge : (generateLoop db.storages rand maxAttempts none true 0).2
                    ≥ maxAttempts
                · simp [assignStorageWith, assignRead, hguard, hreq, hst, hfind, hocc, hge,
                    reject]
                · cases hpop : populate users (some request.studentId) with
                  | none =>
                    simp [assignStorageWith, assignRead, assignCommit, hguard, hreq, hst,
                      hfind, hocc, hge, hpop, serverError, reject]
                  | some student =>
                    exfalso
                    apply hok
                    simp [assignStorage, hguard, hreq, hst, hfind, hocc, hge, hpop]
          · simp [assignStorageWith, assignRead, hguard, hreq, hst, reject]
    · rw [hout] at hok
      exact absurd rfl hok

/-- C14 (fails as stated): in `requestedDb`, assign-storage of the request of `alice` to box 7 with
`storage.save()` succeeding and `request.save()` throwing answers 500 and leaves box 7
occupied while the request is still pending. -/
theorem assign_request_save_fails :
    (assignStorageWith true false requestedDb [alice, bob] sampleRand 3 4 "65a000000000000000000001" 7).response
      = { status := 500, message := "Server error", payload := Payload.empty } ∧
    findBox (assignStorageWith true false requestedDb [alice, bob] sampleRand 3 4 "65a000000000000000000001"
        7).db.storages 7
      = some { boxNumber := 7, isOccupied := true, occupiedBy := some "65a0000000000000000000a1",
               accessCode := some "123456", occupiedAt := some 3 } ∧
    findRequest (assignStorageWith true false requestedDb [alice, bob] sampleRand 3 4 "65a000000000000000000001"
        7).db.requests "65a000000000000000000001"
      = Lookup.resolved (some
             { _id := "65a000000000000000000001", studentId := "65a0000000000000000000a1", studentEmail := "alice@example.org",
               status := Status.pending, assignedBox := none, accessCode := none,
               createdAt := 1, processedAt := none }) := by
  set_option maxRecDepth 1000000 in
  exact ⟨by decide, by decide, by decide⟩

/-- C14 (amended): every outcome of assign-storage is one of three.  Nothing is persisted
(a failed check, or `storage.save()` throws).  Both writes are persisted and the call
succeeds (no save throws).  Or `storage.save()` succeeds and `request.save()` throws: the
call answers 500, the box stays occupied and the request collection is as it was, so the
request is still pending.  In no outcome is the request written while the box is not. -/
theorem assign_writes_by_fault (storageSaved requestSaved : Bool) (db : Db)
    (users : List User) (rand : Nat → Fin 900000) (occupiedNow processedNow : Nat)
    (requestId : String) (boxNumber : Nat) :
    ((assignStorageWith storageSaved requestSaved db users rand occupiedNow processedNow
        requestId boxNumber).db = db ∧
      (assignStorageWith storageSaved requestSaved db users rand occupiedNow processedNow
        requestId boxNumber).response.status ≠ 200) ∨
    (storageSaved = true ∧ requestSaved = true ∧
      (assignStorageWith storageSaved requestSaved db users rand occupiedNow processedNow
        requestId boxNumber).response.status = 200 ∧
      (assignStorageWith storageSaved requestSaved db users rand occupiedNow processedNow
        requestId boxNumber).db
        = (assignStorage db users rand occupiedNow processedNow requestId boxNumber).db) ∨
    (storageSaved = true ∧ requestSaved = false ∧
      (assignStorageWith storageSaved requestSaved db users rand occupiedNow processedNow
        requestId boxNumber).response
        = { status := 500, message := "Server error", payload := Payload.empty } ∧
      (assignStorageWith storageSaved requestSaved db users rand occupiedNow processedNow
        requestId boxNumber).db.storages
        = (assignStorage db users rand occupiedNow processedNow requestId
            boxNumber).db.storages ∧
      (assignStorageWith storageSaved requestSaved db users rand occupiedNow processedNow
        requestId boxNumber).db.requests = db.requests ∧
      (assignStorage db users rand occupiedNow processedNow requestId
        boxNumber).response.status = 200) := by
  rcases assignStorageWith_cases storageSaved requestSaved db users rand occupiedNow
      processedNow requestId boxNumber with
    ⟨h1, _, h3⟩ | ⟨h1, h2, h3, h4⟩ | ⟨h1, h2, h3, h4⟩
  · exact Or.inl ⟨h1, h3⟩
  · right; left
    rw [h4]
    exact ⟨h1, h2, h3, rfl⟩
  · right; right
    rw [h4]
    exact ⟨h1, h2, rfl, rfl, rfl, h3⟩

/-- C15 (fails as stated): in `requestedDb` all boxes are free and the requests of
`alice` and `bob` are pending.
Two assign-storage calls for box 7, scheduled so that both read before either writes, both
succeed: box 7 ends with `bob` as occupant and both requests are approved. -/
theorem concurrent_assign_both_succeed :
    (assignInterleaved requestedDb [alice, bob] sampleRand 3 4 "65a000000000000000000001" 7
        (fun _ => 34567) 5 6 "65a000000000000000000002" 7).1.response.status = 200 ∧
    (assignInterleaved requestedDb [alice, bob] sampleRand 3 4 "65a000000000000000000001" 7
        (fun _ => 34567) 5 6 "65a000000000000000000002" 7).2.response.status = 200 ∧
    findBox (assignInterleaved requestedDb [alice, bob] sampleRand 3 4 "65a000000000000000000001" 7
        (fun _ => 34567) 5 6 "65a000000000000000000002" 7).2.db.storages 7
      = some { boxNumber := 7, isOccupied := true, occupiedBy := some "65a0000000000000000000b2",
               accessCode := some "134567", occupiedAt := some 5 } ∧
    findRequest (assignInterleaved requestedDb [alice, bob] sampleRand 3 4 "65a000000000000000000001" 7
        (fun _ => 34567) 5 6 "65a000000000000000000002" 7).2.db.requests "65a000000000000000000001"
      = Lookup.resolved (some
             { _id := "65a000000000000000000001", studentId := "65a0000000000000000000a1", studentEmail := "alice@example.org",
               status := Status.approved, assignedBox := some 7,
               accessCode := some "123456", createdAt := 1, processedAt := some 4 }) ∧
    findRequest (assignInterleaved requestedDb [alice, bob] sampleRand 3 4 "65a000000000000000000001" 7
        (fun _ => 34567) 5 6 "65a000000000000000000002" 7).2.db.requests "65a000000000000000000002"
      = Lookup.resolved (some
             { _id := "65a000000000000000000002", studentId := "65a0000000000000000000b2", studentEmail := "bob@example.org",
               status := Status.approved, assignedBox := some 7,
               accessCode := some "134567", createdAt := 2, processedAt := some 6 }) := by
  set_option maxRecDepth 1000000 in
  exact ⟨by decide, by decide, by decide, by decide, by decide⟩

/-- C15 (amended): given a pool with all boxes free and two distinct pending requests, when
two assign-storage calls for the same box run one after the other (the second starts when
the first has finished) and the student of the first request is a known user, the first
call succeeds and the second is refused with 400 `Storage box is already occupied`; the box
ends with the student of the first request as its only occupant, the first request is
approved and the second is still pending. -/
theorem sequential_assign_same_box (db : Db) (users : List User)
    (randA : Nat → Fin 900000) (occupiedNowA processedNowA : Nat) (requestIdA : String)
    (randB : Nat → Fin 900000) (occupiedNowB processedNowB : Nat) (requestIdB : String)
    (boxNumber : Nat) (requestA requestB : Request) (storage : Storage)
    (hfree : ∀ s ∈ db.storages, s.isOccupied = false ∧ s.accessCode = none)
    (hbox : findBox db.storages boxNumber = some storage) (hnum : boxNumber ≠ 0)
    (hA : findRequest db.requests requestIdA = Lookup.resolved (some requestA))
    (hpendingA : requestA.status = Status.pending) (hidA : requestIdA ≠ "")
    (hB : findRequest db.requests requestIdB = Lookup.resolved (some requestB))
    (hpendingB : requestB.status = Status.pending) (hidB : requestIdB ≠ "")
    (hdistinct : requestA._id ≠ requestB._id)
    (hstudent : populate users (some requestA.studentId) ≠ none) :
    (assignStorage db users randA occupiedNowA processedNowA requestIdA
      boxNumber).response.status = 200 ∧
    assignStorage
        (assignStorage db users randA occupiedNowA processedNowA requestIdA boxNumber).db
        users randB occupiedNowB processedNowB requestIdB boxNumber
      = reject
          (assignStorage db users randA occupiedNowA processedNowA requestIdA boxNumber).db
          400 "Storage box is already occupied" ∧
    (∃ code,
      findBox (assignStorage db users randA occupiedNowA processedNowA requestIdA
          boxNumber).db.storages boxNumber
        = some { boxNumber := storage.boxNumber, isOccupied := true,
                 occupiedBy := some requestA.studentId, accessCode := some code,
                 occupiedAt := some occupiedNowA } ∧
      findRequest (assignStorage db users randA occupiedNowA processedNowA requestIdA
          boxNumber).db.requests requestIdA
        = Lookup.resolved (some
               { _id := requestA._id, studentId := requestA.studentId,
                 studentEmail := requestA.studentEmail, status := Status.approved,
                 assignedBox := some boxNumber, accessCode := some code,
                 createdAt := requestA.createdAt, processedAt := some processedNowA })) ∧
    findRequest (assignStorage db users randA occupiedNowA processedNowA requestIdA
        boxNumber).db.requests requestIdB = Lookup.resolved (some requestB) := by
  have hguardA : ¬ (requestIdA = "" ∨ boxNumber = 0) := fun h => h.elim hidA hnum
  have hguardB : ¬ (requestIdB = "" ∨ boxNumber = 0) := fun h => h.elim hidB hnum
  have hocc : storage.isOccupied = false := (hfree storage (List.mem_of_find?_eq_some hbox)).1
  have hb := findBox_boxNumber _ _ _ hbox
  have hrA := findRequest_id _ _ _ hA
  have hrB := findRequest_id _ _ _ hB
  have hdc : canonicalId requestIdA ≠ canonicalId requestIdB := by
    rw [← hrA, ← hrB]
    exact hdistinct
  have hfirst : findCode db.storages (generateAccessCode (randA 0)) = none := by
    unfold findCode
    rw [List.find?_eq_none]
    intro s hs
    simp [(hfree s hs).2]
  have hokA : (assignStorage db users randA occupiedNowA processedNowA requestIdA
      boxNumber).response.status = 200 := by
    rcases generateLoop_spec db.storages randA maxAttempts none 0 (by omega)
        (Nat.zero_le _) with ⟨hcol, _⟩ | ⟨j, _, hj2, _, _, hres⟩
    · exact absurd hfirst (hcol 0 (Nat.zero_le _) (by decide))
    · have hlt : ¬ maxAttempts ≤ j + 1 := by omega
      cases hpop : populate users (some requestA.studentId) with
      | none => exact absurd hpop hstudent
      | some student =>
        simp [assignStorage, hguardA, hA, hpendingA, hbox, hocc, hres, hlt, hpop]
  rcases assignStorage_cases db users randA occupiedNowA processedNowA requestIdA
      boxNumber with
    ⟨_, _, hne⟩ | ⟨request1, storage1, i, _, _, hreq1, _, hbox1, _, _, _, _, _, hout⟩
  · exact absurd hokA hne
  · rw [hA] at hreq1
    rw [hbox] at hbox1
    cases hreq1
    cases hbox1
    have hfindBox := find_saveFirst (fun s : Storage => s.boxNumber == boxNumber)
      { storage with
        isOccupied := true, occupiedBy := some requestA.studentId,
        accessCode := some (generateAccessCode (randA i)),
        occupiedAt := some occupiedNowA } db.storages storage hbox (by simpa using hb)
    have hfindA := findRequest_saveFirst db.requests requestIdA requestA
      { requestA with
        status := Status.approved, assignedBox := some boxNumber,
        accessCode := some (generateAccessCode (randA i)),
        processedAt := some processedNowA } hA hrA
    have hfindB : findRequest (saveFirst (fun r : Request => r._id == canonicalId requestIdA)
        { requestA with
          status := Status.approved, assignedBox := some boxNumber,
          accessCode := some (generateAccessCode (randA i)),
          processedAt := some processedNowA } db.requests) requestIdB
        = Lookup.resolved (some requestB) := by
      apply findRequest_of_find _ _ _ (findRequest_cast _ _ _ hB)
      rw [find_saveFirst_other]
      · exact findRequest_find _ _ _ hB
      · intro x hx
        have hx2 : x._id = canonicalId requestIdA := by simpa using hx
        simp [hx2, hdc]
      · simp [hrA, hdc]
    refine ⟨hokA, ?_, ⟨generateAccessCode (randA i), ?_, ?_⟩, ?_⟩
    · rw [hout]
      have hfb : findBox (saveFirst (fun s : Storage => s.boxNumber == boxNumber)
          { storage with
            isOccupied := true, occupiedBy := some requestA.studentId,
            accessCode := some (generateAccessCode (randA i)),
            occupiedAt := some occupiedNowA } db.storages) boxNumber = _ := hfindBox
      simp only [assignStorage, hguardB, hfindB, hpendingB, hfb, if_false, ne_eq,
        not_true_eq_false, if_true]
    · rw [hout]; exact hfindBox
    · rw [hout]; exact hfindA
    · rw [hout]; exact hfindB

/-- Witness of C15: in `requestedDb` the request of `alice`, then the request of `bob`, is
assigned box 7. -/
theorem sequential_assign_same_box_witness :
    (assignStorage requestedDb [alice, bob] sampleRand 3 4 "65a000000000000000000001" 7).response.status = 200 ∧
    assignStorage (assignStorage requestedDb [alice, bob] sampleRand 3 4 "65a000000000000000000001" 7).db
        [alice, bob] sampleRand 5 6 "65a000000000000000000002" 7
      = reject (assignStorage requestedDb [alice, bob] sampleRand 3 4 "65a000000000000000000001" 7).db
          400 "Storage box is already occupied" ∧
    (∃ code,
      findBox (assignStorage requestedDb [alice, bob] sampleRand 3 4 "65a000000000000000000001" 7).db.storages 7
        = some { boxNumber := 7, isOccupied := true, occupiedBy := some "65a0000000000000000000a1",
                 accessCode := some code, occupiedAt := some 3 } ∧
      findRequest (assignStorage requestedDb [alice, bob] sampleRand 3 4 "65a000000000000000000001" 7).db.requests
          "65a000000000000000000001"
        = Lookup.resolved (some
               { _id := "65a000000000000000000001", studentId := "65a0000000000000000000a1", studentEmail := "alice@example.org",
                 status := Status.approved, assignedBox := some 7, accessCode := some code,
                 createdAt := 1, processedAt := some 4 })) ∧
    findRequest (assignStorage requestedDb [alice, bob] sampleRand 3 4 "65a000000000000000000001" 7).db.requests
        "65a000000000000000000002"
      = Lookup.resolved (some
             { _id := "65a000000000000000000002", studentId := "65a0000000000000000000b2", studentEmail := "bob@example.org",
               createdAt := 2 }) :=
  sequential_assign_same_box requestedDb [alice, bob] sampleRand 3 4 "65a000000000000000000001" sampleRand 5 6 "65a000000000000000000002" 7
    { _id := "65a000000000000000000001", studentId := "65a0000000000000000000a1", studentEmail := "alice@example.org", createdAt := 1 }
    { _id := "65a000000000000000000002", studentId := "65a0000000000000000000b2", studentEmail := "bob@example.org", createdAt := 2 }
    { boxNumber := 7 }
    (by set_option maxRecDepth 1000000 in decide)
    (by set_option maxRecDepth 1000000 in decide) (by decide)
    (by set_option maxRecDepth 1000000 in decide) (by decide) (by decide)
    (by set_option maxRecDepth 1000000 in decide) (by decide) (by decide) (by decide)
    (by decide)
/-! ## The code number: rounding to the nearest double -/

theorem log_two_eq (q : ℚ) (e : ℤ) (hq : 0 < q) (h1 : (2 : ℚ) ^ e ≤ q)
    (h2 : q < (2 : ℚ) ^ (e + 1)) : Int.log 2 q = e := by
  have ha : e ≤ Int.log 2 q := by
    have := (Int.zpow_le_iff_le_log (R := ℚ) (b := 2) (by norm_num) hq (x := e)).1
      (by simpa using h1)
    exact this
  have hb : Int.log 2 q < e + 1 := by
    have := (Int.lt_zpow_iff_log_lt (R := ℚ) (b := 2) (by norm_num) hq (x := e + 1)).1
      (by simpa using h2)
    exact this
  omega

theorem log_two_lt (q : ℚ) (e : ℤ) (hq : 0 < q) (h2 : q < (2 : ℚ) ^ e) : Int.log 2 q < e :=
  (Int.lt_zpow_iff_log_lt (R := ℚ) (b := 2) (by norm_num) hq (x := e)).1 (by simpa using h2)

theorem le_roundHalfEven (t : ℚ) (N : ℤ) (h : (N : ℚ) ≤ t) : N ≤ roundHalfEven t := by
  have hf : N ≤ ⌊t⌋ := Int.le_floor.2 h
  unfold roundHalfEven
  split_ifs <;> omega

theorem roundHalfEven_le (t : ℚ) (N : ℤ) (h : t ≤ (N : ℚ)) : roundHalfEven t ≤ N := by
  have hfl := Int.floor_le t
  have hf : ⌊t⌋ ≤ N := Int.cast_le.1 (hfl.trans h)
  unfold roundHalfEven
  split_ifs with h1 h2 h3
  · exact hf
  · rcases lt_or_eq_of_le hf with hlt | heq
    · omega
    · exfalso
      rw [heq] at h2
      linarith
  · exact hf
  · rcases lt_or_eq_of_le hf with hlt | heq
    · omega
    · exfalso
      rw [heq] at h1
      linarith

theorem roundHalfEven_le_pred (t : ℚ) (N : ℤ) (h : t < (N : ℚ) - 1 / 2) :
    roundHalfEven t ≤ N - 1 := by
  have hfl := Int.floor_le t
  have hlt := Int.lt_floor_add_one t
  have hf : ⌊t⌋ ≤ N - 1 := by
    have : ((⌊t⌋ : ℤ) : ℚ) < (N : ℚ) := by linarith
    have := Int.cast_lt.1 this
    omega
  unfold roundHalfEven
  split_ifs with h1 h2 h3
  · exact hf
  · rcases lt_or_eq_of_le hf with hlt2 | heq
    · omega
    · exfalso
      rw [heq] at h2
      push_cast at h2
      linarith
  · exact hf
  · rcases lt_or_eq_of_le hf with hlt2 | heq
    · omega
    · exfalso
      rw [heq] at h1
      push_cast at h1
      linarith

theorem roundHalfEven_near (t : ℚ) (K : ℤ) (h1 : (K : ℚ) - 1 / 2 < t)
    (h2 : t < (K : ℚ) + 1 / 2) : roundHalfEven t = K := by
  have hfl := Int.floor_le t
  have hlt := Int.lt_floor_add_one t
  have ha : K - 1 ≤ ⌊t⌋ := by
    have : ((K - 1 : ℤ) : ℚ) < ((⌊t⌋ + 1 : ℤ) : ℚ) := by push_cast; linarith
    have := Int.cast_lt.1 this
    omega
  have hb : ⌊t⌋ ≤ K := by
    have : ((⌊t⌋ : ℤ) : ℚ) < ((K + 1 : ℤ) : ℚ) := by push_cast; linarith
    have := Int.cast_lt.1 this
    omega
  have hcase : ⌊t⌋ = K - 1 ∨ ⌊t⌋ = K := by omega
  unfold roundHalfEven
  rcases hcase with hc | hc
  · rw [hc]
    rw [hc] at hfl hlt
    push_cast at hfl hlt ⊢
    have h3 : ¬ (t - ((K : ℚ) - 1) < 1 / 2) := by
      intro h; linarith
    have h4 : 1 / 2 < t - ((K : ℚ) - 1) := by linarith
    rw [if_neg h3, if_pos h4]
    ring
  · rw [hc]
    rw [hc] at hfl hlt
    have h3 : t - (K : ℚ) < 1 / 2 := by linarith
    rw [if_pos h3]

theorem roundHalfEven_intCast (K : ℤ) : roundHalfEven (K : ℚ) = K :=
  roundHalfEven_near _ K (by linarith) (by linarith)

theorem roundDouble_pos_eq (q : ℚ) (hq : 0 < q) :
    roundDouble q = (roundHalfEven (q / 2 ^ ulpExponent q) : ℚ) * 2 ^ ulpExponent q := by
  unfold roundDouble
  rw [if_neg (not_le.2 hq)]

theorem roundDouble_le (q : ℚ) (K : ℤ) (hq : 0 < q)
    (h : q ≤ (K : ℚ) * 2 ^ ulpExponent q) : roundDouble q ≤ (K : ℚ) * 2 ^ ulpExponent q := by
  have hpos : (0 : ℚ) < 2 ^ ulpExponent q := zpow_pos (by norm_num) _
  rw [roundDouble_pos_eq q hq]
  have h1 : q / 2 ^ ulpExponent q ≤ (K : ℚ) := (div_le_iff₀ hpos).2 h
  have h2 : ((roundHalfEven (q / 2 ^ ulpExponent q) : ℤ) : ℚ) ≤ (K : ℚ) :=
    Int.cast_le.2 (roundHalfEven_le _ K h1)
  exact mul_le_mul_of_nonneg_right h2 hpos.le

theorem le_roundDouble (q : ℚ) (K : ℤ) (hq : 0 < q)
    (h : (K : ℚ) * 2 ^ ulpExponent q ≤ q) : (K : ℚ) * 2 ^ ulpExponent q ≤ roundDouble q := by
  have hpos : (0 : ℚ) < 2 ^ ulpExponent q := zpow_pos (by norm_num) _
  rw [roundDouble_pos_eq q hq]
  have h1 : (K : ℚ) ≤ q / 2 ^ ulpExponent q := (le_div_iff₀ hpos).2 h
  have h2 : (K : ℚ) ≤ ((roundHalfEven (q / 2 ^ ulpExponent q) : ℤ) : ℚ) :=
    Int.cast_le.2 (le_roundHalfEven _ K h1)
  exact mul_le_mul_of_nonneg_right h2 hpos.le

theorem roundDouble_nonneg (q : ℚ) : 0 ≤ roundDouble q := by
  rcases le_or_lt q 0 with h | h
  · unfold roundDouble
    rw [if_pos h]
  · have := le_roundDouble q 0 h (by simpa using h.le)
    simpa using this

theorem ulpExponent_of_log (q : ℚ) (e : ℤ) (hq : 0 < q) (he : -1022 ≤ e)
    (h1 : (2 : ℚ) ^ e ≤ q) (h2 : q < (2 : ℚ) ^ (e + 1)) : ulpExponent q = e - 52 := by
  unfold ulpExponent
  rw [log_two_eq q e hq h1 h2]
  omega

theorem ulpExponent_le (q : ℚ) (e : ℤ) (hq : 0 < q) (he : -1021 ≤ e)
    (h2 : q < (2 : ℚ) ^ e) : ulpExponent q ≤ e - 53 := by
  unfold ulpExponent
  have := log_two_lt q e hq h2
  omega

theorem grid_coarser (M g e : ℤ) (hg : g ≤ e) :
    ∃ K : ℤ, (M : ℚ) * 2 ^ e = (K : ℚ) * 2 ^ g := by
  refine ⟨M * 2 ^ (e - g).toNat, ?_⟩
  have h1 : ((e - g).toNat : ℤ) = e - g := Int.toNat_of_nonneg (by omega)
  have h2 : (2 : ℚ) ^ e = 2 ^ ((e - g).toNat : ℤ) * 2 ^ g := by
    rw [← zpow_add₀ (by norm_num : (2 : ℚ) ≠ 0), h1]
    congr 1
    ring
  rw [h2]
  push_cast
  rw [zpow_natCast]
  ring

/-- Rounding a positive rational near a point of the grid of the doubles of its binade. -/
theorem roundDouble_near (q : ℚ) (e K : ℤ) (hq : 0 < q) (he : -1022 ≤ e)
    (h1 : (2 : ℚ) ^ e ≤ q) (h2 : q < (2 : ℚ) ^ (e + 1))
    (h3 : (K : ℚ) - 1 / 2 < q / 2 ^ (e - 52)) (h4 : q / 2 ^ (e - 52) < (K : ℚ) + 1 / 2) :
    roundDouble q = (K : ℚ) * 2 ^ (e - 52) := by
  rw [roundDouble_pos_eq q hq, ulpExponent_of_log q e hq he h1 h2,
    roundHalfEven_near _ K h3 h4]

/-- A bound between two doubles survives rounding: upper bound on the `2 ^ e` grid. -/
theorem roundDouble_le_grid (q : ℚ) (M e : ℤ) (hq : 0 < q) (hg : ulpExponent q ≤ e)
    (h : q ≤ (M : ℚ) * 2 ^ e) : roundDouble q ≤ (M : ℚ) * 2 ^ e := by
  obtain ⟨K, hK⟩ := grid_coarser M (ulpExponent q) e hg
  rw [hK] at h ⊢
  exact roundDouble_le q K hq h

theorem le_roundDouble_grid (q : ℚ) (M e : ℤ) (hq : 0 < q) (hg : ulpExponent q ≤ e)
    (h : (M : ℚ) * 2 ^ e ≤ q) : (M : ℚ) * 2 ^ e ≤ roundDouble q := by
  obtain ⟨K, hK⟩ := grid_coarser M (ulpExponent q) e hg
  rw [hK] at h ⊢
  exact le_roundDouble q K hq h

/-- The largest double below `1` is `1 - 2 ^ (-53)`. -/
theorem double_lt_one (r : ℚ) (hd : roundDouble r = r) (h1 : r < 1) :
    r ≤ 1 - 2 ^ (-53 : ℤ) := by
  by_contra hlt
  push_neg at hlt
  have hpos : 0 < r := lt_trans (by norm_num) hlt
  have hlow : (2 : ℚ) ^ (-1 : ℤ) ≤ r := le_trans (by norm_num) hlt.le
  have hup : r < (2 : ℚ) ^ ((-1 : ℤ) + 1) := by simpa using h1
  have hu : ulpExponent r = -53 := by
    rw [ulpExponent_of_log r (-1) hpos (by norm_num) hlow hup]
    norm_num
  rw [roundDouble_pos_eq r hpos, hu] at hd
  generalize roundHalfEven (r / 2 ^ (-53 : ℤ)) = K at hd
  have h2 : ((9007199254740992 - 1 : ℤ) : ℚ) < (K : ℚ) := by
    rw [← hd] at hlt
    norm_num at hlt ⊢
    linarith
  have h3 : (K : ℚ) < ((9007199254740992 : ℤ) : ℚ) := by
    rw [← hd] at h1
    norm_num at h1 ⊢
    linarith
  have h4 := Int.cast_lt.1 h2
  have h5 := Int.cast_lt.1 h3
  omega

theorem roundDouble_product_le (r : ℚ) (h : r ≤ 1 - 2 ^ (-53 : ℤ)) :
    roundDouble (r * 900000) ≤ 900000 - 2 ^ (-33 : ℤ) := by
  rcases le_or_lt (r * 900000) 0 with hp | hp
  · unfold roundDouble
    rw [if_pos hp]
    norm_num
  · rcases lt_or_le (r * 900000) ((2 : ℚ) ^ (19 : ℤ)) with hs | hs
    · have hu : ulpExponent (r * 900000) ≤ -33 := by
        have := ulpExponent_le (r * 900000) 19 hp (by norm_num) hs
        omega
      have hb := roundDouble_le_grid (r * 900000) 4503599627370496 (-33) hp hu
        (by norm_num at hs ⊢; linarith)
      refine le_trans hb ?_
      norm_num
    · have hup : r * 900000 < (2 : ℚ) ^ ((19 : ℤ) + 1) := by
        norm_num at h ⊢
        linarith
      have hu : ulpExponent (r * 900000) = -33 := by
        rw [ulpExponent_of_log (r * 900000) 19 hp (by norm_num) hs hup]
        norm_num
      rw [roundDouble_pos_eq _ hp, hu]
      have hk : roundHalfEven (r * 900000 / 2 ^ (-33 : ℤ)) ≤ 7730941132800000 - 1 := by
        apply roundHalfEven_le_pred
        norm_num at h ⊢
        linarith
      have hk2 : ((roundHalfEven (r * 900000 / 2 ^ (-33 : ℤ)) : ℤ) : ℚ)
          ≤ ((7730941132800000 - 1 : ℤ) : ℚ) := Int.cast_le.2 hk
      have hpos : (0 : ℚ) < 2 ^ (-33 : ℤ) := zpow_pos (by norm_num) _
      refine le_trans (mul_le_mul_of_nonneg_right hk2 hpos.le) ?_
      norm_num

theorem roundDouble_sum_bounds (x : ℚ) (h0 : 0 ≤ x) (h : x ≤ 900000 - 2 ^ (-33 : ℤ)) :
    100000 ≤ roundDouble (100000 + x) ∧
      roundDouble (100000 + x) ≤ 1000000 - 2 ^ (-33 : ℤ) := by
  have hp : 0 < 100000 + x := by linarith
  have hs : 100000 + x < (2 : ℚ) ^ (20 : ℤ) := by
    norm_num at h ⊢
    linarith
  have hu : ulpExponent (100000 + x) ≤ -33 := by
    have := ulpExponent_le (100000 + x) 20 hp (by norm_num) hs
    omega
  constructor
  · have hb := le_roundDouble_grid (100000 + x) 858993459200000 (-33) hp hu
      (by norm_num; linarith)
    refine le_trans ?_ hb
    norm_num
  · have hb := roundDouble_le_grid (100000 + x) 8589934591999999 (-33) hp hu
      (by norm_num at h ⊢; linarith)
    refine le_trans hb ?_
    norm_num

/-- The number the source floors lies between 100000 and 999999 for every double
`0 ≤ r < 1`, the two roundings included. -/
theorem doubleCodeNumber_bounds (r : ℚ) (hd : roundDouble r = r) (_h0 : 0 ≤ r) (h1 : r < 1) :
    100000 ≤ doubleCodeNumber r ∧ doubleCodeNumber r ≤ 999999 := by
  have hr := double_lt_one r hd h1
  have hp := roundDouble_product_le r hr
  have hs := roundDouble_sum_bounds _ (roundDouble_nonneg (r * 900000)) hp
  have hlow : (100000 : ℤ) ≤ Rat.floor (roundDouble (100000 + roundDouble (r * 900000))) := by
    rw [Rat.le_floor]
    push_cast
    exact hs.1
  have hhigh : Rat.floor (roundDouble (100000 + roundDouble (r * 900000))) < (1000000 : ℤ) := by
    by_contra hge
    have h2 : (1000000 : ℤ) ≤ Rat.floor (roundDouble (100000 + roundDouble (r * 900000))) := by
      omega
    rw [Rat.le_floor] at h2
    push_cast at h2
    have h3 := hs.2
    norm_num at h3
    linarith
  unfold doubleCodeNumber
  omega

theorem int_grid (m : ℤ) : ((m * 8589934592 : ℤ) : ℚ) * 2 ^ (-33 : ℤ) = (m : ℚ) := by
  push_cast
  norm_num
  ring

/-- The two roundings move the floored number up by at most one, and never down. -/
theorem doubleCodeNumber_near (r : ℚ) (hd : roundDouble r = r) (h0 : 0 ≤ r) (h1 : r < 1) :
    codeNumber r ≤ doubleCodeNumber r ∧ doubleCodeNumber r ≤ codeNumber r + 1 := by
  have hr := double_lt_one r hd h1
  have hfl := Int.floor_le (100000 + 900000 * r)
  have hlt := Int.lt_floor_add_one (100000 + 900000 * r)
  have hn0 : (100000 : ℤ) ≤ ⌊100000 + 900000 * r⌋ := by
    rw [Int.le_floor]
    push_cast
    linarith
  obtain ⟨m, hm⟩ : ∃ m : ℤ, ⌊100000 + 900000 * r⌋ = 100000 + m := ⟨⌊100000 + 900000 * r⌋ - 100000, by omega⟩
  rw [hm] at hfl hlt hn0
  push_cast at hfl hlt
  have hm0 : 0 ≤ m := by omega
  have hpa : (m : ℚ) ≤ roundDouble (r * 900000) ∧ roundDouble (r * 900000) ≤ (m : ℚ) + 1 := by
    rcases le_or_lt (r * 900000) 0 with hp | hp
    · have hm1 : (m : ℚ) ≤ 0 := by linarith
      have hm2 : (0 : ℚ) ≤ (m : ℚ) := by exact_mod_cast hm0
      unfold roundDouble
      rw [if_pos hp]
      constructor <;> linarith
    · have hs : r * 900000 < (2 : ℚ) ^ (20 : ℤ) := by
        norm_num
        linarith
      have hu : ulpExponent (r * 900000) ≤ -33 := by
        have := ulpExponent_le (r * 900000) 20 hp (by norm_num) hs
        omega
      constructor
      · have hb := le_roundDouble_grid (r * 900000) (m * 8589934592) (-33) hp hu
          (by rw [int_grid]; linarith)
        rwa [int_grid] at hb
      · have hb := roundDouble_le_grid (r * 900000) ((m + 1) * 8589934592) (-33) hp hu
          (by rw [int_grid]; push_cast; linarith)
        rw [int_grid] at hb
        exact_mod_cast hb
  have hm9 : (m : ℚ) + 1 ≤ 900000 := by
    have : m < 900000 := by
      have : ((m : ℤ) : ℚ) < ((900000 : ℤ) : ℚ) := by push_cast; linarith
      exact Int.cast_lt.1 this
    have : m + 1 ≤ 900000 := by omega
    exact_mod_cast this
  have hsa : ((100000 + m : ℤ) : ℚ) ≤ roundDouble (100000 + roundDouble (r * 900000)) ∧
      roundDouble (100000 + roundDouble (r * 900000)) ≤ ((100000 + m + 1 : ℤ) : ℚ) := by
    have hm2 : (0 : ℚ) ≤ (m : ℚ) := by exact_mod_cast hm0
    have hp : 0 < 100000 + roundDouble (r * 900000) := by linarith [hpa.1]
    have hs : 100000 + roundDouble (r * 900000) < (2 : ℚ) ^ (20 : ℤ) := by
      norm_num
      linarith [hpa.2]
    have hu : ulpExponent (100000 + roundDouble (r * 900000)) ≤ -33 := by
      have := ulpExponent_le _ 20 hp (by norm_num) hs
      omega
    constructor
    · have hb := le_roundDouble_grid _ ((100000 + m) * 8589934592) (-33) hp hu
        (by rw [int_grid]; push_cast; linarith [hpa.1])
      rwa [int_grid] at hb
    · have hb := roundDouble_le_grid _ ((100000 + m + 1) * 8589934592) (-33) hp hu
        (by rw [int_grid]; push_cast; linarith [hpa.2])
      rwa [int_grid] at hb
  have hf1 : 100000 + m ≤ ⌊roundDouble (100000 + roundDouble (r * 900000))⌋ :=
    Int.le_floor.2 hsa.1
  have hf2 : ⌊roundDouble (100000 + roundDouble (r * 900000))⌋ ≤ 100000 + m + 1 :=
    Int.cast_le.1 ((Int.floor_le _).trans hsa.2)
  have hc : codeNumber r = (100000 + m).toNat := by
    have hrf : Rat.floor (100000 + 900000 * r) = ⌊100000 + 900000 * r⌋ := rfl
    unfold codeNumber
    rw [hrf, hm]
  have hdn : doubleCodeNumber r
      = (⌊roundDouble (100000 + roundDouble (r * 900000))⌋).toNat := by
    rfl
  rw [hc, hdn]
  omega

theorem roundDouble_sampleRandom : roundDouble sampleRandom = sampleRandom := by
  rw [roundDouble_near sampleRandom (-6) 7883741299696320 (by norm_num [sampleRandom])
    (by norm_num) (by norm_num [sampleRandom]) (by norm_num [sampleRandom])
    (by norm_num [sampleRandom]) (by norm_num [sampleRandom])]
  norm_num [sampleRandom]

theorem roundDouble_sample_product : roundDouble (sampleRandom * 900000) = 24617 := by
  rw [roundDouble_near (sampleRandom * 900000) 14 6766669435240448
    (by norm_num [sampleRandom]) (by norm_num) (by norm_num [sampleRandom])
    (by norm_num [sampleRandom]) (by norm_num [sampleRandom]) (by norm_num [sampleRandom])]
  norm_num

theorem roundDouble_sample_sum : roundDouble (100000 + 24617) = 124617 := by
  rw [roundDouble_near (100000 + 24617) 16 8563615032410112
    (by norm_num) (by norm_num) (by norm_num) (by norm_num) (by norm_num) (by norm_num)]
  norm_num

theorem doubleCodeNumber_sampleRandom : doubleCodeNumber sampleRandom = 124617 := by
  unfold doubleCodeNumber
  rw [roundDouble_sample_product, roundDouble_sample_sum]
  have h : Rat.floor (124617 : ℚ) = 124617 := by
    have h2 : ⌊((124617 : ℤ) : ℚ)⌋ = 124617 := Int.floor_intCast 124617
    exact h2
  rw [h]
  rfl

theorem codeNumber_sampleRandom : codeNumber sampleRandom = 124616 := by
  have h : Rat.floor (100000 + 900000 * sampleRandom) = 124616 := by
    have h2 : ⌊100000 + 900000 * sampleRandom⌋ = (124616 : ℤ) := by
      rw [Int.floor_eq_iff]
      constructor <;> norm_num [sampleRandom]
    exact h2
  unfold codeNumber
  rw [h]
  rfl

theorem roundDouble_half : roundDouble (1 / 2) = 1 / 2 := by
  rw [roundDouble_near (1 / 2) (-1) 4503599627370496 (by norm_num) (by norm_num)
    (by norm_num) (by norm_num) (by norm_num) (by norm_num)]
  norm_num

theorem drawOfRandom_val (r : ℚ) :
    (drawOfRandom r).val = (doubleCodeNumber r - 100000) % 900000 := rfl

/-- C16 (as worded): for the double `r = 123183457807755 / 2 ^ 52`, which satisfies
`0 ≤ r < 1`, the exact `floor(100000 + 900000 * r)` is `124616`, but the product
`r * 900000` rounds up to the double `24617`, so that `generateAccessCode` returns
`124617`, not the decimal string of `floor(100000 + 900000 * r)`. -/
theorem generated_code_not_exact_floor :
    roundDouble sampleRandom = sampleRandom ∧ 0 ≤ sampleRandom ∧ sampleRandom < 1 ∧
      codeNumber sampleRandom = 124616 ∧
      doubleCodeNumber sampleRandom = 124617 ∧
      generateAccessCode (drawOfRandom sampleRandom) = "124617" ∧
      generateAccessCode (drawOfRandom sampleRandom) ≠ toString (codeNumber sampleRandom) := by
  have hdraw : drawOfRandom sampleRandom = ⟨24617, by omega⟩ := by
    apply Fin.ext
    rw [drawOfRandom_val, doubleCodeNumber_sampleRandom]
  have hcode : generateAccessCode (drawOfRandom sampleRandom) = "124617" := by
    apply String.ext
    rw [hdraw, generateAccessCode_data]
    decide
  have hexact : toString (124616 : Nat) = generateAccessCode ⟨24616, by omega⟩ := rfl
  refine ⟨roundDouble_sampleRandom, by norm_num [sampleRandom], by norm_num [sampleRandom],
    codeNumber_sampleRandom, doubleCodeNumber_sampleRandom, hcode, ?_⟩
  rw [hcode, codeNumber_sampleRandom, hexact]
  intro h
  have h2 := congrArg String.data h
  rw [generateAccessCode_data] at h2
  revert h2
  decide

/-- C16 (amended): for every double `r` with `0 ≤ r < 1`, `generateAccessCode` returns the
decimal string of the number the source floors, `100000 + r * 900000` computed in double
arithmetic (the product rounded, then the sum).  That number is an integer between 100000
and 999999 inclusive, and it is `floor(100000 + 900000 * r)` or one more; the code has
exactly 6 characters, all decimal digits, and its first digit is not `0`. -/
theorem generated_code_six_digits (r : ℚ) (hd : roundDouble r = r) (h0 : 0 ≤ r)
    (h1 : r < 1) :
    100000 + (drawOfRandom r).val = doubleCodeNumber r ∧
      generateAccessCode (drawOfRandom r) = toString (doubleCodeNumber r) ∧
      100000 ≤ doubleCodeNumber r ∧ doubleCodeNumber r ≤ 999999 ∧
      (doubleCodeNumber r = codeNumber r ∨ doubleCodeNumber r = codeNumber r + 1) ∧
      (generateAccessCode (drawOfRandom r)).length = 6 ∧
      (∀ c ∈ (generateAccessCode (drawOfRandom r)).data, c.isDigit = true) ∧
      (generateAccessCode (drawOfRandom r)).data.head? ≠ some '0' := by
  have hb := doubleCodeNumber_bounds r hd h0 h1
  have hn := doubleCodeNumber_near r hd h0 h1
  have hval : 100000 + (drawOfRandom r).val = doubleCodeNumber r := by
    rw [drawOfRandom_val]
    omega
  have hf := generateAccessCode_format (drawOfRandom r)
  refine ⟨hval, ?_, hb.1, hb.2, by omega, hf.1, hf.2.1, hf.2.2⟩
  unfold generateAccessCode
  rw [hval]

/-- Witness of C16 at the double `r = 1/2`. -/
theorem generated_code_six_digits_witness :
    100000 + (drawOfRandom (1 / 2)).val = doubleCodeNumber (1 / 2) ∧
      generateAccessCode (drawOfRandom (1 / 2)) = toString (doubleCodeNumber (1 / 2)) ∧
      100000 ≤ doubleCodeNumber (1 / 2) ∧ doubleCodeNumber (1 / 2) ≤ 999999 ∧
      (doubleCodeNumber (1 / 2) = codeNumber (1 / 2) ∨
        doubleCodeNumber (1 / 2) = codeNumber (1 / 2) + 1) ∧
      (generateAccessCode (drawOfRandom (1 / 2))).length = 6 ∧
      (∀ c ∈ (generateAccessCode (drawOfRandom (1 / 2))).data, c.isDigit = true) ∧
      (generateAccessCode (drawOfRandom (1 / 2))).data.head? ≠ some '0' :=
  generated_code_six_digits (1 / 2) roundDouble_half (by norm_num) (by norm_num)

/-! ## The read endpoints -/

theorem map_populateStorage (users : List User) (l : List Storage) :
    (l.map (populateStorage users)).map (fun p => p.storage) = l := by
  induction l with
  | nil => rfl
  | cons y ys ih => simp [populateStorage, ih]

theorem length_initialBoxes : initialBoxes.length = 500 := by
  have := congrArg List.length boxNumbers_initial
  simpa using this

/-- C17: the seeding of the pool by the listing of the boxes inserts, into an empty box
collection, exactly the 500 boxes numbered 1..500, each not occupied and with `occupiedBy`,
`accessCode` and `occupiedAt` null; a box collection that is not empty is left as it is.
So listing twice leaves the same database as listing once, and an occupied box is never
reset. -/
theorem seeding_is_idempotent (db : Db) (users users2 : List User) :
    ((db.storages = [] ∧
        (storageBoxes db users).db = { storages := initialBoxes, requests := db.requests }) ∨
      (db.storages ≠ [] ∧ (storageBoxes db users).db = db)) ∧
    initialBoxes.map (fun s => s.boxNumber) = List.range' 1 500 ∧
    initialBoxes.length = 500 ∧
    (∀ s ∈ initialBoxes,
      s.isOccupied = false ∧ s.occupiedBy = none ∧ s.accessCode = none ∧
        s.occupiedAt = none) ∧
    (storageBoxes (storageBoxes db users).db users2).db = (storageBoxes db users).db := by
  have hne : initialBoxes ≠ [] := by
    intro h
    have := length_initialBoxes
    rw [h] at this
    cases this
  have hcase : (db.storages = [] ∧
        (storageBoxes db users).db = { storages := initialBoxes, requests := db.requests }) ∨
      (db.storages ≠ [] ∧ (storageBoxes db users).db = db) := by
    cases hs : db.storages with
    | nil =>
      left
      refine ⟨rfl, ?_⟩
      simp [storageBoxes, hs]
    | cons y ys =>
      right
      refine ⟨by simp, ?_⟩
      simp [storageBoxes, hs]
  have hstay : ∀ d : Db, d.storages ≠ [] → ∀ us : List User, (storageBoxes d us).db = d := by
    intro d hd us
    cases hs : d.storages with
    | nil => exact absurd hs hd
    | cons y ys => simp [storageBoxes, hs]
  refine ⟨hcase, boxNumbers_initial, length_initialBoxes, ?_, ?_⟩
  · intro s hs
    exact mem_initialBoxes s (by rw [initialDb_storages]; exact hs)
  · rcases hcase with ⟨_, h⟩ | ⟨h1, h⟩
    · rw [h]
      exact hstay { storages := initialBoxes, requests := db.requests }
        (by dsimp only; exact hne) users2
    · rw [h]
      exact hstay _ h1 users2

/-- C18: in every reachable database the listing of the boxes returns the boxes of the pool,
each exactly once, in ascending order of box number (1, 2, ..., 500), and writes nothing. -/
theorem listing_in_number_order (db : Db) (users : List User) (h : Reachable db) :
    (storageBoxes db users).boxes.map (fun p => p.storage) = db.storages ∧
    (storageBoxes db users).boxes.map (fun p => p.storage.boxNumber) = List.range' 1 500 ∧
    ((storageBoxes db users).boxes.map (fun p => p.storage.boxNumber)).Pairwise
      (fun a b => a < b) ∧
    (storageBoxes db users).db = db := by
  have hnum := boxNumbers_of_reachable db h
  have hne : db.storages ≠ [] := by
    intro hnil
    rw [hnil] at hnum
    have := congrArg List.length hnum
    simp at this
  have hboxes : (storageBoxes db users).boxes = db.storages.map (populateStorage users) := by
    cases hs : db.storages with
    | nil => exact absurd hs hne
    | cons y ys => simp [storageBoxes, hs]
  have hdb : (storageBoxes db users).db = db := by
    cases hs : db.storages with
    | nil => exact absurd hs hne
    | cons y ys => simp [storageBoxes, hs]
  have hmap : (storageBoxes db users).boxes.map (fun p => p.storage) = db.storages := by
    rw [hboxes]
    exact map_populateStorage users db.storages
  have hids : (storageBoxes db users).boxes.map (fun p => p.storage.boxNumber)
      = List.range' 1 500 := by
    rw [← hnum, ← hmap, List.map_map]
    rfl
  refine ⟨hmap, hids, ?_, hdb⟩
  rw [hids]
  exact List.pairwise_lt_range' 1 500

/-- Witness of C18 on the sample database with two occupied boxes. -/
theorem listing_in_number_order_witness :
    (storageBoxes fullDb [alice, bob]).boxes.map (fun p => p.storage) = fullDb.storages ∧
    (storageBoxes fullDb [alice, bob]).boxes.map (fun p => p.storage.boxNumber)
      = List.range' 1 500 ∧
    ((storageBoxes fullDb [alice, bob]).boxes.map (fun p => p.storage.boxNumber)).Pairwise
      (fun a b => a < b) ∧
    (storageBoxes fullDb [alice, bob]).db = fullDb :=
  listing_in_number_order fullDb [alice, bob] reachable_fullDb

/-- C19: the listing of the pending requests returns exactly the requests whose status is
`pending`, each once (no approved and no rejected request), ordered by `createdAt` from
newest to oldest, each with its student populated. -/
theorem pending_listing_sorted (db : Db) (users : List User) :
    ((pendingRequests db users).map (fun p => p.request)).Perm
      (db.requests.filter (fun r => r.status == Status.pending)) ∧
    ((pendingRequests db users).map (fun p => p.request)).Pairwise
      (fun a b => a.createdAt ≥ b.createdAt) ∧
    (∀ p ∈ pendingRequests db users,
      p.request ∈ db.requests ∧ p.request.status = Status.pending ∧
        p.student = populate users (some p.request.studentId)) := by
  have hmap : (pendingRequests db users).map (fun p => p.request)
      = (db.requests.filter (fun r => r.status == Status.pending)).insertionSort
          (fun a b => a.createdAt ≥ b.createdAt) := by
    unfold pendingRequests
    rw [List.map_map]
    have hid : ((fun p : PopulatedRequest => p.request) ∘ populateRequest users) = id := by
      funext r
      rfl
    rw [hid, List.map_id]
  have hperm := List.perm_insertionSort (fun a b : Request => a.createdAt ≥ b.createdAt)
    (db.requests.filter (fun r => r.status == Status.pending))
  haveI : IsTotal Request (fun a b => a.createdAt ≥ b.createdAt) :=
    ⟨fun a b => Nat.le_total b.createdAt a.createdAt⟩
  haveI : IsTrans Request (fun a b => a.createdAt ≥ b.createdAt) :=
    ⟨fun a b c hab hbc => Nat.le_trans hbc hab⟩
  have hsorted := List.sorted_insertionSort (fun a b : Request => a.createdAt ≥ b.createdAt)
    (db.requests.filter (fun r => r.status == Status.pending))
  refine ⟨?_, ?_, ?_⟩
  · rw [hmap]
    exact hperm
  · rw [hmap]
    exact hsorted
  · intro p hp
    have hp2 : p.request ∈ (pendingRequests db users).map (fun p => p.request) :=
      List.mem_map_of_mem _ hp
    rw [hmap] at hp2
    have hp3 := (hperm.mem_iff).1 hp2
    rw [List.mem_filter] at hp3
    refine ⟨hp3.1, by simpa using hp3.2, ?_⟩
    unfold pendingRequests at hp
    rw [List.mem_map] at hp
    obtain ⟨r, _, hr⟩ := hp
    rw [← hr]
    rfl

/-- C20: the statistics are `totalBoxes` the number of boxes, `occupiedBoxes` the number of
boxes with `isOccupied = true`, `availableBoxes = totalBoxes - occupiedBoxes`, which is the
number of boxes with `isOccupied = false` and is never negative, and `pendingRequests` the
number of requests with status `pending`, the length of the listing of pending requests. -/
theorem statistics_counts (db : Db) (users : List User) :
    (statistics db).totalBoxes = (db.storages.length : Int) ∧
    (statistics db).occupiedBoxes
      = ((db.storages.filter (fun s => s.isOccupied == true)).length : Int) ∧
    (statistics db).availableBoxes
      = (statistics db).totalBoxes - (statistics db).occupiedBoxes ∧
    (statistics db).availableBoxes
      = ((db.storages.filter (fun s => s.isOccupied == false)).length : Int) ∧
    0 ≤ (statistics db).availableBoxes ∧
    (statistics db).pendingRequests
      = ((db.requests.filter (fun r => r.status == Status.pending)).length : Int) ∧
    (statistics db).pendingRequests = ((pendingRequests db users).length : Int) := by
  have hocc : (db.storages.filter (fun s => s.isOccupied == true))
      = db.storages.filter (fun s => s.isOccupied) := by
    congr 1
    funext s
    simp
  have hfree : (db.storages.filter (fun s => s.isOccupied == false))
      = db.storages.filter (fun s => decide ¬ (s.isOccupied = true)) := by
    congr 1
    funext s
    cases s.isOccupied <;> rfl
  have hsum := List.length_eq_countP_add_countP (fun s : Storage => s.isOccupied) db.storages
  rw [List.countP_eq_length_filter, List.countP_eq_length_filter] at hsum
  have hlen : (pendingRequests db users).length
      = (db.requests.filter (fun r => r.status == Status.pending)).length := by
    unfold pendingRequests
    rw [List.length_map, List.length_insertionSort]
  have havail : (statistics db).availableBoxes
      = ((db.storages.filter (fun s => s.isOccupied == false)).length : Int) := by
    rw [hfree]
    show (db.storages.length : Int) - ((db.storages.filter (fun s => s.isOccupied)).length : Int)
      = _
    omega
  refine ⟨rfl, ?_, rfl, havail, ?_, rfl, ?_⟩
  · rw [hocc]
    rfl
  · rw [havail]
    exact Int.natCast_nonneg _
  · rw [hlen]
    rfl
end LibraryTokenisation
